import Mathlib

/-!
# deepin-image-viewer: metadata cache, image handle and navigation / rotation control

A shallow embedding of

* `ImageInfoCache`, `ImageInfo` and `LoadImageInfoRunnable` (`src/imagedata/imageinfo.cpp`),
* `ImageFileWatcher` (`src/imagedata/imagefilewatcher.cpp`),
* `parseProviderID`, `AsyncImageResponse`, `ProviderCache` and `AsyncImageProvider`
  (`src/imagedata/imageprovider.cpp`),
* `GlobalControl` (`src/globalcontrol.cpp`).

Conventions of the embedding.

* C++ `int` is `Int`; `%` is the truncating remainder `Int.tmod`. The difference of two
  angles in `setCurrentRotation`, which can leave the range of a 32 bit `int`, is reduced to
  that range (`toInt32`); the other sums and differences are of indices and counts.
* `QSharedPointer<ImageInfoData>` is an address (`Ptr`) into a heap of records, so
  that a record held by the cache and by a handle is one shared record.
* `QHash` is a function to `Option`, `QSet` is a `Finset`.
* A `QString` is a `String`, read as its list of characters where the code indexes it.
* Signals and calls to collaborators that are not embedded (the view proxy
  model, the rotation helper, the thumbnail cache) are appended to a log of
  `Event`s, oldest first.
* What the platform answers (the file system, the type sniffer, the image readers) is a
  structure of functions passed to the operation that asks.
-/

/-! ## Basic types -/

namespace Types

/-- The image kinds of `Types::ImageType` used by the sources. -/
inductive ImageType where
  | NullImage
  | SvgImage
  | NormalImage
  | DynamicImage
  | MultiImage
  | DamagedImage
  | NonexistImage
deriving DecidableEq, Repr

end Types

/-- The part of `QUrl` the sources use: a scheme and a path. -/
structure QUrl where
  scheme : String
  path : String
deriving DecidableEq, Repr

/-- The default constructed (empty) `QUrl`. -/
def QUrl.empty : QUrl := ⟨"", ""⟩

/-- The local path of a `file` URL, the empty string for any other URL. -/
def QUrl.toLocalFile (u : QUrl) : String :=
  if u.scheme = "file" then u.path else ""

/-- The constructor `QUrl(QString)` for the two forms of string the program passes: a
`file://` URL, and any other string, which is taken as a path without scheme. What follows a
literal `file://` is kept as it stands: percent-encoding, a host, a query, a fragment and the
case of the scheme are not interpreted. -/
def QUrl.fromString (s : String) : QUrl :=
  match s.data with
  | 'f' :: 'i' :: 'l' :: 'e' :: ':' :: '/' :: '/' :: rest => ⟨"file", String.mk rest⟩
  | _ => ⟨"", s⟩

/-- The value of `INT_MAX` for a 32 bit `int`. -/
def INT_MAX : Int := 2147483647

/-- The value of `INT_MIN` for a 32 bit `int`. -/
def INT_MIN : Int := -2147483648

/-- The result of an operation on 32 bit `int`s as the machine computes it: the mathematical
result reduced modulo `2 ^ 32` into the range from `INT_MIN` to `INT_MAX`. -/
def toInt32 (x : Int) : Int := (x + 2147483648) % 4294967296 - 2147483648

/-- The Qt template `qBound(min, val, max)`, that is `qMax(min, qMin(max, val))`. -/
def qBound (lo val hi : Int) : Int := max lo (min hi val)

/-- The key type `QPair<QString, int>` of the caches. -/
abbrev Key := String × Int

/-- Modelled from the spec: `ThumbnailCache::toFindKey` (thumbnailcache.h is not among the
sources); the cache key is the composite of file path and frame index. -/
def toFindKey (path : String) (frameIndex : Int) : Key := (path, frameIndex)

/-- The address of a shared `ImageInfoData` record. -/
abbrev Ptr := Nat

/-- The class `ImageInfoData`. `QSize` is the pair `width`, `height`; `qreal` is `Rat`. -/
structure ImageInfoData where
  path : String := ""
  type : Types.ImageType := Types.ImageType.NullImage
  width : Int := -1
  height : Int := -1
  frameIndex : Int := 0
  frameCount : Int := 0
  exist : Bool := false
  scale : Rat := -1
  x : Rat := 0
  y : Rat := 0
deriving DecidableEq

/-- `ImageInfoData::isError`. -/
def ImageInfoData.isError (d : ImageInfoData) : Bool :=
  !d.exist || (d.type == Types.ImageType.DamagedImage)

/-- The store of shared records. -/
abbrev Heap := Ptr → ImageInfoData

/-- Signals raised and calls made to collaborators outside the embedding. -/
inductive Event where
  | changeRotationCacheBegin
  | requestRotateCacheImage
  | currentRotationChanged
  | requestRotateImage (path : String) (rotation : Int)
  | currentSourceChanged
  | currentIndexChanged
  | currentFrameIndexChanged
  | hasPreviousImageChanged
  | hasNextImageChanged
  | imageCountChanged
  | rotateImageFile (path : String) (angle : Int)
  | setCurrentSourceIndex (index frameIndex : Int)
  | deleteCurrent
  | thumbnailRemove (path : String) (frameIndex : Int)
  | imageDataChanged (path : String) (frameIndex : Int)
  | imageSizeChanged (path : String) (frameIndex : Int)
  | sourceChanged
  | statusChanged
  | infoChanged
  | typeChanged
  | widthChanged
  | heightChanged
  | frameIndexChanged
  | frameCountChanged
  | existsChanged
  | imageFileChanged (path : String)
deriving DecidableEq, Repr

/-! ## ImageInfoCache -/

/-- The members of `ImageInfoCache`. The thread pool `localPoolPtr` is the list `queued` of
runnables it holds that no worker has taken yet; `started` lists the runnables that have
started to run (on a worker, or synchronously inside `load`) and whose queued call of
`loadFinished` has not been executed yet. -/
structure ImageInfoCache where
  aboutToQuit : Bool
  cache : Key → Option Ptr
  waitSet : Finset Key
  queued : List Key
  started : List Key

namespace ImageInfoCache

/-- The freshly constructed cache. -/
def init : ImageInfoCache :=
  { aboutToQuit := false, cache := fun _ => none, waitSet := ∅, queued := [], started := [] }

/-- `ImageInfoCache::find`. -/
def find (c : ImageInfoCache) (path : String) (frameIndex : Int) : Option Ptr :=
  c.cache (toFindKey path frameIndex)

/-- `ImageInfoCache::load`. With `enableMultiThread = false` the runnable is run inside the
call (its result is still delivered through a queued call), otherwise it is handed to the
thread pool. -/
def load (c : ImageInfoCache) (enableMultiThread : Bool) (path : String) (frameIndex : Int)
    (reload : Bool) : ImageInfoCache :=
  if c.aboutToQuit then c
  else if toFindKey path frameIndex ∈ c.waitSet then c
  else if !reload && (c.cache (toFindKey path frameIndex)).isSome then c
  else if !enableMultiThread then
    { c with waitSet := insert (toFindKey path frameIndex) c.waitSet,
             started := c.started ++ [toFindKey path frameIndex] }
  else
    { c with waitSet := insert (toFindKey path frameIndex) c.waitSet,
             queued := c.queued ++ [toFindKey path frameIndex] }

/-- `ImageInfoCache::loadFinished`; the second component lists the signals emitted. -/
def loadFinished (c : ImageInfoCache) (path : String) (frameIndex : Int) (data : Option Ptr) :
    ImageInfoCache × List Event :=
  if c.aboutToQuit then (c, [])
  else if data.isSome ∧ toFindKey path frameIndex ∈ c.waitSet then
    ({ c with cache := Function.update c.cache (toFindKey path frameIndex) data,
              waitSet := c.waitSet.erase (toFindKey path frameIndex) },
     [Event.imageDataChanged path frameIndex])
  else
    ({ c with waitSet := c.waitSet.erase (toFindKey path frameIndex) },
     [Event.imageDataChanged path frameIndex])

/-- `ImageInfoCache::removeCache`; the thumbnail cache is outside, its `remove` is logged. -/
def removeCache (c : ImageInfoCache) (path : String) (frameIndex : Int) :
    ImageInfoCache × List Event :=
  ({ c with cache := Function.update c.cache (toFindKey path frameIndex) none },
   [Event.thumbnailRemove path frameIndex, Event.imageDataChanged path frameIndex])

/-- `ImageInfoCache::clearCache`: `localPoolPtr->clear()` drops the runnables that have not
started, then the in-flight set and the metadata are cleared. -/
def clearCache (c : ImageInfoCache) : ImageInfoCache :=
  { c with queued := [], waitSet := ∅, cache := fun _ => none }

/-- The handler of `QCoreApplication::aboutToQuit` installed by the constructor. -/
def onAboutToQuit (c : ImageInfoCache) : ImageInfoCache :=
  clearCache { c with aboutToQuit := true }

/-- A worker of the thread pool takes the queued runnable for `key`. -/
def workerStart (c : ImageInfoCache) (key : Key) : ImageInfoCache :=
  if key ∈ c.queued then
    { c with queued := c.queued.erase key, started := c.started ++ [key] }
  else c

/-- The queued call made by `LoadImageInfoRunnable::notifyFinished` is executed: the started
runnable for `key` is finished and its record `data` reaches `loadFinished`. -/
def deliver (c : ImageInfoCache) (key : Key) (data : Ptr) : ImageInfoCache × List Event :=
  loadFinished { c with started := c.started.erase key } key.1 key.2 (some data)

/-- The number of decodes for `key` that `load` has started and whose result has not been
delivered: those waiting in the pool and those running or awaiting delivery. -/
def outstanding (c : ImageInfoCache) (key : Key) : Nat :=
  c.queued.count key + c.started.count key

/-- The invariant behind the deduplication: a key has at most one outstanding decode, and
while the cache is not shutting down a key with an outstanding decode is in the in-flight
set. -/
def AtMostOne (c : ImageInfoCache) : Prop :=
  ∀ k, c.outstanding k ≤ 1 ∧ (c.aboutToQuit = false → 1 ≤ c.outstanding k → k ∈ c.waitSet)

/-- The operations on the metadata cache: the calls of its methods, the handler of
`aboutToQuit`, a worker taking a queued runnable, and the delivery of a started decode. -/
inductive Op where
  | load (enableMultiThread : Bool) (path : String) (frameIndex : Int) (reload : Bool)
  | workerStart (key : Key)
  | deliver (key : Key) (data : Ptr)
  | removeCache (path : String) (frameIndex : Int)
  | clearCache
  | aboutToQuit
deriving DecidableEq

/-- One operation; a delivery happens only for a decode that has started. -/
def step (c : ImageInfoCache) : Op → ImageInfoCache
  | Op.load mt path frameIndex reload => c.load mt path frameIndex reload
  | Op.workerStart key => c.workerStart key
  | Op.deliver key data => if key ∈ c.started then (c.deliver key data).1 else c
  | Op.removeCache path frameIndex => (c.removeCache path frameIndex).1
  | Op.clearCache => c.clearCache
  | Op.aboutToQuit => c.onAboutToQuit

/-- The state after a sequence of operations. -/
def exec (c : ImageInfoCache) (ops : List Op) : ImageInfoCache := ops.foldl step c

/-- Every `clearCache` (also the one of the `aboutToQuit` handler) in the sequence is issued
while no started decode awaits delivery. -/
def clearsWhenIdle (c : ImageInfoCache) : List Op → Prop
  | [] => True
  | op :: ops =>
    ((op = Op.clearCache ∨ op = Op.aboutToQuit) → c.started = []) ∧
      clearsWhenIdle (step c op) ops

end ImageInfoCache

/-! ## Process-wide state -/

/-- The singletons an `ImageInfo` handle reaches: the metadata cache `CacheInstance()`, the
heap of shared records, `QThread::idealThreadCount()` and the log of events. -/
structure Globals where
  cacheInstance : ImageInfoCache
  heap : Heap
  idealThreadCount : Int
  log : List Event

/-- Appending events to the log. -/
def Globals.emit (g : Globals) (es : List Event) : Globals :=
  { g with log := g.log ++ es }

/-- `GlobalControl::enableMultiThread`, as a function of `QThread::idealThreadCount()`. -/
def enableMultiThread (idealThreadCount : Int) : Bool :=
  decide (idealThreadCount > 2)

/-! ## ImageInfo -/

/-- Modelled from the spec: the enumeration `ImageInfo::Status` (imageinfo.h is not among
the sources); the states of a handle are Loading, Ready and Error. -/
inductive Status where
  | Loading
  | Ready
  | Error
deriving DecidableEq, Repr

/-- The members of an `ImageInfo` handle. -/
structure ImageInfo where
  imageUrl : QUrl
  currentIndex : Int
  data : Option Ptr
  imageStatus : Status

namespace ImageInfo

/-- `ImageInfo::source`. -/
def source (h : ImageInfo) : QUrl := h.imageUrl

/-- `ImageInfo::type`. -/
def type (g : Globals) (h : ImageInfo) : Types.ImageType :=
  match h.data with
  | some p => (g.heap p).type
  | none => Types.ImageType.NullImage

/-- `ImageInfo::width`. -/
def width (g : Globals) (h : ImageInfo) : Int :=
  match h.data with
  | some p => (g.heap p).width
  | none => -1

/-- `ImageInfo::height`. -/
def height (g : Globals) (h : ImageInfo) : Int :=
  match h.data with
  | some p => (g.heap p).height
  | none => -1

/-- `ImageInfo::frameCount`. -/
def frameCount (g : Globals) (h : ImageInfo) : Int :=
  match h.data with
  | some p => (g.heap p).frameCount
  | none => 1

/-- `ImageInfo::onSizeChanged`, the slot connected to `imageSizeChanged`. -/
def onSizeChanged (g : Globals) (h : ImageInfo) (path : String) (frameIndex : Int) : Globals :=
  if h.imageUrl.toLocalFile = path ∧ h.currentIndex = frameIndex then
    match h.data with
    | some _ => g.emit [Event.widthChanged, Event.heightChanged]
    | none => g
  else g

/-- `ImageInfo::swapWidthAndHeight`: the shared record is changed in place and the size
signal is broadcast; of the connected handles this one is embedded. -/
def swapWidthAndHeight (g : Globals) (h : ImageInfo) : Globals :=
  match h.data with
  | some p =>
    let d := g.heap p
    let g1 := { g with heap := Function.update g.heap p { d with width := d.height, height := d.width } }
    let g2 := g1.emit [Event.imageSizeChanged h.imageUrl.toLocalFile h.currentIndex]
    onSizeChanged g2 h h.imageUrl.toLocalFile h.currentIndex
  | none => g

/-- `ImageInfo::setStatus`. -/
def setStatus (g : Globals) (h : ImageInfo) (status : Status) : Globals × ImageInfo :=
  if h.imageStatus ≠ status then
    (g.emit [Event.statusChanged], { h with imageStatus := status })
  else (g, h)

/-- `ImageInfo::updateData`, for a handle that holds the record `oldData` (the only callers
call it with `data` set). The Boolean is the returned value. -/
def updateData (g : Globals) (h : ImageInfo) (oldData newData : Ptr) :
    (Globals × ImageInfo) × Bool :=
  if newData = oldData then ((g, h), false)
  else
    let o := g.heap oldData
    let n := g.heap newData
    let e1 := if o.type ≠ n.type then [Event.typeChanged] else []
    let e2 := if (o.width, o.height) ≠ (n.width, n.height) then
      [Event.widthChanged, Event.heightChanged] else []
    let e3 := if o.frameIndex ≠ n.frameIndex then [Event.frameIndexChanged] else []
    let e4 := if o.frameCount ≠ n.frameCount then [Event.frameCountChanged] else []
    let e5 := if o.exist ≠ n.exist then [Event.existsChanged] else []
    ((g.emit (e1 ++ e2 ++ e3 ++ e4 ++ e5), { h with data := some newData }),
     decide (o.type ≠ n.type ∨ (o.width, o.height) ≠ (n.width, n.height) ∨
       o.frameIndex ≠ n.frameIndex ∨ o.frameCount ≠ n.frameCount ∨ o.exist ≠ n.exist))

/-- `ImageInfo::refreshDataFromCache`. -/
def refreshDataFromCache (g : Globals) (h : ImageInfo) (reload : Bool) : Globals × ImageInfo :=
  if h.imageUrl.toLocalFile = "" then setStatus g h Status.Error
  else
    match g.cacheInstance.find h.imageUrl.toLocalFile h.currentIndex with
    | some newData =>
      let r : Globals × ImageInfo :=
        match h.data with
        | some oldData =>
          let u := updateData g h oldData newData
          if u.2 then (u.1.1.emit [Event.infoChanged], u.1.2) else u.1
        | none => (g.emit [Event.infoChanged], { h with data := some newData })
      setStatus r.1 r.2 (if (r.1.heap newData).isError then Status.Error else Status.Ready)
    | none =>
      if reload then
        let r := setStatus g h Status.Loading
        let c := r.1.cacheInstance.load (enableMultiThread r.1.idealThreadCount)
          h.imageUrl.toLocalFile h.currentIndex false
        ({ r.1 with cacheInstance := c }, r.2)
      else setStatus g h Status.Error

/-- `ImageInfo::setSource`. -/
def setSource (g : Globals) (h : ImageInfo) (source : QUrl) : Globals × ImageInfo :=
  if h.imageUrl ≠ source then
    refreshDataFromCache (g.emit [Event.sourceChanged]) { h with imageUrl := source } true
  else (g, h)

/-- `ImageInfo::reloadData`. -/
def reloadData (g : Globals) (h : ImageInfo) : Globals × ImageInfo :=
  let r := setStatus g h Status.Loading
  let c := r.1.cacheInstance.load (enableMultiThread r.1.idealThreadCount)
    h.imageUrl.toLocalFile h.currentIndex true
  ({ r.1 with cacheInstance := c }, r.2)

/-- `ImageInfo::onLoadFinished`, the slot connected to `imageDataChanged`. -/
def onLoadFinished (g : Globals) (h : ImageInfo) (path : String) (frameIndex : Int) :
    Globals × ImageInfo :=
  if h.imageUrl.toLocalFile = path ∧ h.currentIndex = frameIndex then
    refreshDataFromCache g h false
  else (g, h)

/-- Modelled from the spec: a default constructed `ImageInfo` (the member initialisers are
in imageinfo.h, not among the sources): no source, frame 0, no metadata; a handle without
metadata counts as Loading. -/
def init : ImageInfo :=
  { imageUrl := QUrl.empty, currentIndex := 0, data := none, imageStatus := Status.Loading }

/-- `ImageInfo::clearCurrentCache`: the loop over the frames `0 .. frameCount - 1` of the held
record; every `removeCache` emits `imageDataChanged`, which reaches the slot `onLoadFinished`
of this handle (the loop does not change the record, so its bound is read once). -/
def clearCurrentCache (g : Globals) (h : ImageInfo) : Globals × ImageInfo :=
  match h.data with
  | some p =>
    (List.range (g.heap p).frameCount.toNat).foldl
      (fun (r : Globals × ImageInfo) (i : Nat) =>
        let rc := r.1.cacheInstance.removeCache h.imageUrl.toLocalFile i
        let g1 := ({ r.1 with cacheInstance := rc.1 }).emit rc.2
        onLoadFinished g1 r.2 h.imageUrl.toLocalFile i)
      (g, h)
  | none => (g, h)

end ImageInfo

/-! ## GlobalControl -/

namespace ImageSourceModel

/-- Modelled from the spec: `ImageSourceModel::rowCount` (imagesourcemodel.h is not among
the sources); the model is the ordered image collection, here the list of its URLs. -/
def rowCount (m : List QUrl) : Int := m.length

/-- Modelled from the spec: `ImageSourceModel::data(index(i), Types::ImageUrlRole).toUrl()`,
the URL at row `i` of the ordered image collection, the empty URL for a row out of range. -/
def data (m : List QUrl) (index : Int) : QUrl :=
  if 0 ≤ index then m.getD index.toNat QUrl.empty else QUrl.empty

/-- Modelled from the spec: `ImageSourceModel::removeImage`, which removes the image with
the given URL from the ordered image collection and moves the following images up. -/
def removeImage (m : List QUrl) (url : QUrl) : List QUrl := m.erase url

end ImageSourceModel

/-- The members of `GlobalControl` (`submitTimer` is whether the `QBasicTimer` is active),
with the process-wide state `env` its operations act on. Calls to the view proxy model
`viewSourceModel` are logged. -/
structure GlobalControl where
  sourceModel : List QUrl
  currentImage : ImageInfo
  curIndex : Int
  curFrameIndex : Int
  imageRotation : Int
  hasPrevious : Bool
  hasNext : Bool
  submitTimer : Bool
  env : Globals

namespace GlobalControl

/-- `Q_EMIT` of signals, and logged calls. -/
def emit (s : GlobalControl) (es : List Event) : GlobalControl :=
  { s with env := s.env.emit es }

/-- `GlobalControl::imageCount`. -/
def imageCount (s : GlobalControl) : Int := ImageSourceModel.rowCount s.sourceModel

/-- `GlobalControl::currentIndex`. -/
def currentIndex (s : GlobalControl) : Int := s.curIndex

/-- `GlobalControl::currentFrameIndex`. -/
def currentFrameIndex (s : GlobalControl) : Int := s.curFrameIndex

/-- `GlobalControl::currentRotation`. -/
def currentRotation (s : GlobalControl) : Int := s.imageRotation

/-- `GlobalControl::hasPreviousImage`. -/
def hasPreviousImage (s : GlobalControl) : Bool := s.hasPrevious

/-- `GlobalControl::hasNextImage`. -/
def hasNextImage (s : GlobalControl) : Bool := s.hasNext

/-- `GlobalControl::currentSource`. -/
def currentSource (s : GlobalControl) : QUrl := s.currentImage.source

/-- `GlobalControl::setCurrentRotation`; the difference `angle - imageRotation` is a 32 bit
`int`. -/
def setCurrentRotation (s : GlobalControl) (angle : Int) : GlobalControl :=
  if s.imageRotation ≠ angle then
    let needSwap : Bool :=
      decide (angle ≠ 0) && decide (Int.tmod (toInt32 (angle - s.imageRotation)) 180 ≠ 0)
    let s1 := ({ s with imageRotation := angle }).emit [Event.changeRotationCacheBegin]
    let s2 :=
      if needSwap then
        { s1 with env := ImageInfo.swapWidthAndHeight s1.env s1.currentImage }
      else s1
    let s3 := s2.emit [Event.rotateImageFile s2.currentImage.source.toLocalFile angle,
      Event.requestRotateCacheImage, Event.currentRotationChanged]
    { s3 with submitTimer := true }
  else s

/-- `GlobalControl::submitImageChangeImmediately`. -/
def submitImageChangeImmediately (s : GlobalControl) : GlobalControl :=
  let s1 := { s with submitTimer := false }
  if s1.currentRotation = 0 then s1
  else
    let rotation := Int.tmod s1.currentRotation 360
    let s2 :=
      if rotation ≠ 0 then
        s1.emit [Event.requestRotateImage s1.currentImage.source.toLocalFile rotation]
      else s1
    setCurrentRotation s2 0

/-- `GlobalControl::timerEvent`; `isSubmitTimer` is whether the event is the submit timer's. -/
def timerEvent (s : GlobalControl) (isSubmitTimer : Bool) : GlobalControl :=
  if isSubmitTimer then submitImageChangeImmediately { s with submitTimer := false } else s

/-- `GlobalControl::checkSwitchEnable`. -/
def checkSwitchEnable (s : GlobalControl) : GlobalControl :=
  let previous : Bool := decide (s.curIndex > 0 ∨ s.curFrameIndex > 0)
  let next : Bool := decide (s.curIndex < ImageSourceModel.rowCount s.sourceModel - 1 ∨
    s.curFrameIndex < ImageInfo.frameCount s.env s.currentImage - 1)
  let s1 :=
    if previous ≠ s.hasPrevious then
      ({ s with hasPrevious := previous }).emit [Event.hasPreviousImageChanged]
    else s
  if next ≠ s1.hasNext then
    ({ s1 with hasNext := next }).emit [Event.hasNextImageChanged]
  else s1

/-- `GlobalControl::setIndexAndFrameIndex`. -/
def setIndexAndFrameIndex (s : GlobalControl) (index frameIndex : Int) : GlobalControl :=
  let validIndex := qBound 0 index (s.imageCount - 1)
  let s1 :=
    if s.curIndex ≠ validIndex then
      let a := submitImageChangeImmediately s
      let image := ImageSourceModel.data a.sourceModel validIndex
      let r := ImageInfo.setSource a.env a.currentImage image
      let b := ({ a with env := r.1, currentImage := r.2 }).emit [Event.currentSourceChanged]
      ({ b with curIndex := index }).emit [Event.currentIndexChanged]
    else s
  let validFrameIndex :=
    qBound 0 frameIndex (max 0 (ImageInfo.frameCount s1.env s1.currentImage - 1))
  let s2 :=
    if s1.curFrameIndex ≠ validFrameIndex then
      let a := submitImageChangeImmediately s1
      ({ a with curFrameIndex := validFrameIndex }).emit [Event.currentFrameIndexChanged]
    else s1
  let s3 := checkSwitchEnable s2
  s3.emit [Event.setCurrentSourceIndex s3.curIndex s3.curFrameIndex]

/-- The first block of `setIndexAndFrameIndex`: the update of the index and of the source. -/
def indexStep (s : GlobalControl) (index : Int) : GlobalControl :=
  if s.curIndex ≠ qBound 0 index (s.imageCount - 1) then
    let a := submitImageChangeImmediately s
    let image := ImageSourceModel.data a.sourceModel (qBound 0 index (s.imageCount - 1))
    let r := ImageInfo.setSource a.env a.currentImage image
    let b := ({ a with env := r.1, currentImage := r.2 }).emit [Event.currentSourceChanged]
    ({ b with curIndex := index }).emit [Event.currentIndexChanged]
  else s

/-- The second block of `setIndexAndFrameIndex`: the update of the frame index. -/
def frameStep (s : GlobalControl) (frameIndex : Int) : GlobalControl :=
  if s.curFrameIndex ≠
      qBound 0 frameIndex (max 0 (ImageInfo.frameCount s.env s.currentImage - 1)) then
    let a := submitImageChangeImmediately s
    ({ a with curFrameIndex :=
        qBound 0 frameIndex (max 0 (ImageInfo.frameCount s.env s.currentImage - 1)) }).emit
      [Event.currentFrameIndexChanged]
  else s

/-- `GlobalControl::setCurrentIndex`. -/
def setCurrentIndex (s : GlobalControl) (index : Int) : GlobalControl :=
  setIndexAndFrameIndex s index s.curFrameIndex

/-- `GlobalControl::setCurrentFrameIndex`. -/
def setCurrentFrameIndex (s : GlobalControl) (frameIndex : Int) : GlobalControl :=
  setIndexAndFrameIndex s s.curIndex frameIndex

/-- `GlobalControl::previousImage`, with the returned value. -/
def previousImage (s : GlobalControl) : GlobalControl × Bool :=
  let s1 := submitImageChangeImmediately s
  if s1.hasPreviousImage then
    if ImageInfo.type s1.env s1.currentImage = Types.ImageType.MultiImage ∧
        s1.curFrameIndex > 0 then
      (setIndexAndFrameIndex s1 s1.curIndex (s1.curFrameIndex - 1), true)
    else if s1.curIndex > 0 then
      (setIndexAndFrameIndex s1 (s1.curIndex - 1) INT_MAX, true)
    else (s1, false)
  else (s1, false)

/-- `GlobalControl::nextImage`, with the returned value. -/
def nextImage (s : GlobalControl) : GlobalControl × Bool :=
  let s1 := submitImageChangeImmediately s
  if s1.hasNextImage then
    if ImageInfo.type s1.env s1.currentImage = Types.ImageType.MultiImage ∧
        s1.curFrameIndex < ImageInfo.frameCount s1.env s1.currentImage - 1 then
      (setIndexAndFrameIndex s1 s1.curIndex (s1.curFrameIndex + 1), true)
    else if s1.curIndex < ImageSourceModel.rowCount s1.sourceModel - 1 then
      (setIndexAndFrameIndex s1 (s1.curIndex + 1) 0, true)
    else (s1, false)
  else (s1, false)

/-- `GlobalControl::firstImage`, with the returned value. -/
def firstImage (s : GlobalControl) : GlobalControl × Bool :=
  let s1 := submitImageChangeImmediately s
  if ImageSourceModel.rowCount s1.sourceModel ≠ 0 then
    (setIndexAndFrameIndex s1 0 0, true)
  else (s1, false)

/-- `GlobalControl::lastImage`, with the returned value. -/
def lastImage (s : GlobalControl) : GlobalControl × Bool :=
  let s1 := submitImageChangeImmediately s
  let count := ImageSourceModel.rowCount s1.sourceModel
  if count ≠ 0 then
    let frameIndex :=
      if ImageInfo.type s1.env s1.currentImage = Types.ImageType.MultiImage then
        ImageInfo.frameCount s1.env s1.currentImage - 1
      else 0
    (setIndexAndFrameIndex s1 (count - 1) frameIndex, true)
  else (s1, false)

/-- `GlobalControl::removeImage`. -/
def removeImage (s : GlobalControl) (removeImage : QUrl) : GlobalControl :=
  let s1 :=
    if s.currentRotation ≠ 0 then { setCurrentRotation s 0 with submitTimer := false } else s
  let atEnd : Bool := decide (s1.curIndex ≥ ImageSourceModel.rowCount s1.sourceModel - 1)
  let s2 := { s1 with sourceModel := ImageSourceModel.removeImage s1.sourceModel removeImage }
  let s3 := if removeImage = s2.currentImage.source then s2.emit [Event.deleteCurrent] else s2
  let s4 :=
    if !atEnd then
      let image := ImageSourceModel.data s3.sourceModel s3.curIndex
      let r := ImageInfo.setSource s3.env s3.currentImage image
      let a := setIndexAndFrameIndex { s3 with env := r.1, currentImage := r.2 } s3.curIndex 0
      a.emit [Event.currentSourceChanged, Event.currentIndexChanged]
    else if ImageSourceModel.rowCount s3.sourceModel ≠ 0 then
      let image := ImageSourceModel.data s3.sourceModel (s3.curIndex - 1)
      let r := ImageInfo.setSource s3.env s3.currentImage image
      let a := setIndexAndFrameIndex { s3 with env := r.1, currentImage := r.2 }
        (s3.curIndex - 1) INT_MAX
      a.emit [Event.currentSourceChanged, Event.currentIndexChanged]
    else s3
  (checkSwitchEnable s4).emit [Event.imageCountChanged]

/-- The frame count of the image at row `index` as the current handle reports it once it
holds the cached metadata of that image: the cached frame count, and 1 while no metadata is
cached (`ImageInfo::frameCount`). -/
def frameCountAt (s : GlobalControl) (index : Int) : Int :=
  match s.env.cacheInstance.find (ImageSourceModel.data s.sourceModel index).toLocalFile
      s.currentImage.currentIndex with
  | some p => (s.env.heap p).frameCount
  | none => 1

/-- The rewrite-to-disk requests (`requestRotateImage`) in a log, oldest first. -/
def rotateRequests (log : List Event) : List (String × Int) :=
  log.filterMap fun e =>
    match e with
    | Event.requestRotateImage path rotation => some (path, rotation)
    | _ => none

/-- No rotation is pending, the rewrite-to-disk requests logged so far are `R`, and (when
`b` is set) the submit timer is stopped. -/
def Settled (R : List (String × Int)) (b : Bool) (t : GlobalControl) : Prop :=
  t.imageRotation = 0 ∧ rotateRequests t.env.log = R ∧ (b = true → t.submitTimer = false)

/-- The width and the height of the current image, as `ImageInfo::width` and
`ImageInfo::height` return them. -/
def currentSize (s : GlobalControl) : Int × Int :=
  (ImageInfo.width s.env s.currentImage, ImageInfo.height s.env s.currentImage)

/-- A sequence of `setCurrentRotation` calls, in the order of the list. -/
def rotateAll (s : GlobalControl) (angles : List Int) : GlobalControl :=
  angles.foldl setCurrentRotation s

/-- The operations of the controller that reach the rotation or the submit timer: the calls
of its methods (of the navigation methods, the state they leave) and the delivery of a timer
event. The slot connected to `rotateImageFinished` is a `submitImageChangeImmediately`. -/
inductive Op where
  | setCurrentRotation (angle : Int)
  | submitImageChangeImmediately
  | removeImage (url : QUrl)
  | setCurrentIndex (index : Int)
  | setCurrentFrameIndex (frameIndex : Int)
  | previousImage
  | nextImage
  | firstImage
  | lastImage
  | timerEvent (isSubmitTimer : Bool)
deriving DecidableEq

/-- One operation of the controller. -/
def step (s : GlobalControl) : Op → GlobalControl
  | Op.setCurrentRotation angle => s.setCurrentRotation angle
  | Op.submitImageChangeImmediately => s.submitImageChangeImmediately
  | Op.removeImage url => s.removeImage url
  | Op.setCurrentIndex index => s.setCurrentIndex index
  | Op.setCurrentFrameIndex frameIndex => s.setCurrentFrameIndex frameIndex
  | Op.previousImage => s.previousImage.1
  | Op.nextImage => s.nextImage.1
  | Op.firstImage => s.firstImage.1
  | Op.lastImage => s.lastImage.1
  | Op.timerEvent isSubmitTimer => s.timerEvent isSubmitTimer

/-- The state of the controller after a sequence of operations. -/
def exec (s : GlobalControl) (ops : List Op) : GlobalControl := ops.foldl step s

/-- A pending rotation has a scheduled commit: the submit timer is active whenever the
rotation is not 0. -/
def CommitScheduled (s : GlobalControl) : Prop :=
  s.imageRotation ≠ 0 → s.submitTimer = true

/-- A valid navigation state over a collection whose metadata is all cached: the current
index is a row of the collection; every image is a local file whose record, under the frame
key of the current handle, is cached; the handle holds the cached record of the current image;
on an image that is not multi-page the frame index is 0 and the frame count of the record is
at most 1 (the decode pipeline leaves it 0); on a multi-page image the frame index lies in
`0 .. frameCount - 1`; the frame index is an `int`. -/
structure ValidNavigation (s : GlobalControl) : Prop where
  index_lower : 0 ≤ s.curIndex
  index_upper : s.curIndex ≤ s.imageCount - 1
  cached : ∀ j : Int, 0 ≤ j → j ≤ s.imageCount - 1 →
    (ImageSourceModel.data s.sourceModel j).toLocalFile ≠ "" ∧
    (s.env.cacheInstance.find (ImageSourceModel.data s.sourceModel j).toLocalFile
      s.currentImage.currentIndex).isSome = true
  current : s.currentImage.data =
    s.env.cacheInstance.find (ImageSourceModel.data s.sourceModel s.curIndex).toLocalFile
      s.currentImage.currentIndex
  single : ImageInfo.type s.env s.currentImage ≠ Types.ImageType.MultiImage →
    s.curFrameIndex = 0 ∧ ImageInfo.frameCount s.env s.currentImage ≤ 1
  multi : ImageInfo.type s.env s.currentImage = Types.ImageType.MultiImage →
    0 ≤ s.curFrameIndex ∧ s.curFrameIndex ≤ ImageInfo.frameCount s.env s.currentImage - 1
  frame_int : s.curFrameIndex ≤ INT_MAX

end GlobalControl

/-! ## LoadImageInfoRunnable -/

namespace imageViewerSpace

/-- The image kinds `imageViewerSpace::ImageType` of the type sniffer that the sources name;
`ImageTypeOther` stands for every further enumerator (the `default` of the adaptor). -/
inductive ImageType where
  | ImageTypeBlank
  | ImageTypeSvg
  | ImageTypeStatic
  | ImageTypeDynamic
  | ImageTypeMulti
  | ImageTypeOther
deriving DecidableEq, Repr

end imageViewerSpace

/-- `imageTypeAdapator`. -/
def imageTypeAdapator : imageViewerSpace.ImageType → Types.ImageType
  | imageViewerSpace.ImageType.ImageTypeBlank => Types.ImageType.NullImage
  | imageViewerSpace.ImageType.ImageTypeSvg => Types.ImageType.SvgImage
  | imageViewerSpace.ImageType.ImageTypeStatic => Types.ImageType.NormalImage
  | imageViewerSpace.ImageType.ImageTypeDynamic => Types.ImageType.DynamicImage
  | imageViewerSpace.ImageType.ImageTypeMulti => Types.ImageType.MultiImage
  | imageViewerSpace.ImageType.ImageTypeOther => Types.ImageType.DamagedImage

/-- Modelled from the spec: the declaration of `ThumbnailCache::contains` is in
thumbnailcache.h, not among the sources; it is called with a path and a frame index, and with
a path alone. A call with the path alone is taken to look up the first frame, index 0. -/
def ThumbnailCache.containsPath (contains : String → Int → Bool) (path : String) : Bool :=
  contains path 0

/-- What one run of the runnable reads: `qApp->closingDown()`, `QFileInfo::exists`, the
thumbnail cache, the type sniffer `getImageType`, `QImageReader` (`readFrame path i` is the
size of the image read after `jumpToImage(i)`, `none` for a null image; `imageCount`), and
`loadStaticImageFromFile` (the size of the loaded image, `none` on failure). -/
structure Decoder where
  closingDown : Bool
  fileExists : String → Bool
  thumbnailContains : String → Int → Bool
  getImageType : String → imageViewerSpace.ImageType
  readFrame : String → Int → Option (Int × Int)
  imageCount : String → Int
  loadStaticImageFromFile : String → Option (Int × Int)

/-- What one run does: the calls `notifyFinished(path, frameIndex, data)`, each of which
queues one `loadFinished` at the metadata cache, and the calls
`ThumbnailCache::add(path, frameIndex, image)`. -/
structure RunOutcome where
  delivered : List (String × Int × ImageInfoData)
  thumbnails : List Key
deriving DecidableEq

namespace LoadImageInfoRunnable

/-- `LoadImageInfoRunnable::loadImage`: the source size on success. -/
def loadImage (env : Decoder) (loadPath : String) : Option (Int × Int) :=
  env.loadStaticImageFromFile loadPath

/-- `LoadImageInfoRunnable::run`, with `notifyFinished`. -/
def run (env : Decoder) (loadPath : String) (frameIndex : Int) : RunOutcome :=
  if env.closingDown then { delivered := [], thumbnails := [] }
  else
    let data : ImageInfoData := { path := loadPath, exist := env.fileExists loadPath }
    if !data.exist then
      let data1 := { data with type :=
        if ThumbnailCache.containsPath env.thumbnailContains data.path then
          Types.ImageType.NonexistImage
        else Types.ImageType.NullImage }
      { delivered := [(data1.path, frameIndex, data1)], thumbnails := [] }
    else
      let data2 := { data with type := imageTypeAdapator (env.getImageType loadPath) }
      if data2.type = Types.ImageType.NullImage then
        { delivered := [(data2.path, frameIndex, data2)], thumbnails := [] }
      else if data2.type = Types.ImageType.MultiImage then
        match env.readFrame loadPath frameIndex with
        | none =>
          let data3 := { data2 with type := Types.ImageType.DamagedImage }
          { delivered := [(data3.path, frameIndex, data3)], thumbnails := [] }
        | some size =>
          let data3 := { data2 with width := size.1, height := size.2,
                                    frameCount := env.imageCount loadPath }
          { delivered := [(data3.path, frameIndex, data3)],
            thumbnails := [(data3.path, frameIndex)] }
      else if frameIndex ≠ 0 then
        let data3 := { data2 with type := Types.ImageType.DamagedImage }
        { delivered := [(data3.path, frameIndex, data3)], thumbnails := [] }
      else
        match loadImage env loadPath with
        | some size =>
          let data3 := { data2 with width := size.1, height := size.2 }
          { delivered := [(data3.path, frameIndex, data3)],
            thumbnails := [(data3.path, frameIndex)] }
        | none =>
          let data3 := { data2 with type := Types.ImageType.DamagedImage }
          { delivered := [(data3.path, frameIndex, data3)], thumbnails := [] }

/-- The run fails: the file is missing, its type is blank, the frame cannot be read, a
frame other than 0 is asked of a single-frame image, or the static image cannot be loaded. -/
def failed (env : Decoder) (loadPath : String) (frameIndex : Int) : Prop :=
  env.fileExists loadPath = false ∨
  env.getImageType loadPath = imageViewerSpace.ImageType.ImageTypeBlank ∨
  (env.getImageType loadPath = imageViewerSpace.ImageType.ImageTypeMulti ∧
    env.readFrame loadPath frameIndex = none) ∨
  (env.getImageType loadPath ≠ imageViewerSpace.ImageType.ImageTypeMulti ∧
    (frameIndex ≠ 0 ∨ env.loadStaticImageFromFile loadPath = none))

end LoadImageInfoRunnable

/-! ## ImageFileWatcher -/

/-- What the watcher reads from the file system: `QFile::exists`, `QFileInfo::isDir`,
`QDir(dir).entryList()`, `QFileInfo(path).absolutePath()` and `QFileInfo(path).fileName()`. -/
structure FileSystem where
  fileExists : String → Bool
  isDir : String → Bool
  entryList : String → List String
  absolutePath : String → String
  fileName : String → String

/-- `QHash::insert` on a hash kept as a list of entries: the entry of the key is replaced. -/
def hashInsert (m : List (String × QUrl)) (key : String) (value : QUrl) :
    List (String × QUrl) :=
  (key, value) :: m.filter (fun e => decide (e.1 ≠ key))

/-- `QHash::erase` of the entry of a key. -/
def hashErase (m : List (String × QUrl)) (key : String) : List (String × QUrl) :=
  m.filter (fun e => decide (e.1 ≠ key))

/-- The members of `ImageFileWatcher`: the paths `files` and `directories` watched by the
`QFileSystemWatcher`, the record `cacheFileInfo` from path to URL, the removed files and the
paths being rotated; `env` is the process-wide state the handler reaches through `ImageInfo`. -/
structure ImageFileWatcher where
  files : List String
  directories : List String
  cacheFileInfo : String → Option QUrl
  removedFile : List (String × QUrl)
  rotateImagePathSet : Finset String
  env : Globals

namespace ImageFileWatcher

/-- `QFileSystemWatcher::addPath`: an empty path, a path already watched and a path that does
not exist are not added; a directory goes to `directories`, a file to `files`. -/
def addPath (fs : FileSystem) (w : ImageFileWatcher) (path : String) : ImageFileWatcher :=
  if path = "" ∨ path ∈ w.files ∨ path ∈ w.directories ∨ fs.fileExists path = false then w
  else if fs.isDir path then { w with directories := w.directories ++ [path] }
  else { w with files := w.files ++ [path] }

/-- `QFileSystemWatcher::removePath`. -/
def removePath (w : ImageFileWatcher) (path : String) : ImageFileWatcher :=
  { w with files := w.files.filter (fun f => decide (f ≠ path)),
           directories := w.directories.filter (fun f => decide (f ≠ path)) }

/-- `ImageFileWatcher::isCurrentDir`. -/
def isCurrentDir (fs : FileSystem) (w : ImageFileWatcher) (filePath : String) : Bool :=
  decide (fs.absolutePath filePath ∈ w.directories)

/-- `ImageFileWatcher::resetImageFiles`. -/
def resetImageFiles (fs : FileSystem) (w : ImageFileWatcher) (filePaths : List String) :
    ImageFileWatcher :=
  let w1 := { w with cacheFileInfo := fun _ => none, removedFile := [],
                     rotateImagePathSet := ∅ }
  match filePaths with
  | [] => { w1 with files := [], directories := [] }
  | first :: _ =>
    if isCurrentDir fs w1 first then w1
    else
      let w2 := { w1 with files := [], directories := [] }
      let w3 := filePaths.foldl
        (fun (a : ImageFileWatcher) (filePath : String) =>
          let tempPath := (QUrl.fromString filePath).toLocalFile
          if fs.fileExists tempPath then
            let info := Function.update a.cacheFileInfo tempPath (some (QUrl.fromString filePath))
            addPath fs { a with cacheFileInfo := info } tempPath
          else a)
        w2
      match w3.files with
      | [] => w3
      | file :: _ => addPath fs w3 (fs.absolutePath file)

/-- `ImageFileWatcher::fileRename`. -/
def fileRename (fs : FileSystem) (w : ImageFileWatcher) (oldPath newPath : String) :
    ImageFileWatcher :=
  if (w.cacheFileInfo oldPath).isSome then
    let info := Function.update w.cacheFileInfo newPath (some (QUrl.fromString newPath))
    addPath fs { removePath w oldPath with cacheFileInfo := info } newPath
  else w

/-- `ImageFileWatcher::recordRotateImage`. -/
def recordRotateImage (w : ImageFileWatcher) (targetPath : String) : ImageFileWatcher :=
  { w with rotateImagePathSet := insert targetPath w.rotateImagePathSet }

/-- `ImageFileWatcher::clearRotateStatus`. -/
def clearRotateStatus (w : ImageFileWatcher) (targetPath : String) : ImageFileWatcher :=
  if targetPath ∈ w.rotateImagePathSet then
    { w with rotateImagePathSet := w.rotateImagePathSet.erase targetPath }
  else w

/-- The metadata part of `onImageFileChanged`: a local handle is set to the URL, clears the
cache of its file and reloads. -/
def reloadInfo (g : Globals) (url : QUrl) : Globals :=
  let r1 := ImageInfo.setSource g ImageInfo.init url
  let r2 := ImageInfo.clearCurrentCache r1.1 r1.2
  (ImageInfo.reloadData r2.1 r2.2).1

/-- `ImageFileWatcher::onImageFileChanged`. -/
def onImageFileChanged (fs : FileSystem) (w : ImageFileWatcher) (file : String) :
    ImageFileWatcher :=
  if file ∈ w.rotateImagePathSet then w
  else
    match w.cacheFileInfo file with
    | some url =>
      let w1 :=
        if fs.fileExists file = false then
          { w with removedFile := hashInsert w.removedFile file url }
        else w
      let g1 := w1.env.emit [Event.imageFileChanged file]
      { w1 with env := reloadInfo g1 url }
    | none => w

/-- The body of the loop of `onImageDirChanged` for one entry of `removedFile`. -/
def dirStep (fs : FileSystem) (dir : String) (a : ImageFileWatcher) (entry : String × QUrl) :
    ImageFileWatcher :=
  if fs.fileName entry.1 ∈ fs.entryList dir then
    let a1 := onImageFileChanged fs (addPath fs a entry.1) entry.1
    { a1 with removedFile := hashErase a1.removedFile entry.1 }
  else a

/-- `ImageFileWatcher::onImageDirChanged`: the loop over the entries of `removedFile`. -/
def onImageDirChanged (fs : FileSystem) (w : ImageFileWatcher) (dir : String) :
    ImageFileWatcher :=
  w.removedFile.foldl
    (fun (a : ImageFileWatcher) (entry : String × QUrl) =>
      if fs.fileName entry.1 ∈ fs.entryList dir then
        let a1 := onImageFileChanged fs (addPath fs a entry.1) entry.1
        { a1 with removedFile := hashErase a1.removedFile entry.1 }
      else a)
    w

/-- The paths of the `imageFileChanged` signals in a log, oldest first. -/
def fileChangedEvents (log : List Event) : List String :=
  log.filterMap fun e =>
    match e with
    | Event.imageFileChanged path => some path
    | _ => none

end ImageFileWatcher

/-! ## Image providers -/

/-- The part of `QImage` the sources use: the null image `QImage()`, or an image with its
size and its pixel data. -/
inductive QImage where
  | null
  | image (width height : Int) (bits : List Nat)
deriving DecidableEq, Repr

namespace QImage

/-- `QImage::isNull`. -/
def isNull : QImage → Bool
  | null => true
  | image _ _ _ => false

/-- `QImage::size`; the null image has size (0, 0). -/
def size : QImage → Int × Int
  | null => (0, 0)
  | image width height _ => (width, height)

end QImage

/-- `QSize::isValid`: both the width and the height are 0 or more. -/
def QSize.isValid (size : Int × Int) : Bool := decide (0 ≤ size.1) && decide (0 ≤ size.2)

/-- Modelled from the spec: the class `ThumbnailCache` (thumbnailcache.h is not among the
sources), the cost-bounded keyed cache: a mapping from (path, frame index) to a payload with
a budget `maxCost` for the total cost, every entry having cost 1. The entries are listed from
the most recently used to the least recently used. -/
structure ThumbnailCache where
  maxCost : Int
  entries : List (Key × QImage)
deriving DecidableEq

namespace ThumbnailCache

/-- Modelled from the spec: a cache that holds nothing, with the budget `maxCost`. -/
def empty (maxCost : Int) : ThumbnailCache := { maxCost := maxCost, entries := [] }

/-- Modelled from the spec: the payload stored under a key, if there is one. -/
def lookup (c : ThumbnailCache) (key : Key) : Option QImage :=
  (c.entries.find? (fun e => decide (e.1 = key))).map Prod.snd

/-- Modelled from the spec: the entries of the keys other than `key`. -/
def others (c : ThumbnailCache) (key : Key) : List (Key × QImage) :=
  c.entries.filter (fun e => decide (e.1 ≠ key))

/-- Modelled from the spec: the total cost of the entries held. -/
def totalCost (c : ThumbnailCache) : Int := c.entries.length

/-- Modelled from the spec: `contains`, whether a payload is stored under the key; the
recency of the entry is left as it is. -/
def contains (c : ThumbnailCache) (path : String) (frameIndex : Int) : Bool :=
  (c.lookup (toFindKey path frameIndex)).isSome

/-- Modelled from the spec: `get(key) -> payload or empty`: the payload of the key, the null
image when there is none; the access makes the entry the most recently used. -/
def get (c : ThumbnailCache) (path : String) (frameIndex : Int) : QImage × ThumbnailCache :=
  match c.lookup (toFindKey path frameIndex) with
  | some image =>
    (image,
      { c with entries := (toFindKey path frameIndex, image) ::
          c.others (toFindKey path frameIndex) })
  | none => (QImage.null, c)

/-- Modelled from the spec: `add(key, payload, cost=1)`: the payload replaces that of an
existing key and the entry becomes the most recently used; while the total cost exceeds the
budget the least recently used entry is evicted. -/
def add (c : ThumbnailCache) (path : String) (frameIndex : Int) (image : QImage) :
    ThumbnailCache :=
  { c with entries := ((toFindKey path frameIndex, image) ::
      c.others (toFindKey path frameIndex)).take c.maxCost.toNat }

/-- Modelled from the spec: `remove(key)`. -/
def remove (c : ThumbnailCache) (path : String) (frameIndex : Int) : ThumbnailCache :=
  { c with entries := c.others (toFindKey path frameIndex) }

/-- Modelled from the spec: `take`, which removes the entry of the key and returns its
payload, the null image when there is none. -/
def take (c : ThumbnailCache) (path : String) (frameIndex : Int) : QImage × ThumbnailCache :=
  ((c.lookup (toFindKey path frameIndex)).getD QImage.null, c.remove path frameIndex)

/-- Modelled from the spec: `clear()`. -/
def clear (c : ThumbnailCache) : ThumbnailCache := { c with entries := [] }

/-- Modelled from the spec: `keys`, the keys of the entries held. -/
def keys (c : ThumbnailCache) : List Key := c.entries.map Prod.fst

/-- Modelled from the spec: `setMaxCost`, which sets the budget and evicts the least recently
used entries that exceed it. -/
def setMaxCost (c : ThumbnailCache) (maxCost : Int) : ThumbnailCache :=
  { maxCost := maxCost, entries := c.entries.take maxCost.toNat }

end ThumbnailCache

/-- `s_tagFrame`. -/
def s_tagFrame : String := "#frame_"

namespace QString

/-- `QChar::isSpace` on the Latin-1 range: the space, the control characters 9 to 13, next
line and the no-break space. -/
def isSpace (c : Char) : Bool :=
  c = ' ' || (9 ≤ c.toNat && c.toNat ≤ 13) || c.toNat = 133 || c.toNat = 160

/-- `QString::trimmed`, on the list of characters. -/
def trimmed (s : List Char) : List Char :=
  ((s.dropWhile isSpace).reverse.dropWhile isSpace).reverse

/-- The value of a list of decimal digits. -/
def digitsValue (ds : List Char) : Int :=
  ds.foldl (fun (a : Int) (c : Char) => 10 * a + ((c.toNat : Int) - 48)) 0

/-- `QString::toInt()` with base 10: white space at both ends is skipped, then an optional
sign and decimal digits are read; the result is 0 when the rest is not of that form or the
value is not an `int`. -/
def toInt (s : List Char) : Int :=
  let t := trimmed s
  let negative : Bool := decide (t.head? = some '-')
  let ds := if t.head? = some '-' ∨ t.head? = some '+' then t.tail else t
  if ds ≠ [] ∧ ds.all Char.isDigit = true then
    let v : Int := if negative then - digitsValue ds else digitsValue ds
    if -2147483648 ≤ v ∧ v ≤ INT_MAX then v else 0
  else 0

/-- Whether the pattern `#frame_\d+$` matches the whole of `s`: the tag, then one or more
decimal digits up to the end of the string; the `$` of the pattern also holds right before a
line feed that ends the string. -/
def frameTagAt (s : List Char) : Bool :=
  match s with
  | '#' :: 'f' :: 'r' :: 'a' :: 'm' :: 'e' :: '_' :: rest =>
    let ds := if rest.getLast? = some '\n' then rest.dropLast else rest
    decide (ds ≠ []) && ds.all Char.isDigit
  | _ => false

/-- `id.lastIndexOf(QRegularExpression("#frame_\\d+$"))`: the last index at which the
pattern matches, -1 when it matches nowhere. -/
def lastIndexOfFrameTag : List Char → Int
  | [] => -1
  | c :: cs =>
    if lastIndexOfFrameTag cs ≠ -1 then lastIndexOfFrameTag cs + 1
    else if frameTagAt (c :: cs) then 0
    else -1

end QString

/-- `parseProviderID`: the pair of `filePath` and `frameIndex`. -/
def parseProviderID (id : String) : String × Int :=
  let index := QString.lastIndexOfFrameTag id.data
  if index = -1 then ((QUrl.fromString id).toLocalFile, 0)
  else
    ((QUrl.fromString (String.mk (id.data.take index.toNat))).toLocalFile,
      QString.toInt (id.data.drop (index.toNat + s_tagFrame.length)))

/-- The id ends in `#frame_<digits>`: some text, then the tag, then one or more decimal
digits up to the end of the id. -/
def EndsInFrameTag (id : String) : Prop :=
  ∃ (p ds : List Char), ds ≠ [] ∧ ds.all Char.isDigit = true ∧
    id.data = p ++ s_tagFrame.data ++ ds

/-- The id is some text, then the tag, then one or more decimal digits and a line feed that
ends the id. -/
def EndsInFrameTagAndLineFeed (id : String) : Prop :=
  ∃ (p ds : List Char), ds ≠ [] ∧ ds.all Char.isDigit = true ∧
    id.data = p ++ s_tagFrame.data ++ ds ++ ['\n']

/-- What the providers call outside this file: `loadStaticImageFromFile` (the image it
leaves, null on failure), `QImageReader::jumpToImage` and `read`,
`LibUnionImage_NameSpace::rotateImage`, `QImage::scaled` to a size, and the scaling to a
thumbnail of 100 x 100. -/
structure ImageLib where
  loadStaticImageFromFile : String → QImage
  jumpToImage : String → Int → Bool
  read : String → Int → QImage
  rotateImage : Int → QImage → QImage
  scaled : QImage → Int × Int → QImage
  scaledThumbnail : QImage → QImage

/-- `readNormalImage`. -/
def readNormalImage (env : ImageLib) (imagePath : String) : QImage :=
  env.loadStaticImageFromFile imagePath

/-- `readMultiImage`. -/
def readMultiImage (env : ImageLib) (imagePath : String) (frameIndex : Int) : QImage :=
  if env.jumpToImage imagePath frameIndex then env.read imagePath frameIndex else QImage.null

/-- The members of `ProviderCache` (declared in imageprovider.h): the cache of recent full
images and the rotation state, that is the path rotated last, the image saved at its first
rotation and the accumulated angle. -/
structure ProviderCache where
  imageCache : ThumbnailCache
  lastRotatePath : String
  lastRotateImage : QImage
  lastRotation : Int
deriving DecidableEq

namespace ProviderCache

/-- `ProviderCache::rotateImageCached`; the second component lists the calls
`ThumbnailCache::instance()->add(path, frameIndex, image)`. -/
def rotateImageCached (env : ImageLib) (p : ProviderCache) (angle : Int) (imagePath : String)
    (frameIndex : Int) : ProviderCache × List (Key × QImage) :=
  if 0 = angle then (p, [])
  else
    let r : QImage × ProviderCache :=
      if imagePath ≠ p.lastRotatePath then
        let g := p.imageCache.get imagePath frameIndex
        (g.1, { imageCache := g.2, lastRotatePath := imagePath, lastRotateImage := g.1,
                lastRotation := angle })
      else (p.lastRotateImage, { p with lastRotation := p.lastRotation + angle })
    if !r.1.isNull then
      let image :=
        if Int.tmod r.2.lastRotation 360 ≠ 0 then env.rotateImage r.2.lastRotation r.1 else r.1
      ({ r.2 with imageCache := r.2.imageCache.add imagePath frameIndex image },
        [(toFindKey imagePath frameIndex, env.scaledThumbnail image)])
    else (r.2, [])

/-- `ProviderCache::removeImageCache`. -/
def removeImageCache (p : ProviderCache) (imagePath : String) : ProviderCache :=
  let cache := p.imageCache.keys.foldl
    (fun (c : ThumbnailCache) (key : Key) =>
      if key.1 = imagePath then c.remove key.1 key.2 else c)
    p.imageCache
  { p with imageCache := cache }

/-- `ProviderCache::renameImageCache`. -/
def renameImageCache (p : ProviderCache) (oldPath newPath : String) : ProviderCache :=
  let cache := p.imageCache.keys.foldl
    (fun (c : ThumbnailCache) (key : Key) =>
      if key.1 = oldPath then (c.take key.1 key.2).2.add newPath key.2 (c.take key.1 key.2).1
      else c)
    p.imageCache
  { p with imageCache := cache }

/-- `ProviderCache::clearCache`. -/
def clearCache (p : ProviderCache) : ProviderCache :=
  { p with imageCache := p.imageCache.clear, lastRotatePath := "",
           lastRotateImage := QImage.null }

end ProviderCache

/-- `AsyncImageResponse::run`: the provider afterwards and the image of the response. -/
def AsyncImageResponse.run (env : ImageLib) (provider : ProviderCache) (providerId : String)
    (requestedSize : Int × Int) : ProviderCache × QImage :=
  let tempPath := (parseProviderID providerId).1
  let frameIndex := (parseProviderID providerId).2
  let g := provider.imageCache.get tempPath frameIndex
  let r : ProviderCache × QImage :=
    if g.1.isNull then
      let image :=
        if frameIndex ≠ 0 then readMultiImage env tempPath frameIndex
        else readNormalImage env tempPath
      ({ provider with imageCache := g.2.add tempPath frameIndex image }, image)
    else ({ provider with imageCache := g.2 }, g.1)
  if !r.2.isNull && decide (r.2.size ≠ requestedSize) && QSize.isValid requestedSize then
    (r.1, env.scaled r.2 requestedSize)
  else r

namespace AsyncImageProvider

/-- The constructor `AsyncImageProvider::AsyncImageProvider`, on the freshly constructed
members of `ProviderCache`: an empty cache, whose initial budget `initialCost` is set in
thumbnailcache.cpp, and no rotation recorded; the constructor sets the budget to 4. -/
def init (initialCost : Int) : ProviderCache :=
  { imageCache := (ThumbnailCache.empty initialCost).setMaxCost 4, lastRotatePath := "",
    lastRotateImage := QImage.null, lastRotation := 0 }

/-- The operations on an `AsyncImageProvider` that reach its image cache: a response run
(`requestImageResponse`, and `preloadImage`, whose response has the invalid size `QSize()`),
and the methods of `ProviderCache`. -/
inductive Op where
  | requestImageResponse (id : String) (requestedSize : Int × Int)
  | preloadImage (filePath : String)
  | rotateImageCached (angle : Int) (imagePath : String) (frameIndex : Int)
  | removeImageCache (imagePath : String)
  | renameImageCache (oldPath newPath : String)
  | clearCache
deriving DecidableEq

/-- One operation on the provider. -/
def step (env : ImageLib) (p : ProviderCache) : Op → ProviderCache
  | Op.requestImageResponse id requestedSize => (AsyncImageResponse.run env p id requestedSize).1
  | Op.preloadImage filePath => (AsyncImageResponse.run env p filePath (-1, -1)).1
  | Op.rotateImageCached angle imagePath frameIndex =>
    (p.rotateImageCached env angle imagePath frameIndex).1
  | Op.removeImageCache imagePath => p.removeImageCache imagePath
  | Op.renameImageCache oldPath newPath => p.renameImageCache oldPath newPath
  | Op.clearCache => p.clearCache

/-- The provider after a sequence of operations. -/
def exec (env : ImageLib) (p : ProviderCache) (ops : List Op) : ProviderCache :=
  ops.foldl (step env) p

end AsyncImageProvider

namespace ThumbnailCache

/-- Modelled from the spec: a sequence of `add` calls, in the order of the list. -/
def addAll (c : ThumbnailCache) (l : List (Key × QImage)) : ThumbnailCache :=
  l.foldl (fun (a : ThumbnailCache) (e : Key × QImage) => a.add e.1.1 e.1.2 e.2) c

end ThumbnailCache

namespace ThumbnailCache

/-- The budget of the cache is `n` and the cache holds at most `n` entries. -/
def Within (c : ThumbnailCache) (n : Nat) : Prop :=
  c.maxCost = n ∧ c.entries.length ≤ n

end ThumbnailCache

/-! ## Sample states -/

namespace Examples

/-- The `file` URL of a path. -/
def fileUrl (path : String) : QUrl := ⟨"file", path⟩

/-- Process-wide state at start: nothing cached, eight hardware threads. -/
def freshGlobals : Globals :=
  { cacheInstance := ImageInfoCache.init, heap := fun _ => {}, idealThreadCount := 8,
    log := [] }

/-- Five images with the first one current, no metadata loaded yet, no rotation pending. -/
def fiveImages : GlobalControl :=
  { sourceModel := [fileUrl "/a", fileUrl "/b", fileUrl "/c", fileUrl "/d", fileUrl "/e"],
    currentImage := ⟨fileUrl "/a", 0, none, Status.Loading⟩,
    curIndex := 0, curFrameIndex := 0, imageRotation := 0,
    hasPrevious := false, hasNext := true, submitTimer := false, env := freshGlobals }

/-- A multi-page record with `n` frames for `path`, of size 30 x 20. -/
def multiRecord (path : String) (n : Int) : ImageInfoData :=
  { path := path, type := Types.ImageType.MultiImage, width := 30, height := 20,
    frameIndex := 0, frameCount := n, exist := true }

/-- Two images, the second one (a loaded multi-page image with 3 frames) current at frame 0;
no metadata is cached for the first one. -/
def secondOfTwo : GlobalControl :=
  { sourceModel := [fileUrl "/a", fileUrl "/b"],
    currentImage := ⟨fileUrl "/b", 0, some 0, Status.Ready⟩,
    curIndex := 1, curFrameIndex := 0, imageRotation := 0,
    hasPrevious := true, hasNext := true, submitTimer := false,
    env :=
      { cacheInstance :=
          { ImageInfoCache.init with cache := fun k => if k = ("/b", 0) then some 0 else none },
        heap := fun _ => multiRecord "/b" 3, idealThreadCount := 8, log := [] } }

/-- As `secondOfTwo`, with the metadata of the first image cached: 4 frames. -/
def secondOfTwoCached : GlobalControl :=
  { secondOfTwo with
    env :=
      { cacheInstance :=
          { ImageInfoCache.init with
            cache := fun k =>
              if k = ("/b", 0) then some 0 else if k = ("/a", 0) then some 1 else none },
        heap := fun p => if p = 1 then multiRecord "/a" 4 else multiRecord "/b" 3,
        idealThreadCount := 8, log := [] } }

/-- Two images, the first one (a loaded multi-page image with 3 frames) current at frame 0;
no metadata is cached for the second one, the last of the collection. -/
def multiThenUncached : GlobalControl :=
  { secondOfTwo with
    sourceModel := [fileUrl "/b", fileUrl "/a"], curIndex := 0, hasPrevious := false }

/-- A file system with the directory `/d` holding the file `a.png`. -/
def oneFile : FileSystem :=
  { fileExists := fun p => decide (p = "/d/a.png" ∨ p = "/d"),
    isDir := fun p => decide (p = "/d"),
    entryList := fun d => if d = "/d" then ["a.png"] else [],
    absolutePath := fun p => if p = "/d/a.png" then "/d" else p,
    fileName := fun p => if p = "/d/a.png" then "a.png" else p }

/-- The file system `oneFile` after `a.png` has been deleted. -/
def noFile : FileSystem :=
  { oneFile with
    fileExists := fun p => decide (p = "/d"),
    entryList := fun _ => [] }

/-- A watcher that watches nothing. -/
def idleWatcher : ImageFileWatcher :=
  { files := [], directories := [], cacheFileInfo := fun _ => none, removedFile := [],
    rotateImagePathSet := ∅, env := freshGlobals }

/-- The watcher after the folder `/d` has been opened through the URL of `a.png`. -/
def watchingD : ImageFileWatcher :=
  ImageFileWatcher.resetImageFiles oneFile idleWatcher ["file:///d/a.png"]

/-- The watcher of `/d` after `a.png` has been deleted: `/d/a.png` is no longer among the
watched files, and `onImageFileChanged` has run for it. -/
def watchingRemoved : ImageFileWatcher :=
  ImageFileWatcher.onImageFileChanged noFile
    { watchingD with files := watchingD.files.filter (fun f => decide (f ≠ "/d/a.png")) }
    "/d/a.png"

/-- A decoder for which every file exists and is a static image of size 30 x 20. -/
def staticDecoder : Decoder :=
  { closingDown := false, fileExists := fun _ => true, thumbnailContains := fun _ _ => false,
    getImageType := fun _ => imageViewerSpace.ImageType.ImageTypeStatic,
    readFrame := fun _ _ => some (30, 20), imageCount := fun _ => 1,
    loadStaticImageFromFile := fun _ => some (30, 20) }

/-- A decoder for which no file exists; the only thumbnail cached is that of `("/a", 0)`. -/
def missingDecoder : Decoder :=
  { staticDecoder with
    fileExists := fun _ => false,
    thumbnailContains := fun p i => decide (p = "/a" ∧ i = 0) }

/-- The decoder `staticDecoder` while the application is closing down. -/
def closingDecoder : Decoder := { staticDecoder with closingDown := true }

/-- Process-wide state with a static record at address 0 and, at address 1, a record that
differs from it in type, size and frame count; `("/a", 0)` is cached at address 1. -/
def twoRecords : Globals :=
  { cacheInstance :=
      { ImageInfoCache.init with cache := fun k => if k = ("/a", 0) then some 1 else none },
    heap := fun p =>
      if p = 1 then multiRecord "/a" 4
      else { path := "/a", type := Types.ImageType.NormalImage, width := 30, height := 20,
             exist := true },
    idealThreadCount := 8, log := [] }

/-- A handle on `/a`, frame 0, holding the record at address 0. -/
def handleOnA : ImageInfo :=
  { imageUrl := fileUrl "/a", currentIndex := 0, data := some 0, imageStatus := Status.Ready }

/-- As `secondOfTwoCached`, with the first image current, at frame 2 of its 4 frames. -/
def firstOfTwoAtFrame : GlobalControl :=
  { secondOfTwoCached with
    currentImage := ⟨fileUrl "/a", 0, some 1, Status.Ready⟩,
    curIndex := 0, curFrameIndex := 2 }

/-- As `firstOfTwoAtFrame`, at the last frame, 3. -/
def firstOfTwoAtLastFrame : GlobalControl := { firstOfTwoAtFrame with curFrameIndex := 3 }

/-- The record of the static image `/a`, as a run of the decoder `staticDecoder` delivers
it. -/
def staticRecord : ImageInfoData :=
  { path := "/a", type := Types.ImageType.NormalImage, width := 30, height := 20,
    exist := true }

/-- Process-wide state in which that record is cached for `("/a", 0)`, at address 0. -/
def staticCached : Globals :=
  { cacheInstance :=
      { ImageInfoCache.init with cache := fun k => if k = ("/a", 0) then some 0 else none },
    heap := fun _ => staticRecord, idealThreadCount := 8, log := [] }

/-- A handle on `/a`, frame 0, holding the record at address 1. -/
def handleOnMulti : ImageInfo :=
  { imageUrl := fileUrl "/a", currentIndex := 0, data := some 1, imageStatus := Status.Ready }

/-- A decoder for which the type sniffer reports a type outside the five named ones for
every file, while the file exists and loads as a 30 x 20 image. -/
def otherDecoder : Decoder :=
  { staticDecoder with getImageType := fun _ => imageViewerSpace.ImageType.ImageTypeOther }

/-- A sample image library: every file loads as the 30 x 20 image with pixel data `[1]`; a
rotation swaps the sides for an odd multiple of 90 and is marked by putting the angle in
front of the pixel data; scaling keeps the pixel data. -/
def sampleLib : ImageLib :=
  { loadStaticImageFromFile := fun _ => QImage.image 30 20 [1],
    jumpToImage := fun _ i => decide (0 ≤ i ∧ i < 3),
    read := fun _ i => QImage.image 30 20 [i.toNat],
    rotateImage := fun angle image =>
      match image with
      | QImage.null => QImage.null
      | QImage.image w h bits =>
        if Int.tmod angle 180 = 0 then QImage.image w h (angle.toNat :: bits)
        else QImage.image h w (angle.toNat :: bits),
    scaled := fun image size =>
      match image with
      | QImage.null => QImage.null
      | QImage.image _ _ bits => QImage.image size.1 size.2 bits,
    scaledThumbnail := fun image =>
      match image with
      | QImage.null => QImage.null
      | QImage.image _ _ bits => QImage.image 100 100 bits }

/-- The library `sampleLib` after the files have been rewritten: every file loads as the
40 x 10 image with pixel data `[2]`. -/
def changedLib : ImageLib :=
  { sampleLib with loadStaticImageFromFile := fun _ => QImage.image 40 10 [2] }

/-- An `AsyncImageProvider` that has loaded the image `/a`. -/
def providerWithA : ProviderCache :=
  (AsyncImageResponse.run sampleLib (AsyncImageProvider.init 100) "file:///a" (-1, -1)).1

end Examples

/-! ## Frame lemmas for the handle and the controller -/

namespace GlobalControl

@[simp] theorem rotateRequests_append (l1 l2 : List Event) :
    rotateRequests (l1 ++ l2) = rotateRequests l1 ++ rotateRequests l2 := by
  simp [rotateRequests, List.filterMap_append]

@[simp] theorem rotateRequests_nil : rotateRequests [] = [] := rfl

@[simp] theorem rotateRequests_cons (e : Event) (l : List Event) :
    rotateRequests (e :: l) =
      (match e with
        | Event.requestRotateImage path rotation => [(path, rotation)]
        | _ => []) ++ rotateRequests l := by
  cases e <;> simp [rotateRequests, List.filterMap_cons]

end GlobalControl

namespace ImageInfo

open GlobalControl (rotateRequests rotateRequests_append)

@[simp] theorem swapWidthAndHeight_cacheInstance (g : Globals) (h : ImageInfo) :
    (swapWidthAndHeight g h).cacheInstance = g.cacheInstance := by
  unfold swapWidthAndHeight onSizeChanged
  cases h.data <;> simp [Globals.emit]

@[simp] theorem swapWidthAndHeight_idealThreadCount (g : Globals) (h : ImageInfo) :
    (swapWidthAndHeight g h).idealThreadCount = g.idealThreadCount := by
  unfold swapWidthAndHeight onSizeChanged
  cases h.data <;> simp [Globals.emit]

@[simp] theorem swapWidthAndHeight_rotateRequests (g : Globals) (h : ImageInfo) :
    rotateRequests (swapWidthAndHeight g h).log = rotateRequests g.log := by
  unfold swapWidthAndHeight onSizeChanged
  cases h.data <;> simp [Globals.emit]

theorem swapWidthAndHeight_heap (g : Globals) (h : ImageInfo) :
    (swapWidthAndHeight g h).heap =
      match h.data with
      | some p => Function.update g.heap p
          { g.heap p with width := (g.heap p).height, height := (g.heap p).width }
      | none => g.heap := by
  unfold swapWidthAndHeight onSizeChanged
  cases h.data <;> simp [Globals.emit]

@[simp] theorem setStatus_heap (g : Globals) (h : ImageInfo) (st : Status) :
    (setStatus g h st).1.heap = g.heap := by
  unfold setStatus
  split_ifs <;> simp [Globals.emit]

@[simp] theorem setStatus_idealThreadCount (g : Globals) (h : ImageInfo) (st : Status) :
    (setStatus g h st).1.idealThreadCount = g.idealThreadCount := by
  unfold setStatus
  split_ifs <;> simp [Globals.emit]

@[simp] theorem setStatus_cacheInstance (g : Globals) (h : ImageInfo) (st : Status) :
    (setStatus g h st).1.cacheInstance = g.cacheInstance := by
  unfold setStatus
  split_ifs <;> simp [Globals.emit]

@[simp] theorem setStatus_rotateRequests (g : Globals) (h : ImageInfo) (st : Status) :
    rotateRequests (setStatus g h st).1.log = rotateRequests g.log := by
  unfold setStatus
  split_ifs <;> simp [Globals.emit]

@[simp] theorem setStatus_data (g : Globals) (h : ImageInfo) (st : Status) :
    (setStatus g h st).2.data = h.data := by
  unfold setStatus
  split_ifs <;> simp

@[simp] theorem setStatus_imageUrl (g : Globals) (h : ImageInfo) (st : Status) :
    (setStatus g h st).2.imageUrl = h.imageUrl := by
  unfold setStatus
  split_ifs <;> simp

@[simp] theorem setStatus_currentIndex (g : Globals) (h : ImageInfo) (st : Status) :
    (setStatus g h st).2.currentIndex = h.currentIndex := by
  unfold setStatus
  split_ifs <;> simp

@[simp] theorem updateData_heap (g : Globals) (h : ImageInfo) (o n : Ptr) :
    (updateData g h o n).1.1.heap = g.heap := by
  unfold updateData
  split_ifs <;> simp [Globals.emit]

@[simp] theorem updateData_idealThreadCount (g : Globals) (h : ImageInfo) (o n : Ptr) :
    (updateData g h o n).1.1.idealThreadCount = g.idealThreadCount := by
  unfold updateData
  split_ifs <;> simp [Globals.emit]

@[simp] theorem updateData_rotateRequests (g : Globals) (h : ImageInfo) (o n : Ptr) :
    rotateRequests (updateData g h o n).1.1.log = rotateRequests g.log := by
  unfold updateData
  split_ifs
  · simp
  · simp only [Globals.emit, rotateRequests_append]
    (repeat' split_ifs) <;> simp

@[simp] theorem updateData_imageUrl (g : Globals) (h : ImageInfo) (o n : Ptr) :
    (updateData g h o n).1.2.imageUrl = h.imageUrl := by
  unfold updateData
  split_ifs <;> simp

@[simp] theorem updateData_currentIndex (g : Globals) (h : ImageInfo) (o n : Ptr) :
    (updateData g h o n).1.2.currentIndex = h.currentIndex := by
  unfold updateData
  split_ifs <;> simp

theorem updateData_data (g : Globals) (h : ImageInfo) (o n : Ptr) (ho : h.data = some o) :
    (updateData g h o n).1.2.data = some n := by
  unfold updateData
  split_ifs with e <;> simp [ho, e]

end ImageInfo

namespace ImageInfo

open GlobalControl (rotateRequests rotateRequests_append)

theorem refreshDataFromCache_frame (g : Globals) (h : ImageInfo) (r : Bool) :
    (refreshDataFromCache g h r).1.heap = g.heap ∧
    (refreshDataFromCache g h r).1.idealThreadCount = g.idealThreadCount ∧
    rotateRequests (refreshDataFromCache g h r).1.log = rotateRequests g.log ∧
    (refreshDataFromCache g h r).2.imageUrl = h.imageUrl ∧
    (refreshDataFromCache g h r).2.currentIndex = h.currentIndex ∧
    (refreshDataFromCache g h r).2.data =
      (if h.imageUrl.toLocalFile = "" then h.data
      else match g.cacheInstance.find h.imageUrl.toLocalFile h.currentIndex with
        | some p => some p
        | none => h.data) := by
  unfold refreshDataFromCache
  by_cases h0 : h.imageUrl.toLocalFile = ""
  · simp [h0]
  · cases hf : g.cacheInstance.find h.imageUrl.toLocalFile h.currentIndex with
    | none => cases r <;> simp [h0]
    | some p =>
      cases hd : h.data with
      | none => simp [h0, Globals.emit]
      | some o =>
        by_cases hu : (updateData g h o p).2 = true <;>
          simp [h0, hu, Globals.emit, updateData_data g h o p hd]

@[simp] theorem refreshDataFromCache_heap (g : Globals) (h : ImageInfo) (r : Bool) :
    (refreshDataFromCache g h r).1.heap = g.heap :=
  (refreshDataFromCache_frame g h r).1

@[simp] theorem refreshDataFromCache_idealThreadCount (g : Globals) (h : ImageInfo) (r : Bool) :
    (refreshDataFromCache g h r).1.idealThreadCount = g.idealThreadCount :=
  (refreshDataFromCache_frame g h r).2.1

@[simp] theorem refreshDataFromCache_rotateRequests (g : Globals) (h : ImageInfo) (r : Bool) :
    rotateRequests (refreshDataFromCache g h r).1.log = rotateRequests g.log :=
  (refreshDataFromCache_frame g h r).2.2.1

@[simp] theorem refreshDataFromCache_imageUrl (g : Globals) (h : ImageInfo) (r : Bool) :
    (refreshDataFromCache g h r).2.imageUrl = h.imageUrl :=
  (refreshDataFromCache_frame g h r).2.2.2.1

@[simp] theorem refreshDataFromCache_currentIndex (g : Globals) (h : ImageInfo) (r : Bool) :
    (refreshDataFromCache g h r).2.currentIndex = h.currentIndex :=
  (refreshDataFromCache_frame g h r).2.2.2.2.1

/-- The record a handle holds after a refresh: the cached record of its key when there is
one, else the record it held before. -/
theorem refreshDataFromCache_data (g : Globals) (h : ImageInfo) (r : Bool) :
    (refreshDataFromCache g h r).2.data =
      if h.imageUrl.toLocalFile = "" then h.data
      else match g.cacheInstance.find h.imageUrl.toLocalFile h.currentIndex with
        | some p => some p
        | none => h.data :=
  (refreshDataFromCache_frame g h r).2.2.2.2.2

@[simp] theorem setSource_heap (g : Globals) (h : ImageInfo) (u : QUrl) :
    (setSource g h u).1.heap = g.heap := by
  unfold setSource
  split_ifs <;> simp [Globals.emit]

@[simp] theorem setSource_idealThreadCount (g : Globals) (h : ImageInfo) (u : QUrl) :
    (setSource g h u).1.idealThreadCount = g.idealThreadCount := by
  unfold setSource
  split_ifs <;> simp [Globals.emit]

@[simp] theorem setSource_rotateRequests (g : Globals) (h : ImageInfo) (u : QUrl) :
    rotateRequests (setSource g h u).1.log = rotateRequests g.log := by
  unfold setSource
  split_ifs <;> simp [Globals.emit]

@[simp] theorem setSource_imageUrl (g : Globals) (h : ImageInfo) (u : QUrl) :
    (setSource g h u).2.imageUrl = u := by
  unfold setSource
  split_ifs with e
  · simp
  · simpa using e

@[simp] theorem setSource_currentIndex (g : Globals) (h : ImageInfo) (u : QUrl) :
    (setSource g h u).2.currentIndex = h.currentIndex := by
  unfold setSource
  split_ifs <;> simp

/-- After `setSource` to another image whose metadata is cached, the handle holds the cached
record of that image. -/
theorem setSource_data_of_cached (g : Globals) (h : ImageInfo) (u : QUrl) (p : Ptr)
    (hne : h.imageUrl ≠ u) (hpath : u.toLocalFile ≠ "")
    (hc : g.cacheInstance.find u.toLocalFile h.currentIndex = some p) :
    (setSource g h u).2.data = some p := by
  unfold setSource
  rw [if_pos hne, refreshDataFromCache_data]
  simp [hpath, Globals.emit, hc]

end ImageInfo

namespace GlobalControl

@[simp] theorem emit_sourceModel (s : GlobalControl) (es : List Event) :
    (s.emit es).sourceModel = s.sourceModel := rfl

@[simp] theorem emit_currentImage (s : GlobalControl) (es : List Event) :
    (s.emit es).currentImage = s.currentImage := rfl

@[simp] theorem emit_curIndex (s : GlobalControl) (es : List Event) :
    (s.emit es).curIndex = s.curIndex := rfl

@[simp] theorem emit_curFrameIndex (s : GlobalControl) (es : List Event) :
    (s.emit es).curFrameIndex = s.curFrameIndex := rfl

@[simp] theorem emit_imageRotation (s : GlobalControl) (es : List Event) :
    (s.emit es).imageRotation = s.imageRotation := rfl

@[simp] theorem emit_hasPrevious (s : GlobalControl) (es : List Event) :
    (s.emit es).hasPrevious = s.hasPrevious := rfl

@[simp] theorem emit_hasNext (s : GlobalControl) (es : List Event) :
    (s.emit es).hasNext = s.hasNext := rfl

@[simp] theorem emit_submitTimer (s : GlobalControl) (es : List Event) :
    (s.emit es).submitTimer = s.submitTimer := rfl

@[simp] theorem emit_env_cacheInstance (s : GlobalControl) (es : List Event) :
    (s.emit es).env.cacheInstance = s.env.cacheInstance := rfl

@[simp] theorem emit_env_heap (s : GlobalControl) (es : List Event) :
    (s.emit es).env.heap = s.env.heap := rfl

@[simp] theorem emit_env_idealThreadCount (s : GlobalControl) (es : List Event) :
    (s.emit es).env.idealThreadCount = s.env.idealThreadCount := rfl

@[simp] theorem emit_env_log (s : GlobalControl) (es : List Event) :
    (s.emit es).env.log = s.env.log ++ es := rfl

@[simp] theorem setCurrentRotation_sourceModel (s : GlobalControl) (angle : Int) :
    (s.setCurrentRotation angle).sourceModel = s.sourceModel := by
  simp only [setCurrentRotation]
  split_ifs <;> simp

@[simp] theorem setCurrentRotation_currentImage (s : GlobalControl) (angle : Int) :
    (s.setCurrentRotation angle).currentImage = s.currentImage := by
  simp only [setCurrentRotation]
  split_ifs <;> simp

@[simp] theorem setCurrentRotation_curIndex (s : GlobalControl) (angle : Int) :
    (s.setCurrentRotation angle).curIndex = s.curIndex := by
  simp only [setCurrentRotation]
  split_ifs <;> simp

@[simp] theorem setCurrentRotation_curFrameIndex (s : GlobalControl) (angle : Int) :
    (s.setCurrentRotation angle).curFrameIndex = s.curFrameIndex := by
  simp only [setCurrentRotation]
  split_ifs <;> simp

@[simp] theorem setCurrentRotation_hasPrevious (s : GlobalControl) (angle : Int) :
    (s.setCurrentRotation angle).hasPrevious = s.hasPrevious := by
  simp only [setCurrentRotation]
  split_ifs <;> simp

@[simp] theorem setCurrentRotation_hasNext (s : GlobalControl) (angle : Int) :
    (s.setCurrentRotation angle).hasNext = s.hasNext := by
  simp only [setCurrentRotation]
  split_ifs <;> simp

@[simp] theorem setCurrentRotation_env_cacheInstance (s : GlobalControl) (angle : Int) :
    (s.setCurrentRotation angle).env.cacheInstance = s.env.cacheInstance := by
  simp only [setCurrentRotation]
  split_ifs <;> simp

@[simp] theorem setCurrentRotation_env_idealThreadCount (s : GlobalControl) (angle : Int) :
    (s.setCurrentRotation angle).env.idealThreadCount = s.env.idealThreadCount := by
  simp only [setCurrentRotation]
  split_ifs <;> simp

@[simp] theorem setCurrentRotation_imageRotation (s : GlobalControl) (angle : Int) :
    (s.setCurrentRotation angle).imageRotation = angle := by
  simp only [setCurrentRotation]
  split_ifs with h1 h2
  · simp
  · simp
  · simpa using h1

@[simp] theorem setCurrentRotation_rotateRequests (s : GlobalControl) (angle : Int) :
    rotateRequests (s.setCurrentRotation angle).env.log = rotateRequests s.env.log := by
  simp only [setCurrentRotation]
  split_ifs <;> simp

theorem setCurrentRotation_submitTimer (s : GlobalControl) (angle : Int) :
    (s.setCurrentRotation angle).submitTimer =
      if s.imageRotation ≠ angle then true else s.submitTimer := by
  simp only [setCurrentRotation]
  split_ifs <;> simp

@[simp] theorem submitImageChangeImmediately_sourceModel (s : GlobalControl) :
    s.submitImageChangeImmediately.sourceModel = s.sourceModel := by
  simp only [submitImageChangeImmediately, currentRotation]
  split_ifs <;> simp

@[simp] theorem submitImageChangeImmediately_currentImage (s : GlobalControl) :
    s.submitImageChangeImmediately.currentImage = s.currentImage := by
  simp only [submitImageChangeImmediately, currentRotation]
  split_ifs <;> simp

@[simp] theorem submitImageChangeImmediately_curIndex (s : GlobalControl) :
    s.submitImageChangeImmediately.curIndex = s.curIndex := by
  simp only [submitImageChangeImmediately, currentRotation]
  split_ifs <;> simp

@[simp] theorem submitImageChangeImmediately_curFrameIndex (s : GlobalControl) :
    s.submitImageChangeImmediately.curFrameIndex = s.curFrameIndex := by
  simp only [submitImageChangeImmediately, currentRotation]
  split_ifs <;> simp

@[simp] theorem submitImageChangeImmediately_hasPrevious (s : GlobalControl) :
    s.submitImageChangeImmediately.hasPrevious = s.hasPrevious := by
  simp only [submitImageChangeImmediately, currentRotation]
  split_ifs <;> simp

@[simp] theorem submitImageChangeImmediately_hasNext (s : GlobalControl) :
    s.submitImageChangeImmediately.hasNext = s.hasNext := by
  simp only [submitImageChangeImmediately, currentRotation]
  split_ifs <;> simp

@[simp] theorem submitImageChangeImmediately_env_cacheInstance (s : GlobalControl) :
    s.submitImageChangeImmediately.env.cacheInstance = s.env.cacheInstance := by
  simp only [submitImageChangeImmediately, currentRotation]
  split_ifs <;> simp

@[simp] theorem submitImageChangeImmediately_env_idealThreadCount (s : GlobalControl) :
    s.submitImageChangeImmediately.env.idealThreadCount = s.env.idealThreadCount := by
  simp only [submitImageChangeImmediately, currentRotation]
  split_ifs <;> simp

@[simp] theorem submitImageChangeImmediately_imageRotation (s : GlobalControl) :
    s.submitImageChangeImmediately.imageRotation = 0 := by
  simp only [submitImageChangeImmediately, currentRotation]
  split_ifs with h <;> simp [h]

theorem submitImageChangeImmediately_rotateRequests (s : GlobalControl) :
    rotateRequests s.submitImageChangeImmediately.env.log =
      rotateRequests s.env.log ++
        (if Int.tmod s.imageRotation 360 ≠ 0 then
          [(s.currentImage.source.toLocalFile, Int.tmod s.imageRotation 360)]
        else []) := by
  simp only [submitImageChangeImmediately, currentRotation]
  split_ifs <;> simp_all

/-- With no rotation pending, a submit only stops the timer. -/
theorem submitImageChangeImmediately_of_zero (s : GlobalControl) (h : s.imageRotation = 0) :
    s.submitImageChangeImmediately = { s with submitTimer := false } := by
  unfold submitImageChangeImmediately
  simp [currentRotation, h]

theorem submitImageChangeImmediately_heap_of_zero (s : GlobalControl)
    (h : s.imageRotation = 0) : s.submitImageChangeImmediately.env.heap = s.env.heap := by
  rw [submitImageChangeImmediately_of_zero s h]

@[simp] theorem checkSwitchEnable_sourceModel (s : GlobalControl) :
    s.checkSwitchEnable.sourceModel = s.sourceModel := by
  simp only [checkSwitchEnable]
  split_ifs <;> simp

@[simp] theorem checkSwitchEnable_currentImage (s : GlobalControl) :
    s.checkSwitchEnable.currentImage = s.currentImage := by
  simp only [checkSwitchEnable]
  split_ifs <;> simp

@[simp] theorem checkSwitchEnable_curIndex (s : GlobalControl) :
    s.checkSwitchEnable.curIndex = s.curIndex := by
  simp only [checkSwitchEnable]
  split_ifs <;> simp

@[simp] theorem checkSwitchEnable_curFrameIndex (s : GlobalControl) :
    s.checkSwitchEnable.curFrameIndex = s.curFrameIndex := by
  simp only [checkSwitchEnable]
  split_ifs <;> simp

@[simp] theorem checkSwitchEnable_imageRotation (s : GlobalControl) :
    s.checkSwitchEnable.imageRotation = s.imageRotation := by
  simp only [checkSwitchEnable]
  split_ifs <;> simp

@[simp] theorem checkSwitchEnable_submitTimer (s : GlobalControl) :
    s.checkSwitchEnable.submitTimer = s.submitTimer := by
  simp only [checkSwitchEnable]
  split_ifs <;> simp

@[simp] theorem checkSwitchEnable_env_cacheInstance (s : GlobalControl) :
    s.checkSwitchEnable.env.cacheInstance = s.env.cacheInstance := by
  simp only [checkSwitchEnable]
  split_ifs <;> simp

@[simp] theorem checkSwitchEnable_env_heap (s : GlobalControl) :
    s.checkSwitchEnable.env.heap = s.env.heap := by
  simp only [checkSwitchEnable]
  split_ifs <;> simp

@[simp] theorem checkSwitchEnable_env_idealThreadCount (s : GlobalControl) :
    s.checkSwitchEnable.env.idealThreadCount = s.env.idealThreadCount := by
  simp only [checkSwitchEnable]
  split_ifs <;> simp

@[simp] theorem checkSwitchEnable_rotateRequests (s : GlobalControl) :
    rotateRequests s.checkSwitchEnable.env.log = rotateRequests s.env.log := by
  simp only [checkSwitchEnable]
  split_ifs <;> simp

@[simp] theorem checkSwitchEnable_hasPrevious (s : GlobalControl) :
    s.checkSwitchEnable.hasPrevious = decide (s.curIndex > 0 ∨ s.curFrameIndex > 0) := by
  simp only [checkSwitchEnable]
  split_ifs <;> simp_all

@[simp] theorem checkSwitchEnable_hasNext (s : GlobalControl) :
    s.checkSwitchEnable.hasNext =
      decide (s.curIndex < ImageSourceModel.rowCount s.sourceModel - 1 ∨
        s.curFrameIndex < ImageInfo.frameCount s.env s.currentImage - 1) := by
  simp only [checkSwitchEnable]
  split_ifs <;> simp_all

end GlobalControl

namespace ImageInfo

theorem frameCount_congr (g g2 : Globals) (h h2 : ImageInfo) (e1 : g.heap = g2.heap)
    (e2 : h.data = h2.data) : frameCount g h = frameCount g2 h2 := by
  simp [frameCount, e1, e2]

theorem type_congr (g g2 : Globals) (h h2 : ImageInfo) (e1 : g.heap = g2.heap)
    (e2 : h.data = h2.data) : type g h = type g2 h2 := by
  simp [type, e1, e2]

end ImageInfo

namespace GlobalControl

theorem setIndexAndFrameIndex_eq (s : GlobalControl) (index frameIndex : Int) :
    s.setIndexAndFrameIndex index frameIndex =
      (checkSwitchEnable (frameStep (indexStep s index) frameIndex)).emit
        [Event.setCurrentSourceIndex
          (checkSwitchEnable (frameStep (indexStep s index) frameIndex)).curIndex
          (checkSwitchEnable (frameStep (indexStep s index) frameIndex)).curFrameIndex] :=
  rfl

theorem setCurrentRotation_env_heap (s : GlobalControl) (angle : Int) :
    (s.setCurrentRotation angle).env.heap =
      if s.imageRotation ≠ angle ∧ angle ≠ 0 ∧
          Int.tmod (toInt32 (angle - s.imageRotation)) 180 ≠ 0 then
        (ImageInfo.swapWidthAndHeight s.env s.currentImage).heap
      else s.env.heap := by
  simp only [setCurrentRotation]
  split_ifs <;> simp_all [ImageInfo.swapWidthAndHeight_heap, emit, Globals.emit]

@[simp] theorem submitImageChangeImmediately_env_heap (s : GlobalControl) :
    s.submitImageChangeImmediately.env.heap = s.env.heap := by
  simp only [submitImageChangeImmediately, currentRotation]
  split_ifs <;> simp [setCurrentRotation_env_heap]

@[simp] theorem indexStep_sourceModel (s : GlobalControl) (index : Int) :
    (s.indexStep index).sourceModel = s.sourceModel := by
  simp only [indexStep]
  split_ifs <;> simp

@[simp] theorem indexStep_curFrameIndex (s : GlobalControl) (index : Int) :
    (s.indexStep index).curFrameIndex = s.curFrameIndex := by
  simp only [indexStep]
  split_ifs <;> simp

@[simp] theorem indexStep_hasPrevious (s : GlobalControl) (index : Int) :
    (s.indexStep index).hasPrevious = s.hasPrevious := by
  simp only [indexStep]
  split_ifs <;> simp

@[simp] theorem indexStep_hasNext (s : GlobalControl) (index : Int) :
    (s.indexStep index).hasNext = s.hasNext := by
  simp only [indexStep]
  split_ifs <;> simp

@[simp] theorem indexStep_env_heap (s : GlobalControl) (index : Int) :
    (s.indexStep index).env.heap = s.env.heap := by
  simp only [indexStep]
  split_ifs <;> simp

/-- The index stored by the first block: the index as passed when the clamped index differs
from the stored one, the stored one otherwise. -/
theorem indexStep_curIndex (s : GlobalControl) (index : Int) :
    (s.indexStep index).curIndex =
      if s.curIndex ≠ qBound 0 index (s.imageCount - 1) then index else s.curIndex := by
  simp only [indexStep]
  split_ifs <;> simp

theorem indexStep_imageRotation (s : GlobalControl) (index : Int) (h : s.imageRotation = 0) :
    (s.indexStep index).imageRotation = 0 := by
  simp only [indexStep]
  split_ifs <;> simp [h]

theorem indexStep_rotateRequests (s : GlobalControl) (index : Int) (h : s.imageRotation = 0) :
    rotateRequests (s.indexStep index).env.log = rotateRequests s.env.log := by
  simp only [indexStep]
  split_ifs <;> simp [submitImageChangeImmediately_rotateRequests, h]

@[simp] theorem frameStep_sourceModel (s : GlobalControl) (frameIndex : Int) :
    (s.frameStep frameIndex).sourceModel = s.sourceModel := by
  simp only [frameStep]
  split_ifs <;> simp

@[simp] theorem frameStep_currentImage (s : GlobalControl) (frameIndex : Int) :
    (s.frameStep frameIndex).currentImage = s.currentImage := by
  simp only [frameStep]
  split_ifs <;> simp

@[simp] theorem frameStep_curIndex (s : GlobalControl) (frameIndex : Int) :
    (s.frameStep frameIndex).curIndex = s.curIndex := by
  simp only [frameStep]
  split_ifs <;> simp

@[simp] theorem frameStep_env_heap (s : GlobalControl) (frameIndex : Int) :
    (s.frameStep frameIndex).env.heap = s.env.heap := by
  simp only [frameStep]
  split_ifs <;> simp

@[simp] theorem frameStep_curFrameIndex (s : GlobalControl) (frameIndex : Int) :
    (s.frameStep frameIndex).curFrameIndex =
      qBound 0 frameIndex (max 0 (ImageInfo.frameCount s.env s.currentImage - 1)) := by
  simp only [frameStep]
  split_ifs with h
  · simp
  · simpa using h

theorem frameStep_imageRotation (s : GlobalControl) (frameIndex : Int)
    (h : s.imageRotation = 0) : (s.frameStep frameIndex).imageRotation = 0 := by
  simp only [frameStep]
  split_ifs <;> simp [h]

theorem frameStep_rotateRequests (s : GlobalControl) (frameIndex : Int)
    (h : s.imageRotation = 0) :
    rotateRequests (s.frameStep frameIndex).env.log = rotateRequests s.env.log := by
  simp only [frameStep]
  split_ifs <;> simp [submitImageChangeImmediately_rotateRequests, h]

theorem setIndexAndFrameIndex_imageRotation (s : GlobalControl) (index frameIndex : Int)
    (h : s.imageRotation = 0) : (s.setIndexAndFrameIndex index frameIndex).imageRotation = 0 := by
  rw [setIndexAndFrameIndex_eq]
  simp [frameStep_imageRotation _ _ (indexStep_imageRotation s index h)]

theorem setIndexAndFrameIndex_rotateRequests (s : GlobalControl) (index frameIndex : Int)
    (h : s.imageRotation = 0) :
    rotateRequests (s.setIndexAndFrameIndex index frameIndex).env.log =
      rotateRequests s.env.log := by
  rw [setIndexAndFrameIndex_eq]
  simp [frameStep_rotateRequests _ _ (indexStep_imageRotation s index h),
    indexStep_rotateRequests s index h]

@[simp] theorem setIndexAndFrameIndex_sourceModel (s : GlobalControl) (index frameIndex : Int) :
    (s.setIndexAndFrameIndex index frameIndex).sourceModel = s.sourceModel := by
  rw [setIndexAndFrameIndex_eq]
  simp

/-- The index `setIndexAndFrameIndex` stores. -/
theorem setIndexAndFrameIndex_curIndex (s : GlobalControl) (index frameIndex : Int) :
    (s.setIndexAndFrameIndex index frameIndex).curIndex =
      if s.curIndex ≠ qBound 0 index (s.imageCount - 1) then index else s.curIndex := by
  rw [setIndexAndFrameIndex_eq]
  simp [indexStep_curIndex]

end GlobalControl

/-! ## GlobalControl: navigation and rotation commit -/

namespace GlobalControl

open Examples

/-- C1, the code at failing inputs: with five images and stored index 0,
`setIndexAndFrameIndex(10, 0)` selects the last image as source but stores currentIndex 10,
not the clamped index 4; from stored index 2, `setIndexAndFrameIndex(-1, 0)` stores
currentIndex -1, not 0. -/
theorem C1_setIndexAndFrameIndex_stores_unclamped_index :
    fiveImages.imageCount = 5 ∧
    qBound 0 10 (fiveImages.imageCount - 1) = 4 ∧
    (fiveImages.setIndexAndFrameIndex 10 0).curIndex = 10 ∧
    (fiveImages.setIndexAndFrameIndex 10 0).currentSource = fileUrl "/e" ∧
    (fiveImages.setIndexAndFrameIndex 2 0).curIndex = 2 ∧
    ((fiveImages.setIndexAndFrameIndex 2 0).setIndexAndFrameIndex (-1) 0).curIndex = -1 := by
  decide

/-- C2, as stated, fails: right after a commit the rotation is 0 and the submit timer is
active (the reset to 0 restarted it); `submitImageChangeImmediately` in that state stops the
timer, so the state is not unchanged. Besides, the angle of a request is the C++ remainder:
a pending rotation of -90 is requested as -90. -/
theorem C2_submit_with_zero_rotation_stops_timer :
    ((fiveImages.setCurrentRotation 90).submitImageChangeImmediately).imageRotation = 0 ∧
    ((fiveImages.setCurrentRotation 90).submitImageChangeImmediately).submitTimer = true ∧
    ((fiveImages.setCurrentRotation 90).submitImageChangeImmediately).submitImageChangeImmediately
      ≠ (fiveImages.setCurrentRotation 90).submitImageChangeImmediately ∧
    rotateRequests ((fiveImages.setCurrentRotation (-90)).submitImageChangeImmediately).env.log
      = [("/a", -90)] := by
  refine ⟨by decide, by decide, ?_, by decide⟩
  intro h
  have h2 := congrArg GlobalControl.submitTimer h
  revert h2
  decide

/-- C2, amended: after `submitImageChangeImmediately` with pending rotation `a` the rotation
is 0; the log gains exactly one `requestRotateImage` for the current image, carrying the C++
remainder `a % 360`, when that remainder is non-zero, and none otherwise; when `a` is 0
nothing is emitted and the state is unchanged except that the submit timer is stopped. -/
theorem C2_submit_commits_rotation (s : GlobalControl) :
    s.submitImageChangeImmediately.imageRotation = 0 ∧
    rotateRequests s.submitImageChangeImmediately.env.log =
      rotateRequests s.env.log ++
        (if Int.tmod s.imageRotation 360 ≠ 0 then
          [(s.currentImage.source.toLocalFile, Int.tmod s.imageRotation 360)]
        else []) ∧
    (s.imageRotation = 0 →
      s.submitImageChangeImmediately = { s with submitTimer := false }) :=
  ⟨submitImageChangeImmediately_imageRotation s, submitImageChangeImmediately_rotateRequests s,
    submitImageChangeImmediately_of_zero s⟩

/-- C2, amended, at inputs: a pending rotation of 450 is committed as one request carrying
90; with no rotation pending only the timer changes. -/
theorem C2_submit_commits_rotation_witness :
    rotateRequests (fiveImages.setCurrentRotation 450).submitImageChangeImmediately.env.log =
      [("/a", 90)] ∧
    fiveImages.submitImageChangeImmediately = { fiveImages with submitTimer := false } :=
  ⟨by
    have h := (C2_submit_commits_rotation (fiveImages.setCurrentRotation 450)).2.1
    rw [h]
    decide,
   (C2_submit_commits_rotation fiveImages).2.2 (by decide)⟩

end GlobalControl

namespace GlobalControl

open Examples

theorem tmod_180_ne_zero_iff (d : Int) : Int.tmod d 180 ≠ 0 ↔ ¬ (180 ∣ d) :=
  ⟨fun h hd => h (Int.tmod_eq_zero_of_dvd hd), fun h h0 => h (Int.dvd_of_tmod_eq_zero h0)⟩

/-- A value within the range of `int` is not changed by the reduction to 32 bits. -/
theorem toInt32_of_range (x : Int) (h1 : INT_MIN ≤ x) (h2 : x ≤ INT_MAX) : toInt32 x = x := by
  simp only [toInt32, INT_MIN, INT_MAX] at *
  omega

/-- The size of the current image after `ImageInfo::swapWidthAndHeight`. -/
theorem currentSize_swapWidthAndHeight (s : GlobalControl) (g : Globals)
    (hg : g.heap = s.env.heap) :
    (ImageInfo.width (ImageInfo.swapWidthAndHeight g s.currentImage) s.currentImage,
      ImageInfo.height (ImageInfo.swapWidthAndHeight g s.currentImage) s.currentImage) =
      (s.currentSize.2, s.currentSize.1) := by
  simp only [ImageInfo.width, ImageInfo.height, currentSize, ImageInfo.swapWidthAndHeight_heap]
  cases hd : s.currentImage.data with
  | none => simp
  | some p => simp [hg]

/-- The size of the current image after `setCurrentRotation`. -/
theorem currentSize_setCurrentRotation (s : GlobalControl) (angle : Int) :
    (s.setCurrentRotation angle).currentSize =
      if s.imageRotation ≠ angle ∧ angle ≠ 0 ∧
          ¬ (180 ∣ toInt32 (angle - s.imageRotation)) then
        (s.currentSize.2, s.currentSize.1)
      else s.currentSize := by
  have hsw := currentSize_swapWidthAndHeight s s.env rfl
  simp only [currentSize, ImageInfo.width, ImageInfo.height] at hsw ⊢
  simp only [setCurrentRotation_currentImage, setCurrentRotation_env_heap,
    tmod_180_ne_zero_iff]
  split_ifs with h
  · exact hsw
  · rfl

/-- C3, as stated, fails: the difference `angle - old` is computed on 32 bit `int`s. On a
loaded 30 x 20 image with rotation -180, `setCurrentRotation(2147483520)` has the difference
2147483700, a multiple of 180 that is not an `int`; it wraps around to -2147483596, which is
not a multiple of 180, and the size is swapped. -/
theorem C3_swap_on_wrapped_difference :
    (secondOfTwo.setCurrentRotation (-180)).imageRotation = -180 ∧
    (secondOfTwo.setCurrentRotation (-180)).currentSize = (30, 20) ∧
    (2147483520 : Int) ≤ INT_MAX ∧
    (180 : Int) ∣ 2147483520 - (-180) ∧
    toInt32 (2147483520 - (-180)) = -2147483596 ∧
    ((secondOfTwo.setCurrentRotation (-180)).setCurrentRotation 2147483520).currentSize =
      (20, 30) := by
  decide

/-- C3, amended: `setCurrentRotation(angle)` with previous rotation `old ≠ angle` swaps the
width and height of the current image if and only if `angle ≠ 0` and the difference
`angle - old`, reduced to a 32 bit `int`, is not a multiple of 180; when `angle - old` lies
within the range of `int` that is: if and only if `angle ≠ 0` and `angle - old` is not a
multiple of 180. The size afterwards is the swapped size in that case and the same size
otherwise; the size signal of the swap is broadcast, for a handle with data, exactly in that
case, between `changeRotationCacheBegin` and the rotation request. From rotation 0, setting
90 swaps and then setting 180 swaps back; setting 0 from a non-zero rotation does not swap.
When `angle` equals `old` the call changes nothing and emits nothing. -/
theorem C3_setCurrentRotation_swap_rule (s : GlobalControl) (angle : Int) :
    (angle ≠ s.imageRotation →
      (s.setCurrentRotation angle).currentSize =
        (if angle ≠ 0 ∧ ¬ (180 ∣ toInt32 (angle - s.imageRotation)) then
          (s.currentSize.2, s.currentSize.1)
        else s.currentSize) ∧
      (s.setCurrentRotation angle).env.log =
        s.env.log ++ [Event.changeRotationCacheBegin] ++
          (if (angle ≠ 0 ∧ ¬ (180 ∣ toInt32 (angle - s.imageRotation))) ∧
              s.currentImage.data ≠ none then
            [Event.imageSizeChanged s.currentImage.imageUrl.toLocalFile
              s.currentImage.currentIndex, Event.widthChanged, Event.heightChanged]
          else []) ++
          [Event.rotateImageFile s.currentImage.source.toLocalFile angle,
            Event.requestRotateCacheImage, Event.currentRotationChanged]) ∧
    (angle ≠ s.imageRotation → INT_MIN ≤ angle - s.imageRotation →
      angle - s.imageRotation ≤ INT_MAX →
      (s.setCurrentRotation angle).currentSize =
        (if angle ≠ 0 ∧ ¬ (180 ∣ angle - s.imageRotation) then
          (s.currentSize.2, s.currentSize.1)
        else s.currentSize) ∧
      (s.setCurrentRotation angle).env.log =
        s.env.log ++ [Event.changeRotationCacheBegin] ++
          (if (angle ≠ 0 ∧ ¬ (180 ∣ angle - s.imageRotation)) ∧
              s.currentImage.data ≠ none then
            [Event.imageSizeChanged s.currentImage.imageUrl.toLocalFile
              s.currentImage.currentIndex, Event.widthChanged, Event.heightChanged]
          else []) ++
          [Event.rotateImageFile s.currentImage.source.toLocalFile angle,
            Event.requestRotateCacheImage, Event.currentRotationChanged]) ∧
    (angle = s.imageRotation → s.setCurrentRotation angle = s) ∧
    (s.imageRotation = 0 →
      (s.setCurrentRotation 90).currentSize = (s.currentSize.2, s.currentSize.1) ∧
      ((s.setCurrentRotation 90).setCurrentRotation 180).currentSize = s.currentSize) ∧
    (s.imageRotation ≠ 0 → (s.setCurrentRotation 0).currentSize = s.currentSize) := by
  have hgen : angle ≠ s.imageRotation →
      (s.setCurrentRotation angle).currentSize =
        (if angle ≠ 0 ∧ ¬ (180 ∣ toInt32 (angle - s.imageRotation)) then
          (s.currentSize.2, s.currentSize.1)
        else s.currentSize) ∧
      (s.setCurrentRotation angle).env.log =
        s.env.log ++ [Event.changeRotationCacheBegin] ++
          (if (angle ≠ 0 ∧ ¬ (180 ∣ toInt32 (angle - s.imageRotation))) ∧
              s.currentImage.data ≠ none then
            [Event.imageSizeChanged s.currentImage.imageUrl.toLocalFile
              s.currentImage.currentIndex, Event.widthChanged, Event.heightChanged]
          else []) ++
          [Event.rotateImageFile s.currentImage.source.toLocalFile angle,
            Event.requestRotateCacheImage, Event.currentRotationChanged] := by
    intro hne
    have hne2 : s.imageRotation ≠ angle := fun h => hne h.symm
    refine ⟨?_, ?_⟩
    · rw [currentSize_setCurrentRotation]
      simp [hne2]
    · simp only [setCurrentRotation, tmod_180_ne_zero_iff]
      by_cases hc : angle ≠ 0 ∧ ¬ (180 ∣ toInt32 (angle - s.imageRotation))
      · cases hd : s.currentImage.data with
        | none =>
          simp [hne2, hc, emit, Globals.emit, ImageInfo.swapWidthAndHeight, hd]
        | some p =>
          simp [hne2, hc, emit, Globals.emit, ImageInfo.swapWidthAndHeight,
            ImageInfo.onSizeChanged, hd]
      · have hc2 : ¬ ((decide (angle ≠ 0) &&
            decide (¬ (180 ∣ toInt32 (angle - s.imageRotation)))) = true) := by
          simpa using hc
        simp [hne2, hc, hc2, emit, Globals.emit]
  refine ⟨hgen, ?_, ?_, ?_, ?_⟩
  · intro hne h1 h2
    have h := hgen hne
    rw [toInt32_of_range _ h1 h2] at h
    exact h
  · intro he
    simp [setCurrentRotation, he]
  · intro h0
    have e1 : toInt32 (90 - 0) = 90 := by decide
    have e2 : toInt32 (180 - 90) = 90 := by decide
    have e3 : ¬ ((180 : Int) ∣ 90) := by decide
    refine ⟨?_, ?_⟩
    · rw [currentSize_setCurrentRotation, h0, e1]
      simp [e3]
    · rw [currentSize_setCurrentRotation, currentSize_setCurrentRotation,
        setCurrentRotation_imageRotation, h0, e1, e2]
      simp [e3]
  · intro h0
    rw [currentSize_setCurrentRotation]
    simp

/-- C3, amended, at an input: on a loaded 30 x 20 image with rotation 0, setting 90 gives
20 x 30. -/
theorem C3_setCurrentRotation_swap_rule_witness :
    (secondOfTwo.setCurrentRotation 90).currentSize = (20, 30) ∧
    secondOfTwo.setCurrentRotation 0 = secondOfTwo :=
  ⟨by
    have h := ((C3_setCurrentRotation_swap_rule secondOfTwo 90).2.1 (by decide) (by decide)
      (by decide)).1
    rw [h]
    decide,
   (C3_setCurrentRotation_swap_rule secondOfTwo 0).2.2.1 (by decide)⟩

end GlobalControl

namespace GlobalControl

open Examples

/-- C4, as stated, fails: at (index 1, frame 0) of two images, with a loaded 3-frame image
current and no metadata cached for image 0 (its frame count is reported as 1), `previousImage`
returns true and moves to index 0 at frame 2, the last frame of the image it left. -/
theorem C4_previousImage_uses_frame_count_of_left_image :
    secondOfTwo.curIndex = 1 ∧ secondOfTwo.curFrameIndex = 0 ∧
    secondOfTwo.frameCountAt 0 = 1 ∧
    secondOfTwo.previousImage.2 = true ∧
    secondOfTwo.previousImage.1.curIndex = 0 ∧
    secondOfTwo.previousImage.1.curFrameIndex = 2 ∧
    secondOfTwo.previousImage.1.curFrameIndex ≠ secondOfTwo.frameCountAt 0 - 1 := by
  decide

theorem indexStep_currentImage_data (s : GlobalControl) (index : Int) (p : Ptr)
    (hv : s.curIndex ≠ qBound 0 index (s.imageCount - 1))
    (hne : s.currentImage.imageUrl ≠
      ImageSourceModel.data s.sourceModel (qBound 0 index (s.imageCount - 1)))
    (hpath : (ImageSourceModel.data s.sourceModel
      (qBound 0 index (s.imageCount - 1))).toLocalFile ≠ "")
    (hc : s.env.cacheInstance.find
      (ImageSourceModel.data s.sourceModel (qBound 0 index (s.imageCount - 1))).toLocalFile
      s.currentImage.currentIndex = some p) :
    (s.indexStep index).currentImage.data = some p ∧
    (s.indexStep index).currentImage.imageUrl =
      ImageSourceModel.data s.sourceModel (qBound 0 index (s.imageCount - 1)) := by
  simp only [indexStep, if_pos hv]
  simp only [emit_currentImage, submitImageChangeImmediately_sourceModel,
    submitImageChangeImmediately_currentImage, ImageInfo.setSource_imageUrl, and_true]
  exact ImageInfo.setSource_data_of_cached _ _ _ p hne hpath (by simpa using hc)

/-- C4, amended: at (index `i`, frame 0) with `1 ≤ i ≤ imageCount - 1`, the previous flag up
to date, and the metadata of image `i - 1` (another image, a local file) cached with frame
count `k`, `previousImage` returns true, makes image `i - 1` the current source and the new
state is `(i - 1, max 0 (k - 1))`: the last frame of that image. -/
theorem C4_previousImage_last_frame_when_cached (s : GlobalControl) (i : Int) (p : Ptr)
    (hi : s.curIndex = i) (hf : s.curFrameIndex = 0) (h1 : 1 ≤ i)
    (hn : i ≤ s.imageCount - 1) (hprev : s.hasPrevious = true)
    (hne : s.currentImage.imageUrl ≠ ImageSourceModel.data s.sourceModel (i - 1))
    (hpath : (ImageSourceModel.data s.sourceModel (i - 1)).toLocalFile ≠ "")
    (hc : s.env.cacheInstance.find (ImageSourceModel.data s.sourceModel (i - 1)).toLocalFile
      s.currentImage.currentIndex = some p)
    (hk : (s.env.heap p).frameCount ≤ INT_MAX) :
    s.previousImage.2 = true ∧
    s.previousImage.1.curIndex = i - 1 ∧
    s.previousImage.1.curFrameIndex = max 0 ((s.env.heap p).frameCount - 1) ∧
    s.previousImage.1.currentSource = ImageSourceModel.data s.sourceModel (i - 1) := by
  simp only [imageCount] at hn
  have hq : qBound 0 (i - 1) (ImageSourceModel.rowCount s.sourceModel - 1) = i - 1 := by
    simp only [qBound]
    omega
  have hstep : s.previousImage =
      (s.submitImageChangeImmediately.setIndexAndFrameIndex (i - 1) INT_MAX, true) := by
    simp only [previousImage, hasPreviousImage, submitImageChangeImmediately_hasPrevious,
      submitImageChangeImmediately_curFrameIndex, submitImageChangeImmediately_curIndex,
      hprev, hf, hi]
    have hpos : i > 0 := by omega
    simp [hpos]
  have hv : s.submitImageChangeImmediately.curIndex ≠
      qBound 0 (i - 1) (s.submitImageChangeImmediately.imageCount - 1) := by
    simp only [imageCount, submitImageChangeImmediately_sourceModel,
      submitImageChangeImmediately_curIndex]
    rw [hq, hi]
    omega
  have hd := indexStep_currentImage_data s.submitImageChangeImmediately (i - 1) p hv
    (by
      simp only [imageCount, submitImageChangeImmediately_sourceModel,
        submitImageChangeImmediately_currentImage]
      rw [hq]
      exact hne)
    (by
      simp only [imageCount, submitImageChangeImmediately_sourceModel]
      rw [hq]
      exact hpath)
    (by
      simp only [imageCount, submitImageChangeImmediately_sourceModel,
        submitImageChangeImmediately_env_cacheInstance,
        submitImageChangeImmediately_currentImage]
      rw [hq]
      exact hc)
  simp only [imageCount, submitImageChangeImmediately_sourceModel] at hd hv
  rw [hq] at hd hv
  rw [hstep]
  refine ⟨rfl, ?_, ?_, ?_⟩
  · show (s.submitImageChangeImmediately.setIndexAndFrameIndex (i - 1) INT_MAX).curIndex = i - 1
    rw [setIndexAndFrameIndex_curIndex]
    simp only [imageCount, submitImageChangeImmediately_sourceModel]
    rw [hq, if_pos hv]
  · show (s.submitImageChangeImmediately.setIndexAndFrameIndex (i - 1) INT_MAX).curFrameIndex
      = max 0 ((s.env.heap p).frameCount - 1)
    rw [setIndexAndFrameIndex_eq]
    simp only [emit_curFrameIndex, checkSwitchEnable_curFrameIndex, frameStep_curFrameIndex]
    have hfc : ImageInfo.frameCount (s.submitImageChangeImmediately.indexStep (i - 1)).env
        (s.submitImageChangeImmediately.indexStep (i - 1)).currentImage =
        (s.env.heap p).frameCount := by
      simp [ImageInfo.frameCount, hd.1]
    rw [hfc]
    simp only [qBound]
    omega
  · show (s.submitImageChangeImmediately.setIndexAndFrameIndex (i - 1) INT_MAX).currentSource
      = ImageSourceModel.data s.sourceModel (i - 1)
    rw [setIndexAndFrameIndex_eq]
    simp only [currentSource, ImageInfo.source, emit_currentImage,
      checkSwitchEnable_currentImage, frameStep_currentImage]
    rw [hd.2]

/-- C4, amended, at the input of the claim: from (1, 0) with image 0 cached with 4 frames,
`previousImage` yields (0, 3). -/
theorem C4_previousImage_last_frame_when_cached_witness :
    secondOfTwoCached.previousImage.2 = true ∧
    secondOfTwoCached.previousImage.1.curIndex = 0 ∧
    secondOfTwoCached.previousImage.1.curFrameIndex = 3 ∧
    secondOfTwoCached.previousImage.1.currentSource = fileUrl "/a" :=
  C4_previousImage_last_frame_when_cached secondOfTwoCached 1 1 (by decide) (by decide)
    (by decide) (by decide) (by decide) (by decide) (by decide) (by decide) (by decide)

end GlobalControl

namespace GlobalControl

open Examples

theorem setIndexAndFrameIndex_frameCount (s : GlobalControl) (index frameIndex : Int) :
    ImageInfo.frameCount (s.setIndexAndFrameIndex index frameIndex).env
        (s.setIndexAndFrameIndex index frameIndex).currentImage =
      ImageInfo.frameCount (s.indexStep index).env (s.indexStep index).currentImage := by
  rw [setIndexAndFrameIndex_eq]
  exact ImageInfo.frameCount_congr _ _ _ _ (by simp) (by simp)

end GlobalControl

/-! ## ImageInfoCache: the in-flight set -/

namespace ImageInfoCache

theorem exec_append (c : ImageInfoCache) (ops : List Op) (op : Op) :
    exec c (ops ++ [op]) = step (exec c ops) op := by
  simp [exec, List.foldl_append]

/-- While the cache is shutting down its in-flight set is empty. -/
theorem waitSet_of_aboutToQuit (ops : List Op) :
    (exec init ops).aboutToQuit = true → (exec init ops).waitSet = ∅ := by
  induction ops using List.reverseRecOn with
  | nil => intro h; simp [exec, init] at h
  | append_singleton ops op ih =>
    rw [exec_append]
    generalize exec init ops = c at ih
    cases op with
    | load mt path frameIndex reload =>
      intro h
      by_cases hq : c.aboutToQuit = true
      · simpa [step, load, hq] using ih hq
      · have hq2 : c.aboutToQuit = false := by simpa using hq
        simp only [step, load, hq2] at h
        split_ifs at h <;> simp_all
    | workerStart key =>
      simp only [step, workerStart]
      split_ifs <;> simpa using ih
    | deliver key data =>
      simp only [step, deliver, loadFinished]
      split_ifs <;> first | simpa using ih | (intro h; simp_all)
    | removeCache path frameIndex => simpa [step, removeCache] using ih
    | clearCache => simp [step, clearCache]
    | aboutToQuit => simp [step, onAboutToQuit, clearCache]

end ImageInfoCache

namespace ImageInfoCache

/-- C6: `ImageInfoCache::load(path, frame, reload)` marks the key in flight and starts one
decode (one more outstanding decode for the key: run at once when multi-threading is off,
queued in the pool otherwise) if and only if the cache is not shutting down, the key is not
in the in-flight set and (reload is set or no metadata is cached for the key); in every other
case the call changes nothing. After a call that started a decode, a second call for the same
key, whatever its flags, changes nothing: the two calls start exactly one decode. -/
theorem C6_load_starts_decode_iff (c : ImageInfoCache) (mt : Bool) (path : String)
    (frameIndex : Int) (reload : Bool) :
    ((toFindKey path frameIndex ∈ (c.load mt path frameIndex reload).waitSet ∧
        (c.load mt path frameIndex reload).outstanding (toFindKey path frameIndex) =
          c.outstanding (toFindKey path frameIndex) + 1) ↔
      (c.aboutToQuit = false ∧ toFindKey path frameIndex ∉ c.waitSet ∧
        (reload = true ∨ c.cache (toFindKey path frameIndex) = none))) ∧
    ((c.aboutToQuit = false ∧ toFindKey path frameIndex ∉ c.waitSet ∧
        (reload = true ∨ c.cache (toFindKey path frameIndex) = none)) →
      (c.load mt path frameIndex reload).waitSet = insert (toFindKey path frameIndex) c.waitSet ∧
      (c.load mt path frameIndex reload).cache = c.cache ∧
      (c.load mt path frameIndex reload).aboutToQuit = c.aboutToQuit ∧
      (c.load mt path frameIndex reload).started =
        (if mt then c.started else c.started ++ [toFindKey path frameIndex]) ∧
      (c.load mt path frameIndex reload).queued =
        (if mt then c.queued ++ [toFindKey path frameIndex] else c.queued) ∧
      ∀ (mt2 reload2 : Bool),
        (c.load mt path frameIndex reload).load mt2 path frameIndex reload2 =
          c.load mt path frameIndex reload) ∧
    (¬ (c.aboutToQuit = false ∧ toFindKey path frameIndex ∉ c.waitSet ∧
        (reload = true ∨ c.cache (toFindKey path frameIndex) = none)) →
      c.load mt path frameIndex reload = c) := by
  by_cases hq : c.aboutToQuit = true
  · simp [load, hq]
  have hq2 : c.aboutToQuit = false := by simpa using hq
  by_cases hw : toFindKey path frameIndex ∈ c.waitSet
  · simp [load, hq2, hw]
  by_cases hc : reload = true ∨ c.cache (toFindKey path frameIndex) = none
  · have h3 : ¬ ((!reload && (c.cache (toFindKey path frameIndex)).isSome) = true) := by
      rcases hc with h | h <;> simp [h]
    cases mt <;>
      simp [load, hq2, hw, hc, h3, outstanding, List.count_append] <;> omega
  · have h3 : (!reload && (c.cache (toFindKey path frameIndex)).isSome) = true := by
      push_neg at hc
      obtain ⟨h1, h2⟩ := hc
      have h1b : reload = false := by simpa using h1
      simp [h1b, Option.isSome_iff_ne_none, h2]
    simp [load, hq2, hw, hc, h3]

/-- C6, at an input: a first `load` of `("/a", 0)` on the fresh cache starts one decode and a
second one changes nothing. -/
theorem C6_load_starts_decode_iff_witness :
    (init.load false "/a" 0 false).outstanding ("/a", 0) = 1 ∧
    ((init.load false "/a" 0 false).load false "/a" 0 true).outstanding ("/a", 0) = 1 ∧
    ((init.load false "/a" 0 false).load false "/a" 0 true) = init.load false "/a" 0 false :=
  have h := C6_load_starts_decode_iff init false "/a" 0 false
  have hgo : init.aboutToQuit = false ∧ toFindKey "/a" 0 ∉ init.waitSet ∧
      (false = true ∨ init.cache (toFindKey "/a" 0) = none) := by
    simp [init]
  have h1 : (init.load false "/a" 0 false).outstanding ("/a", 0) = 1 := by
    have := (h.1.2 hgo).2
    simpa [toFindKey, outstanding, init] using this
  have h2 := (h.2.1 hgo).2.2.2.2.2 false true
  ⟨h1, by rw [h2]; exact h1, h2⟩

end ImageInfoCache

namespace ImageInfoCache

/-- C7: `ImageInfoCache::loadFinished(path, frame, data)` in a state the cache reaches: when
the key is not in the in-flight set at delivery (for example after `clearCache`) the result
is discarded and the metadata cache is unchanged; when the key is in the in-flight set, the
record is stored under the key (a following `find` returns it, other keys keep their entry)
and the key is removed from the in-flight set. -/
theorem C7_loadFinished_stores_iff_in_flight (ops : List Op) (path : String)
    (frameIndex : Int) (data : Ptr) :
    (toFindKey path frameIndex ∉ (exec init ops).waitSet →
      ((exec init ops).loadFinished path frameIndex (some data)).1.cache =
        (exec init ops).cache) ∧
    (toFindKey path frameIndex ∈ (exec init ops).waitSet →
      ((exec init ops).loadFinished path frameIndex (some data)).1.find path frameIndex =
        some data ∧
      toFindKey path frameIndex ∉
        ((exec init ops).loadFinished path frameIndex (some data)).1.waitSet ∧
      ∀ k, k ≠ toFindKey path frameIndex →
        ((exec init ops).loadFinished path frameIndex (some data)).1.cache k =
          (exec init ops).cache k) := by
  have hinv := waitSet_of_aboutToQuit ops
  generalize exec init ops = c at hinv
  constructor
  · intro hk
    simp only [loadFinished]
    split_ifs <;> simp_all
  · intro hk
    have hq : c.aboutToQuit = false := by
      by_contra hne
      have : c.aboutToQuit = true := by simpa using hne
      rw [hinv this] at hk
      simp at hk
    refine ⟨?_, ?_, ?_⟩
    · simp [loadFinished, hq, hk, find]
    · simp [loadFinished, hq, hk]
    · intro k hne
      simp [loadFinished, hq, hk, Function.update_noteq hne]

/-- C7, at inputs: a delivery for `("/a", 0)` after its `load` is stored and found; after a
`clearCache` in between it is discarded. -/
theorem C7_loadFinished_stores_iff_in_flight_witness :
    ((exec init [Op.load false "/a" 0 false]).loadFinished "/a" 0 (some 7)).1.find "/a" 0 =
      some 7 ∧
    ((exec init [Op.load false "/a" 0 false, Op.clearCache]).loadFinished "/a" 0
        (some 7)).1.cache =
      (exec init [Op.load false "/a" 0 false, Op.clearCache]).cache :=
  ⟨((C7_loadFinished_stores_iff_in_flight [Op.load false "/a" 0 false] "/a" 0 7).2
      (by decide)).1,
   (C7_loadFinished_stores_iff_in_flight [Op.load false "/a" 0 false, Op.clearCache]
      "/a" 0 7).1 (by decide)⟩

end ImageInfoCache

namespace ImageInfoCache

theorem atMostOne_init : AtMostOne init := by
  intro k
  simp [outstanding, init]

theorem atMostOne_step (c : ImageInfoCache) (op : Op) (hc : AtMostOne c)
    (hg : (op = Op.clearCache ∨ op = Op.aboutToQuit) → c.started = []) :
    AtMostOne (step c op) := by
  cases op with
  | load mt path frameIndex reload =>
    intro k
    obtain ⟨hk1, hk2⟩ := hc k
    obtain ⟨hn1, hn2⟩ := hc (toFindKey path frameIndex)
    simp only [step, load]
    split_ifs with h1 h2 h3 h4
    · exact ⟨hk1, hk2⟩
    · exact ⟨hk1, hk2⟩
    · exact ⟨hk1, hk2⟩
    · have hq : c.aboutToQuit = false := by simpa using h1
      have h0 : c.outstanding (toFindKey path frameIndex) = 0 := by
        by_contra hne
        exact h2 (hn2 hq (by omega))
      by_cases hkk : k = toFindKey path frameIndex
      · subst hkk
        simp only [outstanding] at h0 ⊢
        simp [List.count_append]
        omega
      · have hkk2 : ¬ (toFindKey path frameIndex = k) := fun h => hkk h.symm
        simp only [outstanding] at hk1 hk2 ⊢
        simp [List.count_append, List.count_singleton, hkk, hkk2]
        exact ⟨hk1, hk2⟩
    · have hq : c.aboutToQuit = false := by simpa using h1
      have h0 : c.outstanding (toFindKey path frameIndex) = 0 := by
        by_contra hne
        exact h2 (hn2 hq (by omega))
      by_cases hkk : k = toFindKey path frameIndex
      · subst hkk
        simp only [outstanding] at h0 ⊢
        simp [List.count_append]
        omega
      · have hkk2 : ¬ (toFindKey path frameIndex = k) := fun h => hkk h.symm
        simp only [outstanding] at hk1 hk2 ⊢
        simp [List.count_append, List.count_singleton, hkk, hkk2]
        exact ⟨hk1, hk2⟩
  | workerStart key =>
    intro k
    obtain ⟨hk1, hk2⟩ := hc k
    simp only [step, workerStart]
    split_ifs with h1
    · have hpos : 0 < c.queued.count key := List.count_pos_iff.mpr h1
      by_cases hkk : k = key
      · subst hkk
        simp only [outstanding] at hk1 hk2 ⊢
        simp only [List.count_erase_self, List.count_append, List.count_singleton_self]
        have e : c.queued.count k - 1 + (c.started.count k + 1) =
            c.queued.count k + c.started.count k := by omega
        rw [e]
        exact ⟨hk1, hk2⟩
      · have hkk2 : ¬ (key = k) := fun h => hkk h.symm
        simp only [outstanding] at hk1 hk2 ⊢
        simp [List.count_erase_of_ne hkk, List.count_append, List.count_singleton, hkk2]
        exact ⟨hk1, hk2⟩
    · exact ⟨hk1, hk2⟩
  | deliver key data =>
    intro k
    obtain ⟨hk1, hk2⟩ := hc k
    obtain ⟨kp, kf⟩ := key
    simp only [step]
    split_ifs with h1
    · have hpos : 0 < c.started.count (kp, kf) := List.count_pos_iff.mpr h1
      by_cases hkk : k = (kp, kf)
      · subst hkk
        simp only [outstanding] at hk1 hk2
        have hle : c.queued.count (kp, kf) + (c.started.count (kp, kf) - 1) = 0 := by omega
        simp only [deliver, loadFinished, toFindKey]
        split_ifs <;> simp [outstanding, List.count_erase_self] <;> omega
      · simp only [outstanding] at hk1 hk2
        simp only [deliver, loadFinished, toFindKey]
        split_ifs <;>
          simp_all [outstanding, List.count_erase_of_ne hkk, Finset.mem_erase]
    · exact ⟨hk1, hk2⟩
  | removeCache path frameIndex =>
    intro k
    simpa [step, removeCache, outstanding] using hc k
  | clearCache =>
    intro k
    have hs := hg (Or.inl rfl)
    simp [step, clearCache, outstanding, hs]
  | aboutToQuit =>
    intro k
    have hs := hg (Or.inr rfl)
    simp [step, onAboutToQuit, clearCache, outstanding, hs]

theorem atMostOne_exec (ops : List Op) :
    ∀ c : ImageInfoCache, AtMostOne c → clearsWhenIdle c ops → AtMostOne (exec c ops) := by
  induction ops with
  | nil => intro c hc _; simpa [exec] using hc
  | cons op ops ih =>
    intro c hc hq
    have h := ih (step c op) (atMostOne_step c op hc hq.1) hq.2
    simpa [exec] using h

end ImageInfoCache

namespace ImageInfoCache

/-- C8, as stated, fails: after `load`, `clearCache`, `load` for one key with
multi-threading off, two decodes of that key have started and none has been delivered; the
same holds with multi-threading on once a worker has taken the first decode. -/
theorem C8_two_outstanding_after_clearCache :
    (exec init [Op.load false "/a" 0 false, Op.clearCache,
      Op.load false "/a" 0 false]).outstanding ("/a", 0) = 2 ∧
    (exec init [Op.load true "/a" 0 false, Op.workerStart ("/a", 0), Op.clearCache,
      Op.load true "/a" 0 false]).outstanding ("/a", 0) = 2 := by
  decide

/-- C8, amended: in every state of the metadata cache reached through `load`, a worker
taking a queued decode, delivery of a started decode, `removeCache`, and `clearCache` issued
only while no started decode awaits delivery, every key has at most one decode that was
started and not yet delivered. -/
theorem C8_at_most_one_outstanding (ops : List Op) (h : clearsWhenIdle init ops) (k : Key) :
    (exec init ops).outstanding k ≤ 1 :=
  (atMostOne_exec ops init atMostOne_init h k).1

/-- C8, amended, at an input: two loads, the delivery, a `clearCache` and a further load of
`("/a", 0)` leave one outstanding decode. -/
theorem C8_at_most_one_outstanding_witness :
    clearsWhenIdle init [Op.load false "/a" 0 false, Op.load false "/a" 0 true,
      Op.deliver ("/a", 0) 7, Op.clearCache, Op.load false "/a" 0 false] ∧
    (exec init [Op.load false "/a" 0 false, Op.load false "/a" 0 true,
      Op.deliver ("/a", 0) 7, Op.clearCache, Op.load false "/a" 0 false]).outstanding
        ("/a", 0) ≤ 1 :=
  have h : clearsWhenIdle init [Op.load false "/a" 0 false, Op.load false "/a" 0 true,
      Op.deliver ("/a", 0) 7, Op.clearCache, Op.load false "/a" 0 false] := by
    simp only [clearsWhenIdle]
    decide
  ⟨h, C8_at_most_one_outstanding _ h _⟩

end ImageInfoCache

/-! ## GlobalControl: rotation commit on navigation and removal -/

namespace GlobalControl

open Examples

/-- A navigation step taken right after a submit: rotation 0 and no further request. -/
theorem setIndexAndFrameIndex_after_submit (s : GlobalControl) (index frameIndex : Int) :
    (s.submitImageChangeImmediately.setIndexAndFrameIndex index frameIndex).imageRotation = 0 ∧
    rotateRequests (s.submitImageChangeImmediately.setIndexAndFrameIndex index
        frameIndex).env.log =
      rotateRequests s.env.log ++
        (if Int.tmod s.imageRotation 360 ≠ 0 then
          [(s.currentImage.source.toLocalFile, Int.tmod s.imageRotation 360)]
        else []) := by
  have h0 := submitImageChangeImmediately_imageRotation s
  exact ⟨setIndexAndFrameIndex_imageRotation _ _ _ h0,
    by rw [setIndexAndFrameIndex_rotateRequests _ _ _ h0,
      submitImageChangeImmediately_rotateRequests]⟩

/-- C9: each of `previousImage()`, `nextImage()`, `firstImage()` and `lastImage()`, called
with any pending rotation `a`, commits it before navigating: after the call the rotation is 0
and the log has gained exactly one `requestRotateImage`, for the image that was current
before the call and carrying the C++ remainder `a % 360`, when that remainder is non-zero,
and none otherwise; this holds whatever the call returns. -/
theorem C9_navigation_commits_rotation (s : GlobalControl) :
    (s.previousImage.1.imageRotation = 0 ∧
      rotateRequests s.previousImage.1.env.log =
        rotateRequests s.env.log ++
          (if Int.tmod s.imageRotation 360 ≠ 0 then
            [(s.currentImage.source.toLocalFile, Int.tmod s.imageRotation 360)]
          else [])) ∧
    (s.nextImage.1.imageRotation = 0 ∧
      rotateRequests s.nextImage.1.env.log =
        rotateRequests s.env.log ++
          (if Int.tmod s.imageRotation 360 ≠ 0 then
            [(s.currentImage.source.toLocalFile, Int.tmod s.imageRotation 360)]
          else [])) ∧
    (s.firstImage.1.imageRotation = 0 ∧
      rotateRequests s.firstImage.1.env.log =
        rotateRequests s.env.log ++
          (if Int.tmod s.imageRotation 360 ≠ 0 then
            [(s.currentImage.source.toLocalFile, Int.tmod s.imageRotation 360)]
          else [])) ∧
    (s.lastImage.1.imageRotation = 0 ∧
      rotateRequests s.lastImage.1.env.log =
        rotateRequests s.env.log ++
          (if Int.tmod s.imageRotation 360 ≠ 0 then
            [(s.currentImage.source.toLocalFile, Int.tmod s.imageRotation 360)]
          else [])) := by
  have hsub : s.submitImageChangeImmediately.imageRotation = 0 ∧
      rotateRequests s.submitImageChangeImmediately.env.log =
        rotateRequests s.env.log ++
          (if Int.tmod s.imageRotation 360 ≠ 0 then
            [(s.currentImage.source.toLocalFile, Int.tmod s.imageRotation 360)]
          else []) :=
    ⟨submitImageChangeImmediately_imageRotation s, submitImageChangeImmediately_rotateRequests s⟩
  have hnav := setIndexAndFrameIndex_after_submit s
  generalize (if Int.tmod s.imageRotation 360 ≠ 0 then
      [(s.currentImage.source.toLocalFile, Int.tmod s.imageRotation 360)]
    else []) = req at hsub hnav ⊢
  refine ⟨?_, ?_, ?_, ?_⟩
  · simp only [previousImage]
    split_ifs
    · exact hnav _ _
    · exact hnav _ _
    · exact hsub
    · exact hsub
  · simp only [nextImage]
    split_ifs
    · exact hnav _ _
    · exact hnav _ _
    · exact hsub
    · exact hsub
  · simp only [firstImage]
    split_ifs
    · exact hnav _ _
    · exact hsub
  · simp only [lastImage]
    split_ifs
    · exact hnav _ _
    · exact hnav _ _
    · exact hsub

end GlobalControl

namespace GlobalControl

open Examples

theorem indexStep_submitTimer (s : GlobalControl) (index : Int) (h : s.imageRotation = 0)
    (ht : s.submitTimer = false) : (s.indexStep index).submitTimer = false := by
  simp only [indexStep]
  split_ifs <;> simp [submitImageChangeImmediately_of_zero s h, ht]

theorem frameStep_submitTimer (s : GlobalControl) (frameIndex : Int) (h : s.imageRotation = 0)
    (ht : s.submitTimer = false) : (s.frameStep frameIndex).submitTimer = false := by
  simp only [frameStep]
  split_ifs <;> simp [submitImageChangeImmediately_of_zero s h, ht]

theorem setIndexAndFrameIndex_submitTimer (s : GlobalControl) (index frameIndex : Int)
    (h : s.imageRotation = 0) (ht : s.submitTimer = false) :
    (s.setIndexAndFrameIndex index frameIndex).submitTimer = false := by
  rw [setIndexAndFrameIndex_eq]
  simp [frameStep_submitTimer _ _ (indexStep_imageRotation s index h)
    (indexStep_submitTimer s index h ht)]

theorem settled_emit (R : List (String × Int)) (b : Bool) (t : GlobalControl)
    (es : List Event) (he : rotateRequests es = []) (h : Settled R b t) :
    Settled R b (t.emit es) := by
  obtain ⟨h1, h2, h3⟩ := h
  exact ⟨h1, by simp [h2, he], h3⟩

theorem settled_checkSwitchEnable (R : List (String × Int)) (b : Bool) (t : GlobalControl)
    (h : Settled R b t) : Settled R b t.checkSwitchEnable := by
  obtain ⟨h1, h2, h3⟩ := h
  exact ⟨by simp [h1], by simp [h2], by simpa using h3⟩

theorem settled_setIndexAndFrameIndex (R : List (String × Int)) (b : Bool) (t : GlobalControl)
    (index frameIndex : Int) (h : Settled R b t) :
    Settled R b (t.setIndexAndFrameIndex index frameIndex) := by
  obtain ⟨h1, h2, h3⟩ := h
  exact ⟨setIndexAndFrameIndex_imageRotation t _ _ h1,
    by rw [setIndexAndFrameIndex_rotateRequests t _ _ h1, h2],
    fun hb => setIndexAndFrameIndex_submitTimer t _ _ h1 (h3 hb)⟩

theorem settled_setSource (R : List (String × Int)) (b : Bool) (t : GlobalControl)
    (u : QUrl) (h : Settled R b t) :
    Settled R b { t with env := (ImageInfo.setSource t.env t.currentImage u).1,
                         currentImage := (ImageInfo.setSource t.env t.currentImage u).2 } := by
  obtain ⟨h1, h2, h3⟩ := h
  exact ⟨h1, by simp [h2], h3⟩

theorem settled_sourceModel (R : List (String × Int)) (b : Bool) (t : GlobalControl)
    (m : List QUrl) (h : Settled R b t) : Settled R b { t with sourceModel := m } := h

/-- After the reset of the rotation at its start, `removeImage` keeps the rotation at 0,
emits no rewrite-to-disk request and leaves a stopped timer stopped. -/
theorem settled_removeImage (b : Bool) (s : GlobalControl) (url : QUrl)
    (hb : b = true → s.imageRotation ≠ 0) :
    Settled (rotateRequests s.env.log) b (s.removeImage url) := by
  have h1 : Settled (rotateRequests s.env.log) b
      (if s.currentRotation ≠ 0 then { setCurrentRotation s 0 with submitTimer := false }
        else s) := by
    simp only [currentRotation]
    split_ifs with h0
    · exact ⟨by simp, by simp, fun _ => rfl⟩
    · exact ⟨by simpa using h0, rfl, fun hb1 => absurd (hb hb1) h0⟩
  unfold removeImage
  lift_lets
  intro src s1 atEnd s2 s3
  have h3 : Settled (rotateRequests s.env.log) b s3 := by
    simp only [s3]
    split_ifs
    · exact settled_emit _ _ _ _ (by simp) (settled_sourceModel _ _ _ _ h1)
    · exact settled_sourceModel _ _ _ _ h1
  clear_value s3
  intro image r a image2 r2 a2 s4
  apply settled_emit _ _ _ _ (by simp)
  apply settled_checkSwitchEnable
  simp only [s4]
  split_ifs
  · exact settled_emit _ _ _ _ (by simp)
      (settled_setIndexAndFrameIndex _ _ _ _ _ (settled_setSource _ _ _ _ h3))
  · exact settled_emit _ _ _ _ (by simp)
      (settled_setIndexAndFrameIndex _ _ _ _ _ (settled_setSource _ _ _ _ h3))
  · exact h3

/-- C10, as stated, fails: with a rotation of 90 pending on the current image,
`removeImage` of that image emits no `requestRotateImage` at all; the rotation is reset to 0
without being written to disk. -/
theorem C10_removeImage_emits_no_rotate_request :
    (fiveImages.setCurrentRotation 90).imageRotation = 90 ∧
    rotateRequests (fiveImages.setCurrentRotation 90).env.log = [] ∧
    rotateRequests ((fiveImages.setCurrentRotation 90).removeImage (fileUrl "/a")).env.log
      = [] ∧
    ((fiveImages.setCurrentRotation 90).removeImage (fileUrl "/a")).imageRotation = 0 := by
  decide

/-- C10, amended: `removeImage(url)`, called while a rotation `a ≠ 0` is pending, discards
that rotation instead of committing it: the rotation is 0 afterwards, the submit timer is
stopped and no rewrite-to-disk request (`requestRotateImage`) is emitted. -/
theorem C10_removeImage_discards_pending_rotation (s : GlobalControl) (url : QUrl)
    (h : s.imageRotation ≠ 0) :
    (s.removeImage url).imageRotation = 0 ∧
    rotateRequests (s.removeImage url).env.log = rotateRequests s.env.log ∧
    (s.removeImage url).submitTimer = false :=
  have hs := settled_removeImage true s url (fun _ => h)
  ⟨hs.1, hs.2.1, hs.2.2 rfl⟩

/-- C10, amended, at an input: removing the second image while 90 is pending on the first. -/
theorem C10_removeImage_discards_pending_rotation_witness :
    ((fiveImages.setCurrentRotation 90).removeImage (fileUrl "/b")).imageRotation = 0 ∧
    rotateRequests ((fiveImages.setCurrentRotation 90).removeImage (fileUrl "/b")).env.log =
      rotateRequests (fiveImages.setCurrentRotation 90).env.log ∧
    ((fiveImages.setCurrentRotation 90).removeImage (fileUrl "/b")).submitTimer = false :=
  C10_removeImage_discards_pending_rotation (fiveImages.setCurrentRotation 90) (fileUrl "/b")
    (by decide)

end GlobalControl

/-! ## ImageFileWatcher: change notifications -/

namespace ImageFileWatcher

@[simp] theorem fileChangedEvents_append (l1 l2 : List Event) :
    fileChangedEvents (l1 ++ l2) = fileChangedEvents l1 ++ fileChangedEvents l2 := by
  simp [fileChangedEvents, List.filterMap_append]

@[simp] theorem fileChangedEvents_nil : fileChangedEvents [] = [] := rfl

@[simp] theorem fileChangedEvents_cons (e : Event) (l : List Event) :
    fileChangedEvents (e :: l) =
      (match e with
        | Event.imageFileChanged path => [path]
        | _ => []) ++ fileChangedEvents l := by
  cases e <;> simp [fileChangedEvents, List.filterMap_cons]

end ImageFileWatcher

namespace ImageInfo

open ImageFileWatcher (fileChangedEvents)

@[simp] theorem setStatus_fileChangedEvents (g : Globals) (h : ImageInfo) (st : Status) :
    fileChangedEvents (setStatus g h st).1.log = fileChangedEvents g.log := by
  unfold setStatus
  split_ifs <;> simp [Globals.emit]

@[simp] theorem updateData_fileChangedEvents (g : Globals) (h : ImageInfo) (o n : Ptr) :
    fileChangedEvents (updateData g h o n).1.1.log = fileChangedEvents g.log := by
  unfold updateData
  split_ifs
  · simp
  · simp only [Globals.emit, ImageFileWatcher.fileChangedEvents_append]
    (repeat' split_ifs) <;> simp

@[simp] theorem refreshDataFromCache_fileChangedEvents (g : Globals) (h : ImageInfo)
    (r : Bool) :
    fileChangedEvents (refreshDataFromCache g h r).1.log = fileChangedEvents g.log := by
  unfold refreshDataFromCache
  by_cases h0 : h.imageUrl.toLocalFile = ""
  · simp [h0]
  · cases hf : g.cacheInstance.find h.imageUrl.toLocalFile h.currentIndex with
    | none => cases r <;> simp [h0]
    | some p =>
      cases hd : h.data with
      | none => simp [h0, Globals.emit]
      | some o =>
        by_cases hu : (updateData g h o p).2 = true <;> simp [h0, hu, Globals.emit]

@[simp] theorem setSource_fileChangedEvents (g : Globals) (h : ImageInfo) (u : QUrl) :
    fileChangedEvents (setSource g h u).1.log = fileChangedEvents g.log := by
  unfold setSource
  split_ifs <;> simp [Globals.emit]

@[simp] theorem reloadData_fileChangedEvents (g : Globals) (h : ImageInfo) :
    fileChangedEvents (reloadData g h).1.log = fileChangedEvents g.log := by
  simp [reloadData]

@[simp] theorem onLoadFinished_fileChangedEvents (g : Globals) (h : ImageInfo)
    (path : String) (frameIndex : Int) :
    fileChangedEvents (onLoadFinished g h path frameIndex).1.log = fileChangedEvents g.log := by
  unfold onLoadFinished
  split_ifs <;> simp

theorem clearCurrentCache_fold_fileChangedEvents (path : String) (l : List Nat) :
    ∀ r : Globals × ImageInfo,
      fileChangedEvents (l.foldl
        (fun (r : Globals × ImageInfo) (i : Nat) =>
          let rc := r.1.cacheInstance.removeCache path i
          let g1 := ({ r.1 with cacheInstance := rc.1 }).emit rc.2
          onLoadFinished g1 r.2 path i) r).1.log = fileChangedEvents r.1.log := by
  induction l with
  | nil => intro r; rfl
  | cons i l ih =>
    intro r
    rw [List.foldl_cons, ih]
    simp [ImageInfoCache.removeCache, Globals.emit]

@[simp] theorem clearCurrentCache_fileChangedEvents (g : Globals) (h : ImageInfo) :
    fileChangedEvents (clearCurrentCache g h).1.log = fileChangedEvents g.log := by
  unfold clearCurrentCache
  cases h.data with
  | none => rfl
  | some p => exact clearCurrentCache_fold_fileChangedEvents _ _ (g, h)

end ImageInfo

namespace ImageFileWatcher

open Examples

@[simp] theorem reloadInfo_fileChangedEvents (g : Globals) (url : QUrl) :
    fileChangedEvents (reloadInfo g url).log = fileChangedEvents g.log := by
  simp [reloadInfo]

/-- What the handler leaves alone: the watched paths, the record from path to URL and the
paths being rotated. -/
theorem onImageFileChanged_frame (fs : FileSystem) (w : ImageFileWatcher) (file : String) :
    (onImageFileChanged fs w file).files = w.files ∧
    (onImageFileChanged fs w file).directories = w.directories ∧
    (onImageFileChanged fs w file).cacheFileInfo = w.cacheFileInfo ∧
    (onImageFileChanged fs w file).rotateImagePathSet = w.rotateImagePathSet := by
  unfold onImageFileChanged
  by_cases hr : file ∈ w.rotateImagePathSet
  · simp [hr]
  · cases hc : w.cacheFileInfo file with
    | none => simp [hr]
    | some url => by_cases he : fs.fileExists file = false <;> simp [hr, he]

/-- The removed set after the handler. -/
theorem onImageFileChanged_removedFile (fs : FileSystem) (w : ImageFileWatcher)
    (file : String) :
    (onImageFileChanged fs w file).removedFile =
      match w.cacheFileInfo file with
      | some url =>
        if file ∉ w.rotateImagePathSet ∧ fs.fileExists file = false then
          hashInsert w.removedFile file url
        else w.removedFile
      | none => w.removedFile := by
  unfold onImageFileChanged
  by_cases hr : file ∈ w.rotateImagePathSet
  · cases hc : w.cacheFileInfo file <;> simp [hr]
  · cases hc : w.cacheFileInfo file with
    | none => simp [hr]
    | some url => by_cases he : fs.fileExists file = false <;> simp [hr, he]

/-- The `imageFileChanged` signals after the handler. -/
theorem onImageFileChanged_events (fs : FileSystem) (w : ImageFileWatcher) (file : String) :
    fileChangedEvents (onImageFileChanged fs w file).env.log =
      fileChangedEvents w.env.log ++
        (if file ∉ w.rotateImagePathSet ∧ (w.cacheFileInfo file).isSome then [file] else []) := by
  unfold onImageFileChanged
  by_cases hr : file ∈ w.rotateImagePathSet
  · simp [hr]
  · cases hc : w.cacheFileInfo file with
    | none => simp [hr]
    | some url =>
      by_cases he : fs.fileExists file = false <;> simp [hr, he, Globals.emit]

/-- C11: for a watched path `p` (one with a record from path to URL): after
`recordRotateImage(p)` a file-changed notification for `p` emits no `imageFileChanged` and
changes nothing at all; after a following `clearRotateStatus(p)` the same notification emits
exactly one `imageFileChanged(p)`. -/
theorem C11_self_write_suppressed (fs : FileSystem) (w : ImageFileWatcher) (p : String)
    (url : QUrl) (hw : w.cacheFileInfo p = some url) :
    onImageFileChanged fs (recordRotateImage w p) p = recordRotateImage w p ∧
    fileChangedEvents
        (onImageFileChanged fs (clearRotateStatus (recordRotateImage w p) p) p).env.log =
      fileChangedEvents w.env.log ++ [p] := by
  refine ⟨?_, ?_⟩
  · simp [onImageFileChanged, recordRotateImage]
  · rw [onImageFileChanged_events]
    simp [clearRotateStatus, recordRotateImage, hw]

/-- C11, at an input: the watcher of `/d` and its file `a.png`. -/
theorem C11_self_write_suppressed_witness :
    onImageFileChanged oneFile (recordRotateImage watchingD "/d/a.png") "/d/a.png" =
      recordRotateImage watchingD "/d/a.png" ∧
    fileChangedEvents
        (onImageFileChanged oneFile
          (clearRotateStatus (recordRotateImage watchingD "/d/a.png") "/d/a.png")
          "/d/a.png").env.log =
      fileChangedEvents watchingD.env.log ++ ["/d/a.png"] :=
  have h := C11_self_write_suppressed oneFile watchingD "/d/a.png" (fileUrl "/d/a.png")
    (by decide)
  ⟨h.1, h.2⟩

end ImageFileWatcher

namespace ImageFileWatcher

open Examples

theorem onImageDirChanged_eq (fs : FileSystem) (w : ImageFileWatcher) (dir : String) :
    onImageDirChanged fs w dir = w.removedFile.foldl (dirStep fs dir) w := rfl

theorem addPath_frame (fs : FileSystem) (w : ImageFileWatcher) (path : String) :
    (addPath fs w path).cacheFileInfo = w.cacheFileInfo ∧
    (addPath fs w path).removedFile = w.removedFile ∧
    (addPath fs w path).rotateImagePathSet = w.rotateImagePathSet ∧
    (addPath fs w path).env = w.env := by
  unfold addPath
  split_ifs <;> simp

theorem addPath_mono (fs : FileSystem) (w : ImageFileWatcher) (path : String) :
    w.files ⊆ (addPath fs w path).files ∧
    w.directories ⊆ (addPath fs w path).directories := by
  unfold addPath
  split_ifs <;> simp

theorem addPath_mem (fs : FileSystem) (w : ImageFileWatcher) (path : String)
    (he : fs.fileExists path = true) (hp : path ≠ "") :
    path ∈ (addPath fs w path).files ∨ path ∈ (addPath fs w path).directories := by
  unfold addPath
  by_cases h1 : path ∈ w.files
  · simp [h1]
  · by_cases h2 : path ∈ w.directories
    · simp [h2]
    · by_cases h3 : fs.isDir path = true <;> simp [h1, h2, h3, he, hp]

theorem hashErase_hashInsert (m : List (String × QUrl)) (key : String) (value : QUrl) :
    hashErase (hashInsert m key value) key = hashErase m key := by
  simp [hashErase, hashInsert, List.filter_filter]

/-- One pass of the loop body. -/
theorem dirStep_spec (fs : FileSystem) (dir : String) (a : ImageFileWatcher)
    (entry : String × QUrl) :
    (dirStep fs dir a entry).cacheFileInfo = a.cacheFileInfo ∧
    (dirStep fs dir a entry).rotateImagePathSet = a.rotateImagePathSet ∧
    (dirStep fs dir a entry).removedFile =
      (if fs.fileName entry.1 ∈ fs.entryList dir then hashErase a.removedFile entry.1
        else a.removedFile) ∧
    fileChangedEvents (dirStep fs dir a entry).env.log =
      fileChangedEvents a.env.log ++
        (if fs.fileName entry.1 ∈ fs.entryList dir ∧ entry.1 ∉ a.rotateImagePathSet ∧
            (a.cacheFileInfo entry.1).isSome then [entry.1]
          else []) ∧
    a.files ⊆ (dirStep fs dir a entry).files ∧
    a.directories ⊆ (dirStep fs dir a entry).directories ∧
    (fs.fileName entry.1 ∈ fs.entryList dir → fs.fileExists entry.1 = true → entry.1 ≠ "" →
      entry.1 ∈ (dirStep fs dir a entry).files ∨
        entry.1 ∈ (dirStep fs dir a entry).directories) := by
  have hA := addPath_frame fs a entry.1
  have hM := addPath_mono fs a entry.1
  have hF := onImageFileChanged_frame fs (addPath fs a entry.1) entry.1
  have hR := onImageFileChanged_removedFile fs (addPath fs a entry.1) entry.1
  have hE := onImageFileChanged_events fs (addPath fs a entry.1) entry.1
  unfold dirStep
  by_cases hm : fs.fileName entry.1 ∈ fs.entryList dir
  · simp only [hm, if_true, true_and]
    refine ⟨?_, ?_, ?_, ?_, ?_, ?_, ?_⟩
    · rw [hF.2.2.1, hA.1]
    · rw [hF.2.2.2, hA.2.2.1]
    · show hashErase (onImageFileChanged fs (addPath fs a entry.1) entry.1).removedFile entry.1
        = hashErase a.removedFile entry.1
      rw [hR, hA.1, hA.2.1, hA.2.2.1]
      cases hc : a.cacheFileInfo entry.1 with
      | none => rfl
      | some url =>
        simp only []
        split_ifs
        · exact hashErase_hashInsert _ _ _
        · rfl
    · show fileChangedEvents (onImageFileChanged fs (addPath fs a entry.1) entry.1).env.log = _
      rw [hE, hA.1, hA.2.2.1, hA.2.2.2]
    · show a.files ⊆ (onImageFileChanged fs (addPath fs a entry.1) entry.1).files
      rw [hF.1]
      exact hM.1
    · show a.directories ⊆ (onImageFileChanged fs (addPath fs a entry.1) entry.1).directories
      rw [hF.2.1]
      exact hM.2
    · intro _ he hp
      show entry.1 ∈ (onImageFileChanged fs (addPath fs a entry.1) entry.1).files ∨
        entry.1 ∈ (onImageFileChanged fs (addPath fs a entry.1) entry.1).directories
      rw [hF.1, hF.2.1]
      exact addPath_mem fs a entry.1 he hp
  · simp [hm]

end ImageFileWatcher

namespace ImageFileWatcher

open Examples

/-- The loop of `onImageDirChanged` over a list of entries, from any state. -/
theorem dirFold_spec (fs : FileSystem) (dir : String) (l : List (String × QUrl)) :
    ∀ a : ImageFileWatcher,
      (l.foldl (dirStep fs dir) a).cacheFileInfo = a.cacheFileInfo ∧
      (l.foldl (dirStep fs dir) a).rotateImagePathSet = a.rotateImagePathSet ∧
      (l.foldl (dirStep fs dir) a).removedFile =
        a.removedFile.filter (fun e =>
          decide (¬ (fs.fileName e.1 ∈ fs.entryList dir ∧ e.1 ∈ l.map Prod.fst))) ∧
      fileChangedEvents (l.foldl (dirStep fs dir) a).env.log =
        fileChangedEvents a.env.log ++
          (l.filter (fun x => decide (fs.fileName x.1 ∈ fs.entryList dir ∧
            x.1 ∉ a.rotateImagePathSet ∧ (a.cacheFileInfo x.1).isSome))).map Prod.fst ∧
      a.files ⊆ (l.foldl (dirStep fs dir) a).files ∧
      a.directories ⊆ (l.foldl (dirStep fs dir) a).directories ∧
      ∀ x ∈ l, fs.fileName x.1 ∈ fs.entryList dir → fs.fileExists x.1 = true → x.1 ≠ "" →
        x.1 ∈ (l.foldl (dirStep fs dir) a).files ∨
          x.1 ∈ (l.foldl (dirStep fs dir) a).directories := by
  induction l with
  | nil =>
    intro a
    simp
  | cons x l ih =>
    intro a
    obtain ⟨s1, s2, s3, s4, s5, s6, s7⟩ := dirStep_spec fs dir a x
    obtain ⟨i1, i2, i3, i4, i5, i6, i7⟩ := ih (dirStep fs dir a x)
    rw [List.foldl_cons]
    refine ⟨by rw [i1, s1], by rw [i2, s2], ?_, ?_, fun f hf => i5 (s5 hf),
      fun f hf => i6 (s6 hf), ?_⟩
    · rw [i3, s3]
      by_cases hm : fs.fileName x.1 ∈ fs.entryList dir
      · rw [if_pos hm, hashErase, List.filter_filter]
        apply List.filter_congr
        intro e _
        by_cases hx : e.1 = x.1
        · simp [hx, hm]
        · have hb : (e.1 == x.1) = false := by simpa using hx
          simp [hx, hb]
      · rw [if_neg hm]
        apply List.filter_congr
        intro e _
        by_cases hx : e.1 = x.1
        · have hme : fs.fileName e.1 ∉ fs.entryList dir := by rw [hx]; exact hm
          simp [hme]
        · have hb : (e.1 == x.1) = false := by simpa using hx
          simp [hx, hb]
    · rw [i4, s4, s1, s2, List.append_assoc]
      congr 1
      rw [List.filter_cons]
      by_cases hc : fs.fileName x.1 ∈ fs.entryList dir ∧ x.1 ∉ a.rotateImagePathSet ∧
          (a.cacheFileInfo x.1).isSome
      · rw [if_pos hc, if_pos (by simpa using hc)]
        rfl
      · rw [if_neg hc, if_neg (by simpa using hc)]
        rfl
    · intro y hy hm he hp
      rcases List.mem_cons.mp hy with rfl | hy
      · rcases s7 hm he hp with h | h
        · exact Or.inl (i5 h)
        · exact Or.inr (i6 h)
      · exact i7 y hy hm he hp

end ImageFileWatcher

namespace ImageFileWatcher

open Examples

/-- C12, as stated, fails: with `a.png` deleted (an entry of the removed set) and recorded as
being rotated, a directory notification whose listing shows `a.png` again re-adds the path
to the watcher and drops the entry, but raises no `imageFileChanged`: the handler called for
the restored path returns at its self-write check. -/
theorem C12_restored_path_in_rotate_set_raises_no_event :
    (recordRotateImage watchingRemoved "/d/a.png").removedFile =
      [("/d/a.png", fileUrl "/d/a.png")] ∧
    oneFile.fileName "/d/a.png" ∈ oneFile.entryList "/d" ∧
    (onImageDirChanged oneFile (recordRotateImage watchingRemoved "/d/a.png")
      "/d").removedFile = [] ∧
    (onImageDirChanged oneFile (recordRotateImage watchingRemoved "/d/a.png") "/d").files =
      ["/d/a.png"] ∧
    fileChangedEvents
        (onImageDirChanged oneFile (recordRotateImage watchingRemoved "/d/a.png")
          "/d").env.log =
      fileChangedEvents (recordRotateImage watchingRemoved "/d/a.png").env.log := by
  decide

/-- C12, amended: `onImageDirChanged(dir)`, in a state where every entry of the removed set
has a record from path to URL: the removed set afterwards consists of exactly the entries
whose file name does not appear in the listing, unchanged; every entry whose file name
appears is dropped, its path is added to the watcher again (it is watched afterwards when it
exists on disk), and one `imageFileChanged` is raised for it unless the path is in the
self-write set, in which case none is raised. -/
theorem C12_onImageDirChanged_restores (fs : FileSystem) (w : ImageFileWatcher) (dir : String)
    (hrec : ∀ e ∈ w.removedFile, (w.cacheFileInfo e.1).isSome) :
    (onImageDirChanged fs w dir).removedFile =
      w.removedFile.filter (fun e => decide (fs.fileName e.1 ∉ fs.entryList dir)) ∧
    (∀ e ∈ w.removedFile, fs.fileName e.1 ∈ fs.entryList dir →
      ∀ e2 ∈ (onImageDirChanged fs w dir).removedFile, e2.1 ≠ e.1) ∧
    (∀ e ∈ w.removedFile, fs.fileName e.1 ∉ fs.entryList dir →
      e ∈ (onImageDirChanged fs w dir).removedFile) ∧
    fileChangedEvents (onImageDirChanged fs w dir).env.log =
      fileChangedEvents w.env.log ++
        (w.removedFile.filter (fun e => decide (fs.fileName e.1 ∈ fs.entryList dir ∧
          e.1 ∉ w.rotateImagePathSet))).map Prod.fst ∧
    (∀ e ∈ w.removedFile, fs.fileName e.1 ∈ fs.entryList dir → fs.fileExists e.1 = true →
      e.1 ≠ "" →
      e.1 ∈ (onImageDirChanged fs w dir).files ∨
        e.1 ∈ (onImageDirChanged fs w dir).directories) ∧
    (onImageDirChanged fs w dir).rotateImagePathSet = w.rotateImagePathSet ∧
    (onImageDirChanged fs w dir).cacheFileInfo = w.cacheFileInfo := by
  obtain ⟨h1, h2, h3, h4, _, _, h7⟩ := dirFold_spec fs dir w.removedFile w
  rw [onImageDirChanged_eq]
  have hrem : (w.removedFile.foldl (dirStep fs dir) w).removedFile =
      w.removedFile.filter (fun e => decide (fs.fileName e.1 ∉ fs.entryList dir)) := by
    rw [h3]
    apply List.filter_congr
    intro e he
    have hk : e.1 ∈ w.removedFile.map Prod.fst := List.mem_map_of_mem Prod.fst he
    simp [hk]
  refine ⟨hrem, ?_, ?_, ?_, h7, h2, h1⟩
  · intro e _ hm e2 he2 heq
    rw [hrem, List.mem_filter] at he2
    have := he2.2
    rw [heq] at this
    simp [hm] at this
  · intro e he hm
    rw [hrem, List.mem_filter]
    exact ⟨he, by simpa using hm⟩
  · rw [h4]
    congr 2
    apply List.filter_congr
    intro e he
    have := hrec e he
    simp [this]

/-- C12, amended, at an input: `a.png` deleted, then shown again by the listing of `/d`. -/
theorem C12_onImageDirChanged_restores_witness :
    (onImageDirChanged oneFile watchingRemoved "/d").removedFile = [] ∧
    fileChangedEvents (onImageDirChanged oneFile watchingRemoved "/d").env.log =
      fileChangedEvents watchingRemoved.env.log ++ ["/d/a.png"] ∧
    "/d/a.png" ∈ (onImageDirChanged oneFile watchingRemoved "/d").files :=
  have h := C12_onImageDirChanged_restores oneFile watchingRemoved "/d" (by decide)
  ⟨by rw [h.1]; decide, by rw [h.2.2.2.1]; decide, by decide⟩

end ImageFileWatcher

namespace ImageFileWatcher

open Examples

theorem mem_hashInsert (m : List (String × QUrl)) (key : String) (value : QUrl) :
    (key, value) ∈ hashInsert m key value ∧
    ∀ e ∈ hashInsert m key value, e.1 = key → e.2 = value := by
  refine ⟨by simp [hashInsert], ?_⟩
  intro e he hk
  simp only [hashInsert, List.mem_cons, List.mem_filter] at he
  rcases he with rfl | ⟨_, h2⟩
  · rfl
  · simp [hk] at h2

/-- C13, as stated, fails: `a.png` is watched in `/d` and no longer exists on disk; after
`onImageFileChanged` it is entered in the removed set and still among the watched files, with
its record from path to URL kept. The handler moves nothing out of the watch set. -/
theorem C13_removed_path_stays_watched :
    "/d/a.png" ∈ watchingD.files ∧
    "/d/a.png" ∉ watchingD.rotateImagePathSet ∧
    watchingD.cacheFileInfo "/d/a.png" = some (fileUrl "/d/a.png") ∧
    noFile.fileExists "/d/a.png" = false ∧
    (onImageFileChanged noFile watchingD "/d/a.png").removedFile =
      [("/d/a.png", fileUrl "/d/a.png")] ∧
    "/d/a.png" ∈ (onImageFileChanged noFile watchingD "/d/a.png").files ∧
    (onImageFileChanged noFile watchingD "/d/a.png").cacheFileInfo "/d/a.png" =
      some (fileUrl "/d/a.png") := by
  decide

/-- C13, amended: `onImageFileChanged(p)` for a watched path `p` (one with a record from path
to URL) that is not in the self-write set. If `p` no longer exists on disk, `p` is entered in
the removed set, keyed by `p` and valued by its URL, with the other entries kept, and one
`imageFileChanged(p)` is raised. If `p` still exists, one `imageFileChanged(p)` is raised and
the removed set is unchanged. In both cases the handler leaves the watched files and
directories, the record from path to URL and the self-write set as they are. For a path that
is not watched, no event is raised and nothing changes. -/
theorem C13_onImageFileChanged_records_removal (fs : FileSystem) (w : ImageFileWatcher)
    (p : String) (url : QUrl) (hrot : p ∉ w.rotateImagePathSet)
    (hw : w.cacheFileInfo p = some url) :
    (fs.fileExists p = false →
      (onImageFileChanged fs w p).removedFile = hashInsert w.removedFile p url ∧
      (p, url) ∈ (onImageFileChanged fs w p).removedFile ∧
      (∀ e ∈ (onImageFileChanged fs w p).removedFile, e.1 = p → e.2 = url) ∧
      (∀ e ∈ (onImageFileChanged fs w p).removedFile, e.1 ≠ p → e ∈ w.removedFile) ∧
      (∀ e ∈ w.removedFile, e.1 ≠ p → e ∈ (onImageFileChanged fs w p).removedFile)) ∧
    (fs.fileExists p = true →
      (onImageFileChanged fs w p).removedFile = w.removedFile) ∧
    fileChangedEvents (onImageFileChanged fs w p).env.log =
      fileChangedEvents w.env.log ++ [p] ∧
    ((onImageFileChanged fs w p).files = w.files ∧
      (onImageFileChanged fs w p).directories = w.directories ∧
      (onImageFileChanged fs w p).cacheFileInfo = w.cacheFileInfo ∧
      (onImageFileChanged fs w p).rotateImagePathSet = w.rotateImagePathSet) ∧
    (∀ q, w.cacheFileInfo q = none → onImageFileChanged fs w q = w) := by
  have hev : fileChangedEvents (onImageFileChanged fs w p).env.log =
      fileChangedEvents w.env.log ++ [p] := by
    rw [onImageFileChanged_events]
    simp [hrot, hw]
  refine ⟨?_, ?_, hev, onImageFileChanged_frame fs w p, ?_⟩
  · intro he
    have hrm : (onImageFileChanged fs w p).removedFile = hashInsert w.removedFile p url := by
      rw [onImageFileChanged_removedFile]
      simp [hw, hrot, he]
    refine ⟨hrm, ?_, ?_, ?_, ?_⟩
    · rw [hrm]
      exact (mem_hashInsert _ _ _).1
    · rw [hrm]
      exact (mem_hashInsert _ _ _).2
    · intro e hmem hne
      rw [hrm] at hmem
      simp only [hashInsert, List.mem_cons, List.mem_filter] at hmem
      rcases hmem with rfl | ⟨h1, _⟩
      · exact absurd rfl hne
      · exact h1
    · intro e hmem hne
      rw [hrm]
      simp only [hashInsert, List.mem_cons, List.mem_filter]
      exact Or.inr ⟨hmem, by simpa using hne⟩
  · intro he
    rw [onImageFileChanged_removedFile]
    simp [hw, he]
  · intro q hq
    unfold onImageFileChanged
    simp [hq]

/-- C13, amended, at an input: `a.png`, watched in `/d`, is deleted and the deletion
notified. -/
theorem C13_onImageFileChanged_records_removal_witness :
    ("/d/a.png", fileUrl "/d/a.png") ∈
      (onImageFileChanged noFile watchingD "/d/a.png").removedFile ∧
    (onImageFileChanged noFile watchingD "/d/a.png").files = watchingD.files ∧
    fileChangedEvents (onImageFileChanged noFile watchingD "/d/a.png").env.log =
      fileChangedEvents watchingD.env.log ++ ["/d/a.png"] :=
  have h := C13_onImageFileChanged_records_removal noFile watchingD "/d/a.png"
    (fileUrl "/d/a.png") (by decide) (by decide)
  ⟨(h.1 (by decide)).2.1, h.2.2.2.1.1, h.2.2.1⟩

/-- What `resetImageFiles` does when the directory of the first path is the one watched:
the three records are cleared, the watched paths are kept. -/
theorem resetImageFiles_of_currentDir (fs : FileSystem) (w : ImageFileWatcher)
    (first : String) (rest : List String) (h : isCurrentDir fs w first = true) :
    resetImageFiles fs w (first :: rest) =
      { w with cacheFileInfo := fun _ => none, removedFile := [],
               rotateImagePathSet := ∅ } := by
  have h2 : isCurrentDir fs
      { w with cacheFileInfo := fun _ => none, removedFile := [], rotateImagePathSet := ∅ }
      first = true := h
  simp only [resetImageFiles, h2, if_true]

/-- C14, the code at failing inputs: the watcher watches `/d` with `a.png` recorded; a
`resetImageFiles` whose first path lies in `/d` keeps the watched files but clears the record
from path to URL, so that a later notification for `a.png` raises nothing; with `a.png` in
the removed set and a path in the self-write set, both sets are emptied as well. -/
theorem C14_reset_of_watched_directory_clears_records :
    isCurrentDir oneFile watchingD "/d/a.png" = true ∧
    watchingD.cacheFileInfo "/d/a.png" = some (fileUrl "/d/a.png") ∧
    (resetImageFiles oneFile watchingD ["/d/a.png"]).files = watchingD.files ∧
    (resetImageFiles oneFile watchingD ["/d/a.png"]).cacheFileInfo "/d/a.png" = none ∧
    fileChangedEvents (onImageFileChanged oneFile watchingD "/d/a.png").env.log =
      ["/d/a.png"] ∧
    fileChangedEvents
      (onImageFileChanged oneFile (resetImageFiles oneFile watchingD ["/d/a.png"])
        "/d/a.png").env.log = [] ∧
    (recordRotateImage watchingRemoved "/d/b.png").removedFile ≠ [] ∧
    (resetImageFiles noFile (recordRotateImage watchingRemoved "/d/b.png")
      ["/d/a.png"]).removedFile = [] ∧
    "/d/b.png" ∈ (recordRotateImage watchingRemoved "/d/b.png").rotateImagePathSet ∧
    (resetImageFiles noFile (recordRotateImage watchingRemoved "/d/b.png")
      ["/d/a.png"]).rotateImagePathSet = ∅ := by
  decide

end ImageFileWatcher

/-! ## LoadImageInfoRunnable: the result of a run -/

namespace LoadImageInfoRunnable

open Examples

/-- C15, as stated, fails: while the application is closing down, a run returns at once and
delivers no record for its key. -/
theorem C15_no_delivery_while_closing_down :
    closingDecoder.closingDown = true ∧
    (run closingDecoder "/a" 0).delivered = [] := by
  decide

/-- C15, amended: unless the application is closing down (then nothing is delivered), for
every key and every outcome of the existence check, the type sniffing and the decoding, one
run delivers exactly one metadata record, addressed to exactly that key and carrying its
path; when the run fails the record has type Damaged, Null or Nonexistent. -/
theorem C15_run_delivers_one_record (env : Decoder) (loadPath : String) (frameIndex : Int) :
    (env.closingDown = true →
      (run env loadPath frameIndex).delivered = [] ∧
      (run env loadPath frameIndex).thumbnails = []) ∧
    (env.closingDown = false →
      ∃ d : ImageInfoData,
        (run env loadPath frameIndex).delivered = [(loadPath, frameIndex, d)] ∧
        d.path = loadPath ∧
        (failed env loadPath frameIndex →
          d.type = Types.ImageType.DamagedImage ∨ d.type = Types.ImageType.NullImage ∨
            d.type = Types.ImageType.NonexistImage)) := by
  refine ⟨?_, ?_⟩
  · intro hc
    simp [run, hc]
  · intro hc
    unfold run failed loadImage
    simp only [hc, Bool.false_eq_true, if_false]
    by_cases he : env.fileExists loadPath = true
    · cases ht : env.getImageType loadPath with
      | ImageTypeBlank => simp [he, imageTypeAdapator]
      | ImageTypeMulti =>
        cases hr : env.readFrame loadPath frameIndex <;> simp [he, imageTypeAdapator]
      | ImageTypeSvg =>
        by_cases hf : frameIndex = 0
        · cases hl : env.loadStaticImageFromFile loadPath <;>
            simp [he, imageTypeAdapator, hf]
        · simp [he, imageTypeAdapator, hf]
      | ImageTypeStatic =>
        by_cases hf : frameIndex = 0
        · cases hl : env.loadStaticImageFromFile loadPath <;>
            simp [he, imageTypeAdapator, hf]
        · simp [he, imageTypeAdapator, hf]
      | ImageTypeDynamic =>
        by_cases hf : frameIndex = 0
        · cases hl : env.loadStaticImageFromFile loadPath <;>
            simp [he, imageTypeAdapator, hf]
        · simp [he, imageTypeAdapator, hf]
      | ImageTypeOther =>
        by_cases hf : frameIndex = 0
        · cases hl : env.loadStaticImageFromFile loadPath <;>
            simp [he, imageTypeAdapator, hf]
        · simp [he, imageTypeAdapator, hf]
    · have he2 : env.fileExists loadPath = false := by simpa using he
      simp only [he2, Bool.not_false, if_true]
      refine ⟨_, rfl, rfl, fun _ => ?_⟩
      split_ifs <;> simp

/-- C15, amended, at an input: a static image at frame 0. -/
theorem C15_run_delivers_one_record_witness :
    ∃ d : ImageInfoData, (run staticDecoder "/a" 0).delivered = [("/a", 0, d)] ∧
      d.path = "/a" :=
  have h := (C15_run_delivers_one_record staticDecoder "/a" 0).2 (by decide)
  h.elim fun d hd => ⟨d, hd.1, hd.2.1⟩

end LoadImageInfoRunnable

namespace LoadImageInfoRunnable

open Examples

/-- C16, as stated, fails: for a missing file `/a` asked at frame 3, with no thumbnail cached
for the key `("/a", 3)`, the record has type Nonexistent, not Null, because the thumbnail of
`("/a", 0)` is cached: the lookup is made with the path alone. -/
theorem C16_nonexistent_type_looks_up_path_alone :
    missingDecoder.closingDown = false ∧
    missingDecoder.fileExists "/a" = false ∧
    missingDecoder.thumbnailContains "/a" 3 = false ∧
    (run missingDecoder "/a" 3).delivered.map (fun r => (r.1, r.2.1, r.2.2.type, r.2.2.exist)) =
      [("/a", 3, Types.ImageType.NonexistImage, false)] := by
  decide

/-- C16, amended: when the file of key (path, frameIndex) does not exist, no decode is
attempted (the outcome does not depend on the sniffer or the readers, and no thumbnail is
stored) and every record delivered, exactly one unless the application is closing down, has
exists = false, the defaults for the other fields, and a type that is Nonexistent if
`ThumbnailCache::contains(path)`, the lookup with the path alone (frame 0, whatever
frameIndex is), finds a thumbnail and Null otherwise. -/
theorem C16_missing_file_record (env : Decoder) (loadPath : String) (frameIndex : Int)
    (he : env.fileExists loadPath = false) :
    (run env loadPath frameIndex).thumbnails = [] ∧
    (∀ r ∈ (run env loadPath frameIndex).delivered,
      r = (loadPath, frameIndex,
        { path := loadPath, exist := false,
          type := if env.thumbnailContains loadPath 0 then Types.ImageType.NonexistImage
            else Types.ImageType.NullImage })) ∧
    (env.closingDown = false →
      (run env loadPath frameIndex).delivered =
        [(loadPath, frameIndex,
          { path := loadPath, exist := false,
            type := if env.thumbnailContains loadPath 0 then Types.ImageType.NonexistImage
              else Types.ImageType.NullImage })]) ∧
    (∀ env2 : Decoder, env2.closingDown = env.closingDown →
      env2.fileExists loadPath = false →
      env2.thumbnailContains loadPath 0 = env.thumbnailContains loadPath 0 →
      run env2 loadPath frameIndex = run env loadPath frameIndex) := by
  have hrun : ∀ e : Decoder, e.fileExists loadPath = false →
      run e loadPath frameIndex =
        if e.closingDown then { delivered := [], thumbnails := [] }
        else
          { delivered := [(loadPath, frameIndex,
              { path := loadPath, exist := false,
                type := if e.thumbnailContains loadPath 0 then Types.ImageType.NonexistImage
                  else Types.ImageType.NullImage })],
            thumbnails := [] } := by
    intro e h
    simp [run, h, ThumbnailCache.containsPath]
  rw [hrun env he]
  refine ⟨?_, ?_, ?_, ?_⟩
  · by_cases hc : env.closingDown = true <;> simp [hc]
  · intro r hr
    by_cases hc : env.closingDown = true
    · simp [hc] at hr
    · simpa [hc] using hr
  · intro hc
    simp [hc]
  · intro env2 h1 h2 h3
    rw [hrun env2 h2, h1, h3]

/-- C16, amended, at an input: the missing file `/a` at frame 3. -/
theorem C16_missing_file_record_witness :
    (run missingDecoder "/a" 3).thumbnails = [] ∧
    (run missingDecoder "/a" 3).delivered =
      [("/a", 3, { path := "/a", exist := false, type := Types.ImageType.NonexistImage })] :=
  have h := C16_missing_file_record missingDecoder "/a" 3 (by decide)
  ⟨h.1, by rw [h.2.2.1 (by decide)]; rfl⟩

/-- C17: for every existing file whose sniffed type is neither multi-frame nor blank and
every requested frameIndex other than 0, a run stores no thumbnail and every record it
delivers, exactly one for the requested key unless the application is closing down, has type
Damaged, with exists = true and the requested frame not replaced by frame 0. -/
theorem C17_single_frame_nonzero_index_damaged (env : Decoder) (loadPath : String)
    (frameIndex : Int) (he : env.fileExists loadPath = true)
    (hm : env.getImageType loadPath ≠ imageViewerSpace.ImageType.ImageTypeMulti)
    (hb : env.getImageType loadPath ≠ imageViewerSpace.ImageType.ImageTypeBlank)
    (hf : frameIndex ≠ 0) :
    (run env loadPath frameIndex).thumbnails = [] ∧
    (∀ r ∈ (run env loadPath frameIndex).delivered,
      r.1 = loadPath ∧ r.2.1 = frameIndex ∧
      r.2.2.type = Types.ImageType.DamagedImage ∧ r.2.2.exist = true) ∧
    (env.closingDown = false →
      (run env loadPath frameIndex).delivered =
        [(loadPath, frameIndex,
          { path := loadPath, exist := true, type := Types.ImageType.DamagedImage })]) := by
  have hrun : run env loadPath frameIndex =
      if env.closingDown then { delivered := [], thumbnails := [] }
      else
        { delivered := [(loadPath, frameIndex,
            { path := loadPath, exist := true, type := Types.ImageType.DamagedImage })],
          thumbnails := [] } := by
    unfold run
    cases ht : env.getImageType loadPath <;>
      simp_all [imageTypeAdapator]
  rw [hrun]
  refine ⟨?_, ?_, ?_⟩
  · split_ifs <;> rfl
  · intro r hr
    split_ifs at hr
    · simp at hr
    · simp only [List.mem_singleton] at hr
      subst hr
      exact ⟨rfl, rfl, rfl, rfl⟩
  · intro hc
    simp [hc]

/-- C17, at an input: a static image asked at frame 2. -/
theorem C17_single_frame_nonzero_index_damaged_witness :
    (run staticDecoder "/a" 2).thumbnails = [] ∧
    (run staticDecoder "/a" 2).delivered =
      [("/a", 2, { path := "/a", exist := true, type := Types.ImageType.DamagedImage })] :=
  have h := C17_single_frame_nonzero_index_damaged staticDecoder "/a" 2 (by decide)
    (by decide) (by decide) (by decide)
  ⟨h.1, h.2.2 (by decide)⟩

end LoadImageInfoRunnable

namespace LoadImageInfoRunnable

open Examples

/-- The frame count of the records of a run: the value of `QImageReader::imageCount` for a
multi-frame image whose frame was read, and 0, the initial value of the member, in every
other record; a non-zero frame count only occurs with type Multi. -/
theorem run_frameCount (env : Decoder) (loadPath : String) (frameIndex : Int) :
    ∀ r ∈ (run env loadPath frameIndex).delivered,
      r.2.2.frameCount =
        (if env.fileExists loadPath = true ∧
            env.getImageType loadPath = imageViewerSpace.ImageType.ImageTypeMulti ∧
            (env.readFrame loadPath frameIndex).isSome then env.imageCount loadPath
          else 0) ∧
      (r.2.2.frameCount ≠ 0 → r.2.2.type = Types.ImageType.MultiImage) := by
  intro r hr
  by_cases hc : env.closingDown = true
  · simp [run, hc] at hr
  have hc2 : env.closingDown = false := by simpa using hc
  by_cases he : env.fileExists loadPath = true
  · cases ht : env.getImageType loadPath with
    | ImageTypeBlank =>
      simp [run, loadImage, hc2, he, ht, imageTypeAdapator] at hr
      subst hr
      simp [he, ht]
    | ImageTypeMulti =>
      cases hrf : env.readFrame loadPath frameIndex <;>
        simp [run, loadImage, hc2, he, ht, imageTypeAdapator, hrf] at hr <;>
        subst hr <;> simp [he, ht, hrf]
    | ImageTypeSvg =>
      by_cases hf : frameIndex = 0
      · cases hl : env.loadStaticImageFromFile loadPath <;>
          simp [run, loadImage, hc2, he, ht, imageTypeAdapator, hf, hl] at hr <;>
          subst hr <;> simp [he, ht]
      · simp [run, loadImage, hc2, he, ht, imageTypeAdapator, hf] at hr
        subst hr
        simp [he, ht]
    | ImageTypeStatic =>
      by_cases hf : frameIndex = 0
      · cases hl : env.loadStaticImageFromFile loadPath <;>
          simp [run, loadImage, hc2, he, ht, imageTypeAdapator, hf, hl] at hr <;>
          subst hr <;> simp [he, ht]
      · simp [run, loadImage, hc2, he, ht, imageTypeAdapator, hf] at hr
        subst hr
        simp [he, ht]
    | ImageTypeDynamic =>
      by_cases hf : frameIndex = 0
      · cases hl : env.loadStaticImageFromFile loadPath <;>
          simp [run, loadImage, hc2, he, ht, imageTypeAdapator, hf, hl] at hr <;>
          subst hr <;> simp [he, ht]
      · simp [run, loadImage, hc2, he, ht, imageTypeAdapator, hf] at hr
        subst hr
        simp [he, ht]
    | ImageTypeOther =>
      by_cases hf : frameIndex = 0
      · cases hl : env.loadStaticImageFromFile loadPath <;>
          simp [run, loadImage, hc2, he, ht, imageTypeAdapator, hf, hl] at hr <;>
          subst hr <;> simp [he, ht]
      · simp [run, loadImage, hc2, he, ht, imageTypeAdapator, hf] at hr
        subst hr
        simp [he, ht]
  · have he2 : env.fileExists loadPath = false := by simpa using he
    simp [run, hc2, he2] at hr
    subst hr
    simp [he2]

/-- C18, the code at a failing input: the record of an existing static image decoded at
frame 0 has type Normal and frameCount 0, not a frame count of at least 1; so has the record
of a missing file. -/
theorem C18_single_frame_record_has_frameCount_zero :
    (run staticDecoder "/a" 0).delivered.map
        (fun r => (r.2.2.type, r.2.2.exist, r.2.2.frameCount)) =
      [(Types.ImageType.NormalImage, true, 0)] ∧
    (run staticDecoder "/a" 0).thumbnails = [("/a", 0)] ∧
    (run missingDecoder "/b" 0).delivered.map
        (fun r => (r.2.2.type, r.2.2.exist, r.2.2.frameCount)) =
      [(Types.ImageType.NullImage, false, 0)] := by
  decide

end LoadImageInfoRunnable

/-! ## ImageInfo: change notifications and status -/

namespace ImageInfo

open Examples

@[simp] theorem setStatus_imageStatus (g : Globals) (h : ImageInfo) (st : Status) :
    (setStatus g h st).2.imageStatus = st := by
  unfold setStatus
  split_ifs with hs
  · rfl
  · simpa using hs

@[simp] theorem updateData_cacheInstance (g : Globals) (h : ImageInfo) (o n : Ptr) :
    (updateData g h o n).1.1.cacheInstance = g.cacheInstance := by
  unfold updateData
  split_ifs <;> simp [Globals.emit]

/-- C19: `ImageInfo::updateData(new)` for a held record `old` and a distinct record `new`:
the notifications raised are, each at most once and no other, `typeChanged` iff the types
differ, `widthChanged` and `heightChanged` iff the sizes differ, `frameIndexChanged` iff the
frame indices differ, `frameCountChanged` iff the frame counts differ and `existsChanged` iff
the exists flags differ; the handle then holds `new`, and the call returns true iff at least
one of the five fields differs. When the five fields agree, whatever the runtime fields
scale, x and y are, nothing is raised and false is returned. -/
theorem C19_updateData_notifies_changed_fields (g : Globals) (h : ImageInfo)
    (oldData newData : Ptr) (hold : h.data = some oldData) (hne : newData ≠ oldData) :
    (∃ es : List Event,
      (updateData g h oldData newData).1.1.log = g.log ++ es ∧ es.Nodup ∧
      (Event.typeChanged ∈ es ↔ (g.heap oldData).type ≠ (g.heap newData).type) ∧
      (Event.widthChanged ∈ es ↔
        ((g.heap oldData).width, (g.heap oldData).height) ≠
          ((g.heap newData).width, (g.heap newData).height)) ∧
      (Event.heightChanged ∈ es ↔
        ((g.heap oldData).width, (g.heap oldData).height) ≠
          ((g.heap newData).width, (g.heap newData).height)) ∧
      (Event.frameIndexChanged ∈ es ↔
        (g.heap oldData).frameIndex ≠ (g.heap newData).frameIndex) ∧
      (Event.frameCountChanged ∈ es ↔
        (g.heap oldData).frameCount ≠ (g.heap newData).frameCount) ∧
      (Event.existsChanged ∈ es ↔ (g.heap oldData).exist ≠ (g.heap newData).exist) ∧
      (∀ e ∈ es, e = Event.typeChanged ∨ e = Event.widthChanged ∨ e = Event.heightChanged ∨
        e = Event.frameIndexChanged ∨ e = Event.frameCountChanged ∨
        e = Event.existsChanged)) ∧
    ((updateData g h oldData newData).2 = true ↔
      ((g.heap oldData).type ≠ (g.heap newData).type ∨
        ((g.heap oldData).width, (g.heap oldData).height) ≠
          ((g.heap newData).width, (g.heap newData).height) ∨
        (g.heap oldData).frameIndex ≠ (g.heap newData).frameIndex ∨
        (g.heap oldData).frameCount ≠ (g.heap newData).frameCount ∨
        (g.heap oldData).exist ≠ (g.heap newData).exist)) ∧
    (updateData g h oldData newData).1.2.data = some newData ∧
    ((g.heap oldData).type = (g.heap newData).type →
      (g.heap oldData).width = (g.heap newData).width →
      (g.heap oldData).height = (g.heap newData).height →
      (g.heap oldData).frameIndex = (g.heap newData).frameIndex →
      (g.heap oldData).frameCount = (g.heap newData).frameCount →
      (g.heap oldData).exist = (g.heap newData).exist →
      (updateData g h oldData newData).1.1.log = g.log ∧
      (updateData g h oldData newData).2 = false) := by
  refine ⟨?_, ?_, updateData_data g h oldData newData hold, ?_⟩
  · refine ⟨_, by simp only [updateData, if_neg hne, Globals.emit]; rfl, ?_⟩
    by_cases h1 : (g.heap oldData).type = (g.heap newData).type <;>
    by_cases h2 : ((g.heap oldData).width, (g.heap oldData).height) =
      ((g.heap newData).width, (g.heap newData).height) <;>
    by_cases h3 : (g.heap oldData).frameIndex = (g.heap newData).frameIndex <;>
    by_cases h4 : (g.heap oldData).frameCount = (g.heap newData).frameCount <;>
    by_cases h5 : (g.heap oldData).exist = (g.heap newData).exist <;>
    simp [h1, h2, h3, h4, h5]
  · simp only [updateData, if_neg hne, decide_eq_true_eq]
  · intro h1 h2 h3 h4 h5 h6
    simp [updateData, hne, h1, h2, h3, h4, h5, h6, Globals.emit]

/-- C19, at an input: a held static record against a cached multi-page record of the same
size: the type and frame-count notifications are raised and true is returned. -/
theorem C19_updateData_notifies_changed_fields_witness :
    (updateData twoRecords handleOnA 0 1).2 = true ∧
    (updateData twoRecords handleOnA 0 1).1.2.data = some 1 ∧
    (updateData twoRecords handleOnA 0 1).1.1.log =
      [Event.typeChanged, Event.frameCountChanged] :=
  have h := C19_updateData_notifies_changed_fields twoRecords handleOnA 0 1 rfl (by decide)
  ⟨h.2.1.mpr (Or.inl (by decide)), h.2.2.1, by decide⟩

end ImageInfo

namespace ImageInfo

open Examples

/-- C20: after `ImageInfo::refreshDataFromCache(reload)` with a non-empty local path: if
metadata for (path, frame) is cached, the handle holds it, no load is requested and the
status is Error when that metadata has exists = false or type Damaged and Ready otherwise;
if none is cached and `reload` is true, the status is Loading and `load(path, frame)` is
requested at the cache; if none is cached and `reload` is false, the status is Error and no
load is requested. -/
theorem C20_refreshDataFromCache_status (g : Globals) (h : ImageInfo) (reload : Bool)
    (hp : h.imageUrl.toLocalFile ≠ "") :
    (∀ p, g.cacheInstance.find h.imageUrl.toLocalFile h.currentIndex = some p →
      (refreshDataFromCache g h reload).2.imageStatus =
        (if (g.heap p).exist = false ∨ (g.heap p).type = Types.ImageType.DamagedImage then
          Status.Error
        else Status.Ready) ∧
      (refreshDataFromCache g h reload).2.data = some p ∧
      (refreshDataFromCache g h reload).1.cacheInstance = g.cacheInstance) ∧
    (g.cacheInstance.find h.imageUrl.toLocalFile h.currentIndex = none → reload = true →
      (refreshDataFromCache g h reload).2.imageStatus = Status.Loading ∧
      (refreshDataFromCache g h reload).1.cacheInstance =
        g.cacheInstance.load (enableMultiThread g.idealThreadCount) h.imageUrl.toLocalFile
          h.currentIndex false) ∧
    (g.cacheInstance.find h.imageUrl.toLocalFile h.currentIndex = none → reload = false →
      (refreshDataFromCache g h reload).2.imageStatus = Status.Error ∧
      (refreshDataFromCache g h reload).1.cacheInstance = g.cacheInstance) := by
  refine ⟨?_, ?_, ?_⟩
  · intro p hf
    have hd := refreshDataFromCache_data g h reload
    rw [if_neg hp, hf] at hd
    refine ⟨?_, hd, ?_⟩
    · unfold refreshDataFromCache
      rw [if_neg hp]
      simp only [hf, setStatus_imageStatus]
      have hheap : ∀ r : Globals × ImageInfo, r.1.heap = g.heap →
          (if (r.1.heap p).isError = true then Status.Error else Status.Ready) =
            (if (g.heap p).exist = false ∨ (g.heap p).type = Types.ImageType.DamagedImage then
              Status.Error else Status.Ready) := by
        intro r hr
        rw [hr]
        simp [ImageInfoData.isError]
      apply hheap
      cases hdata : h.data with
      | none => simp [Globals.emit]
      | some o => by_cases hu : (updateData g h o p).2 = true <;> simp [hu, Globals.emit]
    · unfold refreshDataFromCache
      rw [if_neg hp]
      simp only [hf, setStatus_cacheInstance]
      cases hdata : h.data with
      | none => simp [Globals.emit]
      | some o => by_cases hu : (updateData g h o p).2 = true <;> simp [hu, Globals.emit]
  · intro hf hr
    unfold refreshDataFromCache
    simp [hp, hf, hr]
  · intro hf hr
    unfold refreshDataFromCache
    simp [hp, hf, hr]

/-- C20, at inputs: a handle on `/a` whose cached metadata is a loaded multi-page record
becomes Ready; a handle on the uncached `/b` becomes Loading on reload and Error without. -/
theorem C20_refreshDataFromCache_status_witness :
    (refreshDataFromCache twoRecords handleOnA false).2.imageStatus = Status.Ready ∧
    (refreshDataFromCache twoRecords { handleOnA with imageUrl := fileUrl "/b" }
      true).2.imageStatus = Status.Loading ∧
    (refreshDataFromCache twoRecords { handleOnA with imageUrl := fileUrl "/b" }
      false).2.imageStatus = Status.Error :=
  ⟨by
    have h := ((C20_refreshDataFromCache_status twoRecords handleOnA false (by decide)).1 1
      (by decide)).1
    rw [h]
    decide,
   ((C20_refreshDataFromCache_status twoRecords { handleOnA with imageUrl := fileUrl "/b" }
      true (by decide)).2.1 (by decide) rfl).1,
   ((C20_refreshDataFromCache_status twoRecords { handleOnA with imageUrl := fileUrl "/b" }
      false (by decide)).2.2 (by decide) rfl).1⟩

end ImageInfo

/-! ## GlobalControl: removal of an image that is not in the collection -/

namespace GlobalControl

open Examples

/-- C21, the code at failing inputs: `removeImage` does not look whether the URL is in the
collection. With two images and the last one current, `removeImage` of a URL that is not in
the collection leaves the collection as it is but moves currentIndex from 1 to 0 and the
current source from `/b` to `/a`; with the first image current at frame 2 it resets
currentFrameIndex to 0. -/
theorem C21_removeImage_of_absent_url_moves_current :
    fileUrl "/zz" ∉ secondOfTwo.sourceModel ∧
    (secondOfTwo.removeImage (fileUrl "/zz")).sourceModel = secondOfTwo.sourceModel ∧
    secondOfTwo.currentIndex = 1 ∧
    (secondOfTwo.removeImage (fileUrl "/zz")).currentIndex = 0 ∧
    secondOfTwo.currentSource = fileUrl "/b" ∧
    (secondOfTwo.removeImage (fileUrl "/zz")).currentSource = fileUrl "/a" ∧
    fileUrl "/zz" ∉ firstOfTwoAtFrame.sourceModel ∧
    firstOfTwoAtFrame.currentFrameIndex = 2 ∧
    (firstOfTwoAtFrame.removeImage (fileUrl "/zz")).currentIndex = 0 ∧
    (firstOfTwoAtFrame.removeImage (fileUrl "/zz")).currentFrameIndex = 0 := by
  decide

end GlobalControl

/-! ## GlobalControl: the size after a sequence of rotations -/

namespace GlobalControl

open Examples

/-- The size after a sequence of rotations by non-zero multiples of 90 in which no
difference of two successive rotations leaves the range of `int`, relative to a size `base`:
`base` at a multiple of 180 and `base` swapped otherwise. -/
theorem rotateAll_size (base : Int × Int) (angles : List Int) :
    ∀ t : GlobalControl, (∀ a ∈ angles, a ≠ 0 ∧ 90 ∣ a) →
      List.Chain (fun b a => INT_MIN ≤ a - b ∧ a - b ≤ INT_MAX) t.imageRotation angles →
      90 ∣ t.imageRotation →
      t.currentSize = (if 180 ∣ t.imageRotation then base else (base.2, base.1)) →
      (rotateAll t angles).currentSize =
        (if 180 ∣ (rotateAll t angles).imageRotation then base else (base.2, base.1)) ∧
      90 ∣ (rotateAll t angles).imageRotation := by
  induction angles with
  | nil =>
    intro t _ _ h90 hs
    exact ⟨hs, h90⟩
  | cons a rest ih =>
    intro t hall hchain h90 hs
    have ha := hall a (List.mem_cons_self _ _)
    have hrest : ∀ b ∈ rest, b ≠ 0 ∧ 90 ∣ b :=
      fun b hb => hall b (List.mem_cons_of_mem _ hb)
    obtain ⟨hrange, hchain2⟩ := List.chain_cons.mp hchain
    show (rotateAll (t.setCurrentRotation a) rest).currentSize = _ ∧ _
    apply ih (t.setCurrentRotation a) hrest
    · rw [setCurrentRotation_imageRotation]
      exact hchain2
    · simpa using ha.2
    · rw [currentSize_setCurrentRotation, setCurrentRotation_imageRotation, hs,
        toInt32_of_range _ hrange.1 hrange.2]
      obtain ⟨ha0, ha90⟩ := ha
      by_cases h1 : 180 ∣ t.imageRotation <;> by_cases h2 : 180 ∣ a <;>
        by_cases h3 : 180 ∣ a - t.imageRotation <;> by_cases h4 : t.imageRotation = a <;>
        simp [h1, h2, h3, h4, ha0] <;> omega

/-- C28, as stated, fails. On a loaded 30 x 20 image, after `setCurrentRotation(90)` and
`setCurrentRotation(0)` the rotation is 0, an even multiple of 90, and the stored size is
20 x 30: the call with angle 0 does not swap the size back. After `setCurrentRotation(-180)`
and `setCurrentRotation(2147483520)` the rotation is the even multiple 90 * 23860928 and the
stored size is 20 x 30 as well: the difference of the two angles is not an `int` and wraps
around. -/
theorem C28_rotation_to_zero_keeps_swapped_size :
    secondOfTwo.imageRotation = 0 ∧
    secondOfTwo.currentSize = (30, 20) ∧
    (rotateAll secondOfTwo [90, 0]).imageRotation = 0 ∧
    (rotateAll secondOfTwo [90, 0]).currentSize = (20, 30) ∧
    (rotateAll secondOfTwo [-180, 2147483520]).imageRotation = 90 * 23860928 ∧
    (rotateAll secondOfTwo [-180, 2147483520]).currentSize = (20, 30) := by
  decide

/-- C28, amended: for every sequence of `setCurrentRotation` calls whose angles are non-zero
multiples of 90 and in which the difference between each angle and the rotation it replaces
lies within the range of `int`, starting from rotation 0 on an image of size (w, h), the
rotation after the sequence is a multiple of 90 and the stored size is (h, w) if it is an odd
multiple of 90 and (w, h) if it is an even multiple; a call with angle 0 leaves the stored
size as it is. -/
theorem C28_size_after_nonzero_rotations (s : GlobalControl) (angles : List Int)
    (h0 : s.imageRotation = 0) (hall : ∀ a ∈ angles, a ≠ 0 ∧ 90 ∣ a)
    (hrange : List.Chain (fun b a => INT_MIN ≤ a - b ∧ a - b ≤ INT_MAX) 0 angles) :
    90 ∣ (rotateAll s angles).imageRotation ∧
    (∀ k : Int, (rotateAll s angles).imageRotation = 90 * k →
      (Odd k → (rotateAll s angles).currentSize = (s.currentSize.2, s.currentSize.1)) ∧
      (Even k → (rotateAll s angles).currentSize = s.currentSize)) ∧
    (∀ t : GlobalControl, (t.setCurrentRotation 0).currentSize = t.currentSize) := by
  have h := rotateAll_size s.currentSize angles s hall (by rw [h0]; exact hrange)
    (by simp [h0]) (by simp [h0])
  refine ⟨h.2, ?_, ?_⟩
  · intro k hk
    rw [h.1, hk]
    constructor
    · intro hodd
      have : ¬ (180 : Int) ∣ 90 * k := by
        rw [Int.odd_iff] at hodd
        omega
      simp [this]
    · intro heven
      have : (180 : Int) ∣ 90 * k := by
        rw [Int.even_iff] at heven
        omega
      simp [this]
  · intro t
    rw [currentSize_setCurrentRotation]
    simp

/-- C28, amended, at an input: on a loaded 30 x 20 image the calls with 90, 180 and 270 leave
the rotation at 270 = 90 * 3 and the size 20 x 30. -/
theorem C28_size_after_nonzero_rotations_witness :
    (rotateAll secondOfTwo [90, 180, 270]).imageRotation = 270 ∧
    (rotateAll secondOfTwo [90, 180, 270]).currentSize = (20, 30) :=
  ⟨by decide,
   by
    have h := ((C28_size_after_nonzero_rotations secondOfTwo [90, 180, 270] (by decide)
      (by decide) (by simp [INT_MIN, INT_MAX])).2.1 3 (by decide)).1 (by decide)
    rw [h]
    decide⟩

end GlobalControl

/-! ## GlobalControl: the submit timer while a rotation is pending -/

namespace GlobalControl

open Examples

theorem commitScheduled_of_zero (s : GlobalControl) (h : s.imageRotation = 0) :
    CommitScheduled s := fun hne => absurd h hne

theorem commitScheduled_setCurrentRotation (s : GlobalControl) (angle : Int)
    (h : CommitScheduled s) : CommitScheduled (s.setCurrentRotation angle) := by
  intro hne
  rw [setCurrentRotation_submitTimer]
  split_ifs with hc
  · rfl
  · simp only [ne_eq, not_not] at hc
    rw [setCurrentRotation_imageRotation] at hne
    exact h (by rw [hc]; exact hne)

theorem commitScheduled_indexStep (s : GlobalControl) (index : Int)
    (h : CommitScheduled s) : CommitScheduled (s.indexStep index) := by
  simp only [indexStep]
  split_ifs
  · exact commitScheduled_of_zero _ (by simp)
  · exact h

theorem commitScheduled_frameStep (s : GlobalControl) (frameIndex : Int)
    (h : CommitScheduled s) : CommitScheduled (s.frameStep frameIndex) := by
  simp only [frameStep]
  split_ifs
  · exact commitScheduled_of_zero _ (by simp)
  · exact h

theorem commitScheduled_setIndexAndFrameIndex (s : GlobalControl) (index frameIndex : Int)
    (h : CommitScheduled s) : CommitScheduled (s.setIndexAndFrameIndex index frameIndex) := by
  have h2 := commitScheduled_frameStep _ frameIndex (commitScheduled_indexStep s index h)
  rw [setIndexAndFrameIndex_eq]
  intro hne
  simp only [emit_imageRotation, checkSwitchEnable_imageRotation, emit_submitTimer,
    checkSwitchEnable_submitTimer] at hne ⊢
  exact h2 hne

/-- Every operation keeps a pending rotation scheduled for commit. -/
theorem commitScheduled_step (s : GlobalControl) (op : Op) (h : CommitScheduled s) :
    CommitScheduled (step s op) := by
  have hnav : ∀ i f, (s.submitImageChangeImmediately.setIndexAndFrameIndex i f).imageRotation
      = 0 := fun i f => (setIndexAndFrameIndex_after_submit s i f).1
  cases op with
  | setCurrentRotation angle => exact commitScheduled_setCurrentRotation s angle h
  | submitImageChangeImmediately => exact commitScheduled_of_zero _ (by simp [step])
  | removeImage url =>
    exact commitScheduled_of_zero _ (settled_removeImage false s url (by simp)).1
  | setCurrentIndex index => exact commitScheduled_setIndexAndFrameIndex s _ _ h
  | setCurrentFrameIndex frameIndex => exact commitScheduled_setIndexAndFrameIndex s _ _ h
  | previousImage =>
    apply commitScheduled_of_zero
    simp only [step, previousImage]
    split_ifs <;> first | exact hnav _ _ | simp
  | nextImage =>
    apply commitScheduled_of_zero
    simp only [step, nextImage]
    split_ifs <;> first | exact hnav _ _ | simp
  | firstImage =>
    apply commitScheduled_of_zero
    simp only [step, firstImage]
    split_ifs <;> first | exact hnav _ _ | simp
  | lastImage =>
    apply commitScheduled_of_zero
    simp only [step, lastImage]
    split_ifs <;> first | exact hnav _ _ | simp
  | timerEvent isSubmitTimer =>
    cases isSubmitTimer with
    | true => exact commitScheduled_of_zero _ (by simp [step, timerEvent])
    | false => simpa [step, timerEvent] using h

theorem commitScheduled_exec (ops : List Op) :
    ∀ s : GlobalControl, CommitScheduled s → CommitScheduled (exec s ops) := by
  induction ops with
  | nil =>
    intro s h
    exact h
  | cons op rest ih =>
    intro s h
    exact ih _ (commitScheduled_step s op h)

/-- C29: in every state reached from a state in which a pending rotation has its timer
active (in particular from every state without pending rotation, such as the constructed
controller) through any sequence of `setCurrentRotation`, `submitImageChangeImmediately`,
`removeImage`, the navigation operations and timer events, a non-zero pending rotation implies
that the submit timer is active. -/
theorem C29_pending_rotation_has_active_timer (s : GlobalControl) (ops : List Op)
    (h : s.imageRotation ≠ 0 → s.submitTimer = true) :
    (exec s ops).imageRotation ≠ 0 → (exec s ops).submitTimer = true :=
  commitScheduled_exec ops s h

/-- C29, at an input: after a rotation by 90, a timer event of another timer, a step to the
next image (which commits) and a rotation by 180, the rotation 180 is pending and the timer
is active. -/
theorem C29_pending_rotation_has_active_timer_witness :
    (exec fiveImages [Op.setCurrentRotation 90, Op.timerEvent false, Op.nextImage,
      Op.setCurrentRotation 180]).imageRotation = 180 ∧
    (exec fiveImages [Op.setCurrentRotation 90, Op.timerEvent false, Op.nextImage,
      Op.setCurrentRotation 180]).submitTimer = true :=
  ⟨by decide,
   C29_pending_rotation_has_active_timer fiveImages _ (by decide) (by decide)⟩

end GlobalControl

/-! ## GlobalControl: removal of the current image -/

namespace ImageSourceModel

theorem getD_erase_getD (m : List QUrl) (i j : Nat) (hm : m.Nodup) (hi : i < m.length) :
    (m.erase (m.getD i QUrl.empty)).getD j QUrl.empty =
      if j < i then m.getD j QUrl.empty else m.getD (j + 1) QUrl.empty := by
  rw [List.getD_eq_getElem _ _ hi, hm.erase_getElem i hi]
  simp only [List.getD_eq_getElem?_getD, List.getElem?_eraseIdx]
  split_ifs <;> rfl

/-- The rows of the collection after the removal of the image at row `i`: the rows before
`i` stay, the rows from `i` on hold the images that followed. -/
theorem data_removeImage (m : List QUrl) (i j : Int) (hm : m.Nodup) (hi0 : 0 ≤ i)
    (hi : i < rowCount m) (hj : 0 ≤ j) :
    data (removeImage m (data m i)) j = if j < i then data m j else data m (j + 1) := by
  have hi2 : i.toNat < m.length := by
    simp only [rowCount] at hi
    omega
  have hj1 : 0 ≤ j + 1 := by omega
  simp only [data, removeImage, hi0, hj, hj1, if_true]
  rw [getD_erase_getD m i.toNat j.toNat hm hi2]
  have e : (j + 1).toNat = j.toNat + 1 := by omega
  rw [e]
  by_cases h : j < i
  · rw [if_pos h, if_pos (by omega)]
  · rw [if_neg h, if_neg (by omega)]

theorem rowCount_removeImage (m : List QUrl) (i : Int) (hm : m.Nodup) (hi0 : 0 ≤ i)
    (hi : i < rowCount m) : rowCount (removeImage m (data m i)) = rowCount m - 1 := by
  have hi2 : i.toNat < m.length := by
    simp only [rowCount] at hi
    omega
  simp only [data, removeImage, hi0, if_true, rowCount]
  rw [List.getD_eq_getElem _ _ hi2, hm.erase_getElem i.toNat hi2,
    List.length_eraseIdx_of_lt hi2]
  omega

end ImageSourceModel

namespace GlobalControl

open Examples

/-- The source of the handle after `setIndexAndFrameIndex`. -/
theorem setIndexAndFrameIndex_imageUrl (s : GlobalControl) (index frameIndex : Int) :
    (s.setIndexAndFrameIndex index frameIndex).currentImage.imageUrl =
      if s.curIndex ≠ qBound 0 index (s.imageCount - 1) then
        ImageSourceModel.data s.sourceModel (qBound 0 index (s.imageCount - 1))
      else s.currentImage.imageUrl := by
  rw [setIndexAndFrameIndex_eq]
  simp only [emit_currentImage, checkSwitchEnable_currentImage, frameStep_currentImage,
    indexStep]
  split_ifs <;> simp

/-- The frame index after `setIndexAndFrameIndex`. -/
theorem setIndexAndFrameIndex_curFrameIndex (s : GlobalControl) (index frameIndex : Int) :
    (s.setIndexAndFrameIndex index frameIndex).curFrameIndex =
      qBound 0 frameIndex (max 0 (ImageInfo.frameCount (s.indexStep index).env
        (s.indexStep index).currentImage - 1)) := by
  rw [setIndexAndFrameIndex_eq]
  simp

/-- C26: `removeImage` of the image at the current index `i` of a collection of `n ≥ 2`
distinct images, with `0 ≤ i ≤ n - 1` and no pending rotation: if `i < n - 1`, afterwards
currentIndex is still `i`, currentFrameIndex is 0 and the current source is the image formerly
at `i + 1`; if `i = n - 1`, afterwards currentIndex is `n - 2` and the current source is the
image formerly at `n - 2`. In both cases `0 ≤ currentIndex ≤ (n - 1) - 1`. -/
theorem C26_removeImage_of_current_image (s : GlobalControl) (i : Int)
    (hn : 2 ≤ s.imageCount) (hi0 : 0 ≤ i) (hi1 : i ≤ s.imageCount - 1) (hcur : s.curIndex = i)
    (hm : s.sourceModel.Nodup) (hrot : s.imageRotation = 0) :
    (i < s.imageCount - 1 →
      (s.removeImage (ImageSourceModel.data s.sourceModel i)).currentIndex = i ∧
      (s.removeImage (ImageSourceModel.data s.sourceModel i)).currentFrameIndex = 0 ∧
      (s.removeImage (ImageSourceModel.data s.sourceModel i)).currentSource =
        ImageSourceModel.data s.sourceModel (i + 1)) ∧
    (i = s.imageCount - 1 →
      (s.removeImage (ImageSourceModel.data s.sourceModel i)).currentIndex =
        s.imageCount - 2 ∧
      (s.removeImage (ImageSourceModel.data s.sourceModel i)).currentSource =
        ImageSourceModel.data s.sourceModel (s.imageCount - 2)) ∧
    0 ≤ (s.removeImage (ImageSourceModel.data s.sourceModel i)).currentIndex ∧
    (s.removeImage (ImageSourceModel.data s.sourceModel i)).currentIndex ≤
      (s.imageCount - 1) - 1 := by
  simp only [imageCount] at hn hi1 ⊢
  have hrow := ImageSourceModel.rowCount_removeImage s.sourceModel i hm hi0 (by omega)
  have hdata := ImageSourceModel.data_removeImage s.sourceModel i
  generalize hurl : ImageSourceModel.data s.sourceModel i = url at hrow hdata ⊢
  unfold removeImage
  lift_lets
  intro src s1 atEnd s2 s3 image r a image2 r2 a2 s4
  have hs1 : s1 = s := by simp [s1, currentRotation, hrot]
  have hs3c : s3.curIndex = i := by
    simp only [s3, s2, hs1]
    split_ifs <;> simpa using hcur
  have hs3m : s3.sourceModel = ImageSourceModel.removeImage s.sourceModel url := by
    simp only [s3, s2, hs1]
    split_ifs <;> simp
  have hfin : ∀ t : GlobalControl,
      (t.checkSwitchEnable.emit [Event.imageCountChanged]).currentIndex = t.curIndex ∧
      (t.checkSwitchEnable.emit [Event.imageCountChanged]).currentFrameIndex = t.curFrameIndex ∧
      (t.checkSwitchEnable.emit [Event.imageCountChanged]).currentSource =
        t.currentImage.imageUrl := by
    intro t
    simp [currentIndex, currentFrameIndex, currentSource, ImageInfo.source]
  have hlow : i < ImageSourceModel.rowCount s.sourceModel - 1 →
      s4.curIndex = i ∧ s4.curFrameIndex = 0 ∧
      s4.currentImage.imageUrl = ImageSourceModel.data s.sourceModel (i + 1) := by
    intro hlt
    have hat : atEnd = false := by
      simp only [atEnd, hs1, hcur, decide_eq_false_iff_not]
      omega
    have hq : qBound 0 i (ImageSourceModel.rowCount s.sourceModel - 1 - 1) = i := by
      simp only [qBound]
      omega
    simp only [s4, hat, Bool.not_false, if_true, emit_curIndex, emit_curFrameIndex,
      emit_currentImage, a]
    refine ⟨?_, ?_, ?_⟩
    · rw [setIndexAndFrameIndex_curIndex]
      simp only [hs3c]
      split_ifs <;> rfl
    · rw [setIndexAndFrameIndex_curFrameIndex]
      simp only [qBound]
      omega
    · rw [setIndexAndFrameIndex_imageUrl]
      simp only [imageCount, hs3m, hs3c, hrow, hq, ne_eq, not_true_eq_false, if_false, r,
        ImageInfo.setSource_imageUrl, image]
      rw [hdata i hm hi0 (by omega) hi0, if_neg (lt_irrefl i)]
  have hhigh : i = ImageSourceModel.rowCount s.sourceModel - 1 →
      s4.curIndex = ImageSourceModel.rowCount s.sourceModel - 2 ∧
      s4.currentImage.imageUrl =
        ImageSourceModel.data s.sourceModel (ImageSourceModel.rowCount s.sourceModel - 2) := by
    intro heq
    have hat : atEnd = true := by
      simp only [atEnd, hs1, hcur, decide_eq_true_eq]
      omega
    have hq : qBound 0 (i - 1) (ImageSourceModel.rowCount s.sourceModel - 1 - 1) = i - 1 := by
      simp only [qBound]
      omega
    have hne : ImageSourceModel.rowCount s3.sourceModel ≠ 0 := by
      rw [hs3m, hrow]
      omega
    have hi2 : i - 1 = ImageSourceModel.rowCount s.sourceModel - 2 := by omega
    simp only [s4, hat, Bool.not_true, Bool.false_eq_true, if_false, hne, ne_eq,
      not_false_eq_true, if_true, emit_curIndex, emit_currentImage, a2]
    refine ⟨?_, ?_⟩
    · rw [setIndexAndFrameIndex_curIndex]
      simp only [imageCount, hs3m, hs3c, hrow, hq]
      rw [if_pos (by omega), hi2]
    · rw [setIndexAndFrameIndex_imageUrl]
      simp only [imageCount, hs3m, hs3c, hrow, hq]
      rw [if_pos (by omega), hdata (i - 1) hm hi0 (by omega) (by omega),
        if_pos (by omega), hi2]
  obtain ⟨f1, f2, f3⟩ := hfin s4
  rw [f1, f2, f3]
  refine ⟨hlow, hhigh, ?_⟩
  rcases lt_or_eq_of_le hi1 with hlt | heq
  · rw [(hlow hlt).1]
    omega
  · rw [(hhigh heq).1]
    omega

/-- C26, at inputs: with the five images of `fiveImages` and the first one current, its
removal leaves index 0 with the source `/b`; with the last of two images current, its removal
leaves index 0 with the source `/a`. -/
theorem C26_removeImage_of_current_image_witness :
    (fiveImages.removeImage (fileUrl "/a")).currentIndex = 0 ∧
    (fiveImages.removeImage (fileUrl "/a")).currentFrameIndex = 0 ∧
    (fiveImages.removeImage (fileUrl "/a")).currentSource = fileUrl "/b" ∧
    (secondOfTwo.removeImage (fileUrl "/b")).currentIndex = 0 ∧
    (secondOfTwo.removeImage (fileUrl "/b")).currentSource = fileUrl "/a" :=
  have h1 := (C26_removeImage_of_current_image fiveImages 0 (by decide) (by decide)
    (by decide) (by decide) (by decide) (by decide)).1 (by decide)
  have h2 := (C26_removeImage_of_current_image secondOfTwo 1 (by decide) (by decide)
    (by decide) (by decide) (by decide) (by decide)).2.1 (by decide)
  ⟨h1.1, h1.2.1, h1.2.2, h2.1, h2.2⟩

end GlobalControl

/-! ## GlobalControl: a step forward and back -/

namespace ImageInfoCache

@[simp] theorem load_cache (c : ImageInfoCache) (mt : Bool) (path : String) (frameIndex : Int)
    (reload : Bool) : (c.load mt path frameIndex reload).cache = c.cache := by
  unfold load
  split_ifs <;> rfl

end ImageInfoCache

namespace ImageInfo

@[simp] theorem setStatus_cache (g : Globals) (h : ImageInfo) (st : Status) :
    (setStatus g h st).1.cacheInstance.cache = g.cacheInstance.cache := by
  rw [setStatus_cacheInstance]

theorem refreshDataFromCache_cache (g : Globals) (h : ImageInfo) (r : Bool) :
    (refreshDataFromCache g h r).1.cacheInstance.cache = g.cacheInstance.cache := by
  unfold refreshDataFromCache
  by_cases h0 : h.imageUrl.toLocalFile = ""
  · simp [h0]
  · cases hf : g.cacheInstance.find h.imageUrl.toLocalFile h.currentIndex with
    | none => cases r <;> simp [h0]
    | some p =>
      cases hd : h.data with
      | none => simp [h0, Globals.emit]
      | some o =>
        by_cases hu : (updateData g h o p).2 = true <;> simp [h0, hu, Globals.emit]

theorem setSource_cache (g : Globals) (h : ImageInfo) (u : QUrl) :
    (setSource g h u).1.cacheInstance.cache = g.cacheInstance.cache := by
  unfold setSource
  split_ifs
  · rw [refreshDataFromCache_cache]
    rfl
  · rfl

/-- The record a handle holds after `setSource` to a local file whose metadata is cached. -/
theorem setSource_data (g : Globals) (h : ImageInfo) (u : QUrl) (p : Ptr)
    (hpath : u.toLocalFile ≠ "")
    (hc : g.cacheInstance.find u.toLocalFile h.currentIndex = some p) :
    (setSource g h u).2.data = if h.imageUrl ≠ u then some p else h.data := by
  split_ifs with hne
  · exact setSource_data_of_cached g h u p hne hpath hc
  · simp [setSource, hne]

end ImageInfo

namespace GlobalControl

open Examples

theorem indexStep_cache (s : GlobalControl) (index : Int) :
    (s.indexStep index).env.cacheInstance.cache = s.env.cacheInstance.cache := by
  simp only [indexStep]
  split_ifs
  · simp [ImageInfo.setSource_cache]
  · rfl

theorem frameStep_cache (s : GlobalControl) (frameIndex : Int) :
    (s.frameStep frameIndex).env.cacheInstance.cache = s.env.cacheInstance.cache := by
  simp only [frameStep]
  split_ifs <;> simp

theorem setIndexAndFrameIndex_cache (s : GlobalControl) (index frameIndex : Int) :
    (s.setIndexAndFrameIndex index frameIndex).env.cacheInstance.cache =
      s.env.cacheInstance.cache := by
  rw [setIndexAndFrameIndex_eq]
  simp [frameStep_cache, indexStep_cache]

theorem indexStep_frameKey (s : GlobalControl) (index : Int) :
    (s.indexStep index).currentImage.currentIndex = s.currentImage.currentIndex := by
  simp only [indexStep]
  split_ifs <;> simp

/-- The first block leaves a state alone whose index is the clamped index. -/
theorem indexStep_of_eq (s : GlobalControl) (index : Int)
    (h : s.curIndex = qBound 0 index (s.imageCount - 1)) : s.indexStep index = s := by
  simp [indexStep, h]

/-- The handle after the first block moved to another row whose metadata is cached. -/
theorem indexStep_to_cached (s : GlobalControl) (index : Int) (p : Ptr)
    (hv : s.curIndex ≠ qBound 0 index (s.imageCount - 1))
    (hpath : (ImageSourceModel.data s.sourceModel
      (qBound 0 index (s.imageCount - 1))).toLocalFile ≠ "")
    (hc : s.env.cacheInstance.find
      (ImageSourceModel.data s.sourceModel (qBound 0 index (s.imageCount - 1))).toLocalFile
      s.currentImage.currentIndex = some p) :
    (s.indexStep index).currentImage.data =
      (if s.currentImage.imageUrl ≠
          ImageSourceModel.data s.sourceModel (qBound 0 index (s.imageCount - 1)) then some p
        else s.currentImage.data) ∧
    (s.indexStep index).currentImage.imageUrl =
      ImageSourceModel.data s.sourceModel (qBound 0 index (s.imageCount - 1)) := by
  simp only [indexStep, if_pos hv]
  simp only [emit_currentImage, submitImageChangeImmediately_sourceModel,
    submitImageChangeImmediately_currentImage, ImageInfo.setSource_imageUrl, and_true]
  exact ImageInfo.setSource_data _ _ _ p hpath (by simpa using hc)

theorem submit_type (s : GlobalControl) :
    ImageInfo.type s.submitImageChangeImmediately.env s.submitImageChangeImmediately.currentImage
      = ImageInfo.type s.env s.currentImage :=
  ImageInfo.type_congr _ _ _ _ (by simp) (by simp)

theorem submit_frameCount (s : GlobalControl) :
    ImageInfo.frameCount s.submitImageChangeImmediately.env
        s.submitImageChangeImmediately.currentImage
      = ImageInfo.frameCount s.env s.currentImage :=
  ImageInfo.frameCount_congr _ _ _ _ (by simp) (by simp)

/-- The two ways in which `nextImage` returns true. -/
theorem nextImage_cases (s : GlobalControl) (h : s.nextImage.2 = true) :
    (ImageInfo.type s.env s.currentImage = Types.ImageType.MultiImage ∧
      s.curFrameIndex < ImageInfo.frameCount s.env s.currentImage - 1 ∧
      s.nextImage.1 =
        s.submitImageChangeImmediately.setIndexAndFrameIndex s.curIndex (s.curFrameIndex + 1)) ∨
    (¬ (ImageInfo.type s.env s.currentImage = Types.ImageType.MultiImage ∧
        s.curFrameIndex < ImageInfo.frameCount s.env s.currentImage - 1) ∧
      s.curIndex < ImageSourceModel.rowCount s.sourceModel - 1 ∧
      s.nextImage.1 = s.submitImageChangeImmediately.setIndexAndFrameIndex (s.curIndex + 1) 0) := by
  simp only [nextImage, hasNextImage, submitImageChangeImmediately_hasNext, submit_type,
    submit_frameCount, submitImageChangeImmediately_curFrameIndex,
    submitImageChangeImmediately_curIndex, submitImageChangeImmediately_sourceModel] at h ⊢
  split_ifs at h ⊢ with h1 h2 h3
  · exact Or.inl ⟨h2.1, h2.2, rfl⟩
  · exact Or.inr ⟨h2, h3, rfl⟩

theorem previousImage_of_multi (t : GlobalControl) (hp : t.hasPrevious = true)
    (hty : ImageInfo.type t.env t.currentImage = Types.ImageType.MultiImage)
    (hf : t.curFrameIndex > 0) :
    t.previousImage =
      (t.submitImageChangeImmediately.setIndexAndFrameIndex t.curIndex (t.curFrameIndex - 1),
        true) := by
  simp only [previousImage, hasPreviousImage, submitImageChangeImmediately_hasPrevious,
    submit_type, submitImageChangeImmediately_curFrameIndex,
    submitImageChangeImmediately_curIndex, hp, hty, hf, and_self, if_true]

theorem previousImage_of_first_frame (t : GlobalControl) (hp : t.hasPrevious = true)
    (hf : t.curFrameIndex = 0) (hi : t.curIndex > 0) :
    t.previousImage =
      (t.submitImageChangeImmediately.setIndexAndFrameIndex (t.curIndex - 1) INT_MAX, true) := by
  simp only [previousImage, hasPreviousImage, submitImageChangeImmediately_hasPrevious,
    submit_type, submitImageChangeImmediately_curFrameIndex,
    submitImageChangeImmediately_curIndex, hp, hf, hi, if_true]
  rw [if_neg (by simp)]

theorem setIndexAndFrameIndex_hasPrevious (s : GlobalControl) (index frameIndex : Int) :
    (s.setIndexAndFrameIndex index frameIndex).hasPrevious =
      decide ((s.setIndexAndFrameIndex index frameIndex).curIndex > 0 ∨
        (s.setIndexAndFrameIndex index frameIndex).curFrameIndex > 0) := by
  rw [setIndexAndFrameIndex_eq]
  simp

/-- C5, as stated, fails: of two images the first, a loaded one with 3 frames, is current and
no metadata is cached for the second. After `setIndexAndFrameIndex(1, 0)` the state is
(1, 0) on the last image, whose frame count is 1, and `hasNextImage()` is true: the handle
still reports the 3 frames of the image it left. A following `nextImage()` returns true and
moves to (1, 1). -/
theorem C5_next_flag_uses_frame_count_of_left_image :
    multiThenUncached.curIndex = 0 ∧
    multiThenUncached.imageCount = 2 ∧
    (multiThenUncached.setIndexAndFrameIndex 1 0).currentIndex = 1 ∧
    (multiThenUncached.setIndexAndFrameIndex 1 0).currentFrameIndex = 0 ∧
    (multiThenUncached.setIndexAndFrameIndex 1 0).imageCount = 2 ∧
    (multiThenUncached.setIndexAndFrameIndex 1 0).currentSource = fileUrl "/a" ∧
    (multiThenUncached.setIndexAndFrameIndex 1 0).frameCountAt 1 = 1 ∧
    (multiThenUncached.setIndexAndFrameIndex 1 0).hasNextImage = true ∧
    ¬ ((multiThenUncached.setIndexAndFrameIndex 1 0).currentIndex <
        (multiThenUncached.setIndexAndFrameIndex 1 0).imageCount - 1 ∨
      (multiThenUncached.setIndexAndFrameIndex 1 0).currentFrameIndex <
        (multiThenUncached.setIndexAndFrameIndex 1 0).frameCountAt 1 - 1) ∧
    (multiThenUncached.setIndexAndFrameIndex 1 0).nextImage.2 = true ∧
    (multiThenUncached.setIndexAndFrameIndex 1 0).nextImage.1.curIndex = 1 ∧
    (multiThenUncached.setIndexAndFrameIndex 1 0).nextImage.1.curFrameIndex = 1 := by
  decide

theorem setIndexAndFrameIndex_env_heap (s : GlobalControl) (index frameIndex : Int) :
    (s.setIndexAndFrameIndex index frameIndex).env.heap = s.env.heap := by
  rw [setIndexAndFrameIndex_eq]
  simp

theorem setIndexAndFrameIndex_frameKey (s : GlobalControl) (index frameIndex : Int) :
    (s.setIndexAndFrameIndex index frameIndex).currentImage.currentIndex =
      s.currentImage.currentIndex := by
  rw [setIndexAndFrameIndex_eq]
  simp [indexStep_frameKey]

/-- The record the handle holds after the first block of `setIndexAndFrameIndex` when the metadata of the image
at the clamped index is cached and a handle that stays on its source holds that record. -/
theorem indexStep_data_of_cached (s : GlobalControl) (index : Int) (p : Ptr)
    (hpath : (ImageSourceModel.data s.sourceModel
      (qBound 0 index (s.imageCount - 1))).toLocalFile ≠ "")
    (hc : s.env.cacheInstance.find
      (ImageSourceModel.data s.sourceModel (qBound 0 index (s.imageCount - 1))).toLocalFile
      s.currentImage.currentIndex = some p)
    (hcur : s.curIndex = qBound 0 index (s.imageCount - 1) ∨
      s.currentImage.imageUrl =
        ImageSourceModel.data s.sourceModel (qBound 0 index (s.imageCount - 1)) →
      s.currentImage.data = some p) :
    (s.indexStep index).currentImage.data = some p := by
  by_cases hv : s.curIndex = qBound 0 index (s.imageCount - 1)
  · rw [indexStep_of_eq s index hv]
    exact hcur (Or.inl hv)
  · rw [(indexStep_to_cached s index p hv hpath hc).1]
    split_ifs with hu
    · rfl
    · exact hcur (Or.inr (by simpa using hu))

/-- C5, amended: after every `setIndexAndFrameIndex` call, `hasPreviousImage()` is true
exactly when currentIndex > 0 or currentFrameIndex > 0, and `hasNextImage()` is true exactly
when currentIndex < imageCount - 1 or currentFrameIndex < frameCount - 1, where frameCount is
the count the current handle reports (`ImageInfo::frameCount`). When the metadata of the image
at the clamped index, a local file, is cached, and a handle that the call leaves on its source
holds that record, the count the handle reports is the cached frame count of that image, the
current one. With five images whose metadata records are all single-frame, after a call with
index 0 `hasPreviousImage()` is false and after a call with index 4 `hasNextImage()` is
false. -/
theorem C5_switch_flags_after_setIndexAndFrameIndex (s : GlobalControl)
    (index frameIndex : Int) :
    ((s.setIndexAndFrameIndex index frameIndex).hasPreviousImage = true ↔
      (s.setIndexAndFrameIndex index frameIndex).currentIndex > 0 ∨
      (s.setIndexAndFrameIndex index frameIndex).currentFrameIndex > 0) ∧
    ((s.setIndexAndFrameIndex index frameIndex).hasNextImage = true ↔
      (s.setIndexAndFrameIndex index frameIndex).currentIndex <
        (s.setIndexAndFrameIndex index frameIndex).imageCount - 1 ∨
      (s.setIndexAndFrameIndex index frameIndex).currentFrameIndex <
        ImageInfo.frameCount (s.setIndexAndFrameIndex index frameIndex).env
          (s.setIndexAndFrameIndex index frameIndex).currentImage - 1) ∧
    (∀ p : Ptr,
      (ImageSourceModel.data s.sourceModel
        (qBound 0 index (s.imageCount - 1))).toLocalFile ≠ "" →
      s.env.cacheInstance.find
        (ImageSourceModel.data s.sourceModel (qBound 0 index (s.imageCount - 1))).toLocalFile
        s.currentImage.currentIndex = some p →
      (s.curIndex = qBound 0 index (s.imageCount - 1) ∨
        s.currentImage.imageUrl =
          ImageSourceModel.data s.sourceModel (qBound 0 index (s.imageCount - 1)) →
        s.currentImage.data = some p) →
      (s.setIndexAndFrameIndex index frameIndex).frameCountAt
          (qBound 0 index (s.imageCount - 1)) = (s.env.heap p).frameCount ∧
      ImageInfo.frameCount (s.setIndexAndFrameIndex index frameIndex).env
          (s.setIndexAndFrameIndex index frameIndex).currentImage =
        (s.setIndexAndFrameIndex index frameIndex).frameCountAt
          (qBound 0 index (s.imageCount - 1)) ∧
      ((s.setIndexAndFrameIndex index frameIndex).hasNextImage = true ↔
        (s.setIndexAndFrameIndex index frameIndex).currentIndex <
          (s.setIndexAndFrameIndex index frameIndex).imageCount - 1 ∨
        (s.setIndexAndFrameIndex index frameIndex).currentFrameIndex <
          (s.setIndexAndFrameIndex index frameIndex).frameCountAt
            (qBound 0 index (s.imageCount - 1)) - 1)) ∧
    (s.imageCount = 5 → (∀ p, (s.env.heap p).frameCount ≤ 1) →
      (s.setIndexAndFrameIndex 0 frameIndex).currentIndex = 0 ∧
      (s.setIndexAndFrameIndex 0 frameIndex).hasPreviousImage = false ∧
      (s.setIndexAndFrameIndex 4 frameIndex).currentIndex = 4 ∧
      (s.setIndexAndFrameIndex 4 frameIndex).hasNextImage = false) := by
  have key : ∀ (i f : Int),
      ((s.setIndexAndFrameIndex i f).hasPrevious = true ↔
        (s.setIndexAndFrameIndex i f).curIndex > 0 ∨
        (s.setIndexAndFrameIndex i f).curFrameIndex > 0) ∧
      ((s.setIndexAndFrameIndex i f).hasNext = true ↔
        (s.setIndexAndFrameIndex i f).curIndex <
          ImageSourceModel.rowCount (s.setIndexAndFrameIndex i f).sourceModel - 1 ∨
        (s.setIndexAndFrameIndex i f).curFrameIndex <
          ImageInfo.frameCount (s.setIndexAndFrameIndex i f).env
            (s.setIndexAndFrameIndex i f).currentImage - 1) := by
    intro i f
    have hfc := setIndexAndFrameIndex_frameCount s i f
    rw [hfc]
    rw [setIndexAndFrameIndex_eq]
    have hfc2 : ImageInfo.frameCount ((s.indexStep i).frameStep f).env
        ((s.indexStep i).frameStep f).currentImage =
        ImageInfo.frameCount (s.indexStep i).env (s.indexStep i).currentImage :=
      ImageInfo.frameCount_congr _ _ _ _ (by simp) (by simp)
    simp only [emit_hasPrevious, emit_hasNext, emit_curIndex, emit_curFrameIndex,
      emit_sourceModel, checkSwitchEnable_hasPrevious, checkSwitchEnable_hasNext,
      checkSwitchEnable_curIndex, checkSwitchEnable_curFrameIndex,
      checkSwitchEnable_sourceModel, decide_eq_true_eq, hfc2, and_self]
  refine ⟨(key index frameIndex).1, (key index frameIndex).2, ?_, ?_⟩
  · intro p hpath hc hcur
    have hat : (s.setIndexAndFrameIndex index frameIndex).frameCountAt
        (qBound 0 index (s.imageCount - 1)) = (s.env.heap p).frameCount := by
      simp only [frameCountAt, ImageInfoCache.find, setIndexAndFrameIndex_cache,
        setIndexAndFrameIndex_sourceModel, setIndexAndFrameIndex_frameKey,
        setIndexAndFrameIndex_env_heap]
      simp only [ImageInfoCache.find] at hc
      rw [hc]
    have hfc : ImageInfo.frameCount (s.setIndexAndFrameIndex index frameIndex).env
        (s.setIndexAndFrameIndex index frameIndex).currentImage = (s.env.heap p).frameCount := by
      rw [setIndexAndFrameIndex_frameCount]
      simp only [ImageInfo.frameCount, indexStep_data_of_cached s index p hpath hc hcur,
        indexStep_env_heap]
    refine ⟨hat, by rw [hfc, hat], ?_⟩
    rw [hat, ← hfc]
    exact (key index frameIndex).2
  intro h5 hsingle
  have hframe : ∀ i, (s.setIndexAndFrameIndex i frameIndex).curFrameIndex = 0 := by
    intro i
    rw [setIndexAndFrameIndex_eq]
    simp only [emit_curFrameIndex, checkSwitchEnable_curFrameIndex, frameStep_curFrameIndex]
    have hle : ImageInfo.frameCount (s.indexStep i).env (s.indexStep i).currentImage ≤ 1 := by
      simp only [ImageInfo.frameCount, indexStep_env_heap]
      split
      · exact hsingle _
      · exact le_refl 1
    simp only [qBound]
    omega
  have hfc : ∀ i, ImageInfo.frameCount (s.setIndexAndFrameIndex i frameIndex).env
      (s.setIndexAndFrameIndex i frameIndex).currentImage ≤ 1 := by
    intro i
    rw [setIndexAndFrameIndex_frameCount]
    simp only [ImageInfo.frameCount, indexStep_env_heap]
    split
    · exact hsingle _
    · exact le_refl 1
  have h0 : (s.setIndexAndFrameIndex 0 frameIndex).curIndex = 0 := by
    rw [setIndexAndFrameIndex_curIndex, h5]
    simp only [qBound]
    split_ifs with h
    · rfl
    · simp only [ne_eq, not_not] at h
      rw [h]
      decide
  have h4 : (s.setIndexAndFrameIndex 4 frameIndex).curIndex = 4 := by
    rw [setIndexAndFrameIndex_curIndex, h5]
    simp only [qBound]
    split_ifs with h
    · rfl
    · simp only [ne_eq, not_not] at h
      rw [h]
      decide
  refine ⟨h0, ?_, h4, ?_⟩
  · have hk := (key 0 frameIndex).1
    simp only [hasPreviousImage]
    cases hb : (s.setIndexAndFrameIndex 0 frameIndex).hasPrevious with
    | false => rfl
    | true =>
      have := hk.mp hb
      rw [h0, hframe 0] at this
      omega
  · have hk := (key 4 frameIndex).2
    simp only [hasNextImage]
    cases hb : (s.setIndexAndFrameIndex 4 frameIndex).hasNext with
    | false => rfl
    | true =>
      have := hk.mp hb
      have hcount : ImageSourceModel.rowCount (s.setIndexAndFrameIndex 4 frameIndex).sourceModel
          = 5 := by
        simpa [imageCount] using h5
      rw [h4, hframe 4, hcount] at this
      have := hfc 4
      omega

/-- C5, amended, at inputs: with the five images of `fiveImages` the previous flag is off at
index 0 and the next flag is off at index 4; from the second of two images to the first one,
whose metadata is cached with 4 frames, the handle reports 4 frames. -/
theorem C5_switch_flags_after_setIndexAndFrameIndex_witness :
    (fiveImages.setIndexAndFrameIndex 0 0).hasPreviousImage = false ∧
    (fiveImages.setIndexAndFrameIndex 4 0).currentIndex = 4 ∧
    (fiveImages.setIndexAndFrameIndex 4 0).hasNextImage = false ∧
    (secondOfTwoCached.setIndexAndFrameIndex 0 0).frameCountAt 0 = 4 ∧
    ImageInfo.frameCount (secondOfTwoCached.setIndexAndFrameIndex 0 0).env
        (secondOfTwoCached.setIndexAndFrameIndex 0 0).currentImage =
      (secondOfTwoCached.setIndexAndFrameIndex 0 0).frameCountAt 0 :=
  have hs : ∀ p, (fiveImages.env.heap p).frameCount ≤ 1 := by
    intro p
    simp [fiveImages, freshGlobals]
  have h := (C5_switch_flags_after_setIndexAndFrameIndex fiveImages 0 0).2.2.2 (by decide) hs
  have h2 := (C5_switch_flags_after_setIndexAndFrameIndex secondOfTwoCached 0 0).2.2.1 1
    (by decide) (by decide) (by decide)
  ⟨h.2.1, h.2.2.1, h.2.2.2, h2.1, h2.2.1⟩

/-- C27: in every valid navigation state `(i, f)` over a collection whose metadata is all
cached (`ValidNavigation`: `0 ≤ i ≤ imageCount - 1`, `f = 0` on an image that is not
multi-page, `0 ≤ f ≤ frameCount - 1` on a multi-page image), whatever the previous and next
flags are: if `nextImage()` returns true, then an immediately following `previousImage()`
returns true and restores exactly `(i, f)`. -/
theorem C27_next_then_previous_restores (s : GlobalControl) (hv : ValidNavigation s)
    (hnext : s.nextImage.2 = true) :
    s.nextImage.1.previousImage.2 = true ∧
    s.nextImage.1.previousImage.1.currentIndex = s.currentIndex ∧
    s.nextImage.1.previousImage.1.currentFrameIndex = s.currentFrameIndex := by
  obtain ⟨hi0, hi1, hcached, hcurrent, hsingle, hmulti, hint⟩ := hv
  simp only [imageCount] at hi1 hcached
  simp only [currentIndex, currentFrameIndex]
  have hq : qBound 0 s.curIndex (ImageSourceModel.rowCount s.sourceModel - 1) = s.curIndex := by
    simp only [qBound]
    omega
  rcases nextImage_cases s hnext with ⟨hty, hlt, hstep⟩ | ⟨hnot, hlt, hstep⟩
  · -- a step to the next frame of the multi-page image
    obtain ⟨hf0, hf1⟩ := hmulti hty
    rw [hstep]
    set s1 := s.submitImageChangeImmediately with hs1
    have hs1i : s1.curIndex = qBound 0 s.curIndex (s1.imageCount - 1) := by
      simp [hs1, imageCount, hq]
    have hidx : s1.indexStep s.curIndex = s1 := indexStep_of_eq s1 _ hs1i
    set t := s1.setIndexAndFrameIndex s.curIndex (s.curFrameIndex + 1) with ht
    have hti : t.curIndex = s.curIndex := by
      rw [ht, setIndexAndFrameIndex_curIndex, if_neg (by simpa using hs1i)]
      simp [hs1]
    have htfc : ImageInfo.frameCount t.env t.currentImage =
        ImageInfo.frameCount s.env s.currentImage := by
      rw [ht, setIndexAndFrameIndex_frameCount, hidx, hs1, submit_frameCount]
    have htty : ImageInfo.type t.env t.currentImage = Types.ImageType.MultiImage := by
      rw [← hty, ← submit_type s, ← hs1, ← hidx, ht, setIndexAndFrameIndex_eq]
      exact ImageInfo.type_congr _ _ _ _ (by simp) (by simp)
    have htf : t.curFrameIndex = s.curFrameIndex + 1 := by
      rw [ht, setIndexAndFrameIndex_curFrameIndex, hidx, hs1, submit_frameCount]
      simp only [qBound]
      omega
    have htp : t.hasPrevious = true := by
      rw [ht, setIndexAndFrameIndex_hasPrevious, ← ht, htf]
      simp only [decide_eq_true_eq]
      omega
    have htm : t.sourceModel = s.sourceModel := by simp [ht, hs1]
    rw [previousImage_of_multi t htp htty (by omega)]
    set t1 := t.submitImageChangeImmediately with ht1
    have ht1i : t1.curIndex = qBound 0 t.curIndex (t1.imageCount - 1) := by
      simp [ht1, imageCount, htm, hti, hq]
    refine ⟨rfl, ?_, ?_⟩
    · show (t1.setIndexAndFrameIndex t.curIndex (t.curFrameIndex - 1)).curIndex = s.curIndex
      rw [setIndexAndFrameIndex_curIndex, if_neg (by simpa using ht1i)]
      simp [ht1, hti]
    · show (t1.setIndexAndFrameIndex t.curIndex (t.curFrameIndex - 1)).curFrameIndex
        = s.curFrameIndex
      rw [setIndexAndFrameIndex_curFrameIndex, indexStep_of_eq t1 _ ht1i, ht1,
        submit_frameCount, htfc, htf]
      simp only [qBound]
      omega
  · -- a step to the first frame of the next image
    rw [hstep]
    set s1 := s.submitImageChangeImmediately with hs1
    set t := s1.setIndexAndFrameIndex (s.curIndex + 1) 0 with ht
    obtain ⟨hpathi, hci⟩ := hcached s.curIndex hi0 hi1
    obtain ⟨pi, hpi⟩ := Option.isSome_iff_exists.mp hci
    obtain ⟨hpathn, hcn⟩ := hcached (s.curIndex + 1) (by omega) (by omega)
    obtain ⟨pn, hpn⟩ := Option.isSome_iff_exists.mp hcn
    have hdi : s.currentImage.data = some pi := by rw [hcurrent, hpi]
    have hq1 : qBound 0 (s.curIndex + 1) (ImageSourceModel.rowCount s.sourceModel - 1) =
        s.curIndex + 1 := by
      simp only [qBound]
      omega
    have hs1q : qBound 0 (s.curIndex + 1) (s1.imageCount - 1) = s.curIndex + 1 := by
      simp [hs1, imageCount, hq1]
    have hv1 : s1.curIndex ≠ qBound 0 (s.curIndex + 1) (s1.imageCount - 1) := by
      rw [hs1q]
      simp [hs1]
    have hti : t.curIndex = s.curIndex + 1 := by
      rw [ht, setIndexAndFrameIndex_curIndex, if_pos hv1]
    have htf : t.curFrameIndex = 0 := by
      rw [ht, setIndexAndFrameIndex_curFrameIndex]
      simp only [qBound]
      omega
    have htp : t.hasPrevious = true := by
      rw [ht, setIndexAndFrameIndex_hasPrevious, ← ht, hti]
      simp only [decide_eq_true_eq]
      omega
    have htm : t.sourceModel = s.sourceModel := by simp [ht, hs1]
    have hth : t.env.heap = s.env.heap := by
      rw [ht, setIndexAndFrameIndex_eq]
      simp [hs1]
    have htc : t.env.cacheInstance.cache = s.env.cacheInstance.cache := by
      rw [ht, setIndexAndFrameIndex_cache]
      simp [hs1]
    have htimg : t.currentImage = (s1.indexStep (s.curIndex + 1)).currentImage := by
      rw [ht, setIndexAndFrameIndex_eq]
      simp
    have hstepn := indexStep_to_cached s1 (s.curIndex + 1) pn hv1
      (by rw [hs1q]; simpa [hs1] using hpathn)
      (by rw [hs1q]; simpa [hs1] using hpn)
    rw [hs1q] at hstepn
    have htkey : t.currentImage.currentIndex = s.currentImage.currentIndex := by
      rw [htimg, indexStep_frameKey]
      simp [hs1]
    have hturl : t.currentImage.imageUrl =
        ImageSourceModel.data s.sourceModel (s.curIndex + 1) := by
      rw [htimg, hstepn.2]
      simp [hs1]
    have htdata : t.currentImage.data =
        if s.currentImage.imageUrl ≠ ImageSourceModel.data s.sourceModel (s.curIndex + 1)
        then some pn else s.currentImage.data := by
      rw [htimg, hstepn.1]
      simp [hs1]
    rw [previousImage_of_first_frame t htp htf (by omega)]
    set t1 := t.submitImageChangeImmediately with ht1
    have ht1q : qBound 0 (t.curIndex - 1) (t1.imageCount - 1) = s.curIndex := by
      simp only [ht1, imageCount, submitImageChangeImmediately_sourceModel, htm, hti, qBound]
      omega
    have hv2 : t1.curIndex ≠ qBound 0 (t.curIndex - 1) (t1.imageCount - 1) := by
      rw [ht1q]
      simp only [ht1, submitImageChangeImmediately_curIndex, hti]
      omega
    have hfind : t1.env.cacheInstance.find
        (ImageSourceModel.data t1.sourceModel s.curIndex).toLocalFile
        t1.currentImage.currentIndex = some pi := by
      simp only [ImageInfoCache.find, ht1, submitImageChangeImmediately_env_cacheInstance,
        submitImageChangeImmediately_sourceModel, submitImageChangeImmediately_currentImage,
        htc, htm, htkey]
      exact hpi
    have hstepb := indexStep_to_cached t1 (t.curIndex - 1) pi hv2
      (by rw [ht1q]; simpa [ht1, htm] using hpathi)
      (by rw [ht1q]; exact hfind)
    rw [ht1q] at hstepb
    have hback : (t1.indexStep (t.curIndex - 1)).currentImage.data = s.currentImage.data := by
      rw [hstepb.1, hdi]
      simp only [ht1, submitImageChangeImmediately_currentImage,
        submitImageChangeImmediately_sourceModel, htm, hturl, htdata]
      by_cases h1 : ImageSourceModel.data s.sourceModel (s.curIndex + 1) =
          ImageSourceModel.data s.sourceModel s.curIndex
      · by_cases h2 : s.currentImage.imageUrl =
            ImageSourceModel.data s.sourceModel (s.curIndex + 1)
        · simp [h1, h2, hdi]
        · have : pn = pi := by
            rw [h1, hpi] at hpn
            exact (Option.some.inj hpn).symm
          simp [h1, h2, this, hdi]
      · simp [h1]
    have hfc : ImageInfo.frameCount (t1.indexStep (t.curIndex - 1)).env
        (t1.indexStep (t.curIndex - 1)).currentImage =
        ImageInfo.frameCount s.env s.currentImage :=
      ImageInfo.frameCount_congr _ _ _ _ (by simp [ht1, hth]) hback
    refine ⟨rfl, ?_, ?_⟩
    · show (t1.setIndexAndFrameIndex (t.curIndex - 1) INT_MAX).curIndex = s.curIndex
      rw [setIndexAndFrameIndex_curIndex, if_pos hv2, hti]
      omega
    · show (t1.setIndexAndFrameIndex (t.curIndex - 1) INT_MAX).curFrameIndex = s.curFrameIndex
      rw [setIndexAndFrameIndex_curFrameIndex, hfc]
      simp only [qBound, INT_MAX] at hint ⊢
      by_cases hty : ImageInfo.type s.env s.currentImage = Types.ImageType.MultiImage
      · obtain ⟨hf0, hf1⟩ := hmulti hty
        have : ¬ s.curFrameIndex < ImageInfo.frameCount s.env s.currentImage - 1 :=
          fun h => hnot ⟨hty, h⟩
        omega
      · obtain ⟨hf0, hf1⟩ := hsingle hty
        omega

/-- C27, at inputs: from frame 2 of the first image (4 frames) of two, `nextImage` goes to
frame 3 and `previousImage` comes back to (0, 2); from frame 3 it goes to the second image
and `previousImage` comes back to (0, 3). -/
theorem C27_next_then_previous_restores_witness :
    firstOfTwoAtFrame.nextImage.1.curFrameIndex = 3 ∧
    firstOfTwoAtFrame.nextImage.1.previousImage.2 = true ∧
    firstOfTwoAtFrame.nextImage.1.previousImage.1.currentIndex = 0 ∧
    firstOfTwoAtFrame.nextImage.1.previousImage.1.currentFrameIndex = 2 ∧
    firstOfTwoAtLastFrame.nextImage.1.curIndex = 1 ∧
    firstOfTwoAtLastFrame.nextImage.1.previousImage.1.currentIndex = 0 ∧
    firstOfTwoAtLastFrame.nextImage.1.previousImage.1.currentFrameIndex = 3 :=
  have hv1 : ValidNavigation firstOfTwoAtFrame :=
    ⟨by decide, by decide,
     by
      intro j hj0 hj1
      have hn : firstOfTwoAtFrame.imageCount = 2 := rfl
      have hj : j = 0 ∨ j = 1 := by omega
      rcases hj with rfl | rfl
      · exact ⟨by decide, by decide⟩
      · exact ⟨by decide, by decide⟩,
     by decide, by decide, by decide, by decide⟩
  have hv2 : ValidNavigation firstOfTwoAtLastFrame :=
    ⟨by decide, by decide,
     by
      intro j hj0 hj1
      have hn : firstOfTwoAtLastFrame.imageCount = 2 := rfl
      have hj : j = 0 ∨ j = 1 := by omega
      rcases hj with rfl | rfl
      · exact ⟨by decide, by decide⟩
      · exact ⟨by decide, by decide⟩,
     by decide, by decide, by decide, by decide⟩
  have h1 := C27_next_then_previous_restores firstOfTwoAtFrame hv1 (by decide)
  have h2 := C27_next_then_previous_restores firstOfTwoAtLastFrame hv2 (by decide)
  ⟨by decide, h1.1, h1.2.1, h1.2.2, by decide, h2.2.1, h2.2.2⟩

end GlobalControl

/-! ## ImageInfo: clearing the cache of the current file -/

namespace ImageInfo

open Examples

/-- C24, the code at a failing input: the record that a run delivers for the static image
`/a` has frame count 0; with that record cached for `("/a", 0)` and held by the handle,
`clearCurrentCache` removes nothing and emits nothing, and `find("/a", 0)` still returns
the record. On a handle that holds a multi-page record with 4 frames the same call removes
the cached frame 0. -/
theorem C24_clearCurrentCache_keeps_single_frame_record :
    (LoadImageInfoRunnable.run staticDecoder "/a" 0).delivered = [("/a", 0, staticRecord)] ∧
    staticRecord.frameCount = 0 ∧
    handleOnA.data = some 0 ∧
    staticCached.cacheInstance.find "/a" 0 = some 0 ∧
    (clearCurrentCache staticCached handleOnA).1.cacheInstance.find "/a" 0 = some 0 ∧
    (clearCurrentCache staticCached handleOnA).1.log = [] ∧
    twoRecords.cacheInstance.find "/a" 0 = some 1 ∧
    (clearCurrentCache twoRecords handleOnMulti).1.cacheInstance.find "/a" 0 = none := by
  decide

end ImageInfo

/-! ## LoadImageInfoRunnable: the stored thumbnail -/

namespace LoadImageInfoRunnable

open Examples

/-- C30, as stated, fails: when the sniffed type is none of the five named ones, the adaptor
gives type Damaged, the load of frame 0 still runs, and on its success a thumbnail is stored
under the requested key while the delivered metadata has type Damaged. -/
theorem C30_thumbnail_stored_for_damaged_type :
    (run otherDecoder "/a" 0).thumbnails = [("/a", 0)] ∧
    (run otherDecoder "/a" 0).delivered =
      [("/a", 0, { path := "/a", type := Types.ImageType.DamagedImage, width := 30,
                   height := 20, exist := true })] := by
  decide

/-- C30, amended: for every decode run, a thumbnail is stored, under the requested key and
no other, if and only if the delivered metadata has exists = true, a type other than Null,
and either a type other than Damaged, or type Damaged for a file whose sniffed type is none of
the five named ones and whose frame 0 was asked and loaded. -/
theorem C30_thumbnail_stored_iff (env : Decoder) (loadPath : String) (frameIndex : Int) :
    ((run env loadPath frameIndex).thumbnails = [] ∨
      (run env loadPath frameIndex).thumbnails = [(loadPath, frameIndex)]) ∧
    ((run env loadPath frameIndex).thumbnails = [(loadPath, frameIndex)] ↔
      ∃ d : ImageInfoData,
        (run env loadPath frameIndex).delivered = [(loadPath, frameIndex, d)] ∧
        d.exist = true ∧ d.type ≠ Types.ImageType.NullImage ∧
        (d.type ≠ Types.ImageType.DamagedImage ∨
          (env.getImageType loadPath = imageViewerSpace.ImageType.ImageTypeOther ∧
            frameIndex = 0 ∧ (env.loadStaticImageFromFile loadPath).isSome = true))) := by
  unfold run loadImage
  by_cases hc : env.closingDown = true
  · simp [hc]
  · have hc2 : env.closingDown = false := by simpa using hc
    simp only [hc2, Bool.false_eq_true, if_false]
    by_cases he : env.fileExists loadPath = true
    · cases ht : env.getImageType loadPath with
      | ImageTypeBlank => simp [he, imageTypeAdapator]
      | ImageTypeMulti =>
        cases hr : env.readFrame loadPath frameIndex <;> simp [he, imageTypeAdapator]
      | ImageTypeSvg =>
        by_cases hf : frameIndex = 0
        · cases hl : env.loadStaticImageFromFile loadPath <;>
            simp [he, imageTypeAdapator, hf]
        · simp [he, imageTypeAdapator, hf]
      | ImageTypeStatic =>
        by_cases hf : frameIndex = 0
        · cases hl : env.loadStaticImageFromFile loadPath <;>
            simp [he, imageTypeAdapator, hf]
        · simp [he, imageTypeAdapator, hf]
      | ImageTypeDynamic =>
        by_cases hf : frameIndex = 0
        · cases hl : env.loadStaticImageFromFile loadPath <;>
            simp [he, imageTypeAdapator, hf]
        · simp [he, imageTypeAdapator, hf]
      | ImageTypeOther =>
        by_cases hf : frameIndex = 0
        · cases hl : env.loadStaticImageFromFile loadPath <;>
            simp [he, imageTypeAdapator, hf]
        · simp [he, imageTypeAdapator, hf]
    · have he2 : env.fileExists loadPath = false := by simpa using he
      simp [he2]

end LoadImageInfoRunnable

/-! ## The cache of recent full images -/

namespace ThumbnailCache

theorem others_length_le (c : ThumbnailCache) (key : Key) :
    (c.others key).length ≤ c.entries.length :=
  List.length_filter_le _ _

theorem others_length_lt_of_lookup (l : List (Key × QImage)) (key : Key) (image : QImage) :
    (l.find? (fun e => decide (e.1 = key))).map Prod.snd = some image →
      (l.filter (fun e => decide (e.1 ≠ key))).length + 1 ≤ l.length := by
  induction l with
  | nil => simp
  | cons e l ih =>
    intro h
    by_cases he : e.1 = key
    · have h2 := List.length_filter_le (fun e => decide (e.1 ≠ key)) l
      rw [List.filter_cons, if_neg (by simp [he]), List.length_cons]
      omega
    · have h2 := ih (by simpa [List.find?_cons, he] using h)
      rw [List.filter_cons, if_pos (by simp [he]), List.length_cons, List.length_cons]
      omega

@[simp] theorem add_maxCost (c : ThumbnailCache) (path : String) (frameIndex : Int)
    (image : QImage) : (c.add path frameIndex image).maxCost = c.maxCost := rfl

@[simp] theorem remove_maxCost (c : ThumbnailCache) (path : String) (frameIndex : Int) :
    (c.remove path frameIndex).maxCost = c.maxCost := rfl

@[simp] theorem get_maxCost (c : ThumbnailCache) (path : String) (frameIndex : Int) :
    (c.get path frameIndex).2.maxCost = c.maxCost := by
  unfold get
  split <;> rfl

theorem add_length (c : ThumbnailCache) (path : String) (frameIndex : Int) (image : QImage) :
    (c.add path frameIndex image).entries.length ≤ c.maxCost.toNat := by
  simp only [add, List.length_take]
  exact Nat.min_le_left _ _

theorem remove_length (c : ThumbnailCache) (path : String) (frameIndex : Int) :
    (c.remove path frameIndex).entries.length ≤ c.entries.length :=
  others_length_le c _

theorem get_length (c : ThumbnailCache) (path : String) (frameIndex : Int) :
    (c.get path frameIndex).2.entries.length ≤ c.entries.length := by
  unfold get
  cases h : c.lookup (toFindKey path frameIndex) with
  | none => exact le_refl _
  | some image =>
    have := others_length_lt_of_lookup c.entries (toFindKey path frameIndex) image h
    simp only [List.length_cons, others]
    omega

end ThumbnailCache

namespace ThumbnailCache

theorem within_add (c : ThumbnailCache) (n : Nat) (path : String) (frameIndex : Int)
    (image : QImage) (h : c.Within n) : (c.add path frameIndex image).Within n := by
  refine ⟨h.1, ?_⟩
  have := add_length c path frameIndex image
  rw [h.1] at this
  simpa using this

theorem within_remove (c : ThumbnailCache) (n : Nat) (path : String) (frameIndex : Int)
    (h : c.Within n) : (c.remove path frameIndex).Within n :=
  ⟨h.1, le_trans (remove_length c path frameIndex) h.2⟩

theorem within_get (c : ThumbnailCache) (n : Nat) (path : String) (frameIndex : Int)
    (h : c.Within n) : (c.get path frameIndex).2.Within n :=
  ⟨by rw [get_maxCost]; exact h.1, le_trans (get_length c path frameIndex) h.2⟩

theorem within_take (c : ThumbnailCache) (n : Nat) (path : String) (frameIndex : Int)
    (h : c.Within n) : (c.take path frameIndex).2.Within n :=
  within_remove c n path frameIndex h

theorem within_clear (c : ThumbnailCache) (n : Nat) (h : c.Within n) : c.clear.Within n :=
  ⟨h.1, Nat.zero_le _⟩

theorem within_foldl (n : Nat) (f : ThumbnailCache → Key → ThumbnailCache)
    (hf : ∀ c key, c.Within n → (f c key).Within n) (keys : List Key) :
    ∀ c : ThumbnailCache, c.Within n → (keys.foldl f c).Within n := by
  induction keys with
  | nil =>
    intro c h
    exact h
  | cons key rest ih =>
    intro c h
    exact ih _ (hf c key h)

end ThumbnailCache

namespace AsyncImageProvider

open ThumbnailCache Examples

theorem within_init (initialCost : Int) : (init initialCost).imageCache.Within 4 :=
  ⟨rfl, by simp [init, ThumbnailCache.setMaxCost, ThumbnailCache.empty]⟩

theorem within_run (env : ImageLib) (p : ProviderCache) (id : String) (size : Int × Int)
    (h : p.imageCache.Within 4) : (AsyncImageResponse.run env p id size).1.imageCache.Within 4 := by
  have hg := within_get p.imageCache 4 (parseProviderID id).1 (parseProviderID id).2 h
  simp only [AsyncImageResponse.run]
  split_ifs <;> first | exact within_add _ _ _ _ _ hg | exact hg

theorem within_rotateImageCached (env : ImageLib) (p : ProviderCache) (angle : Int)
    (imagePath : String) (frameIndex : Int) (h : p.imageCache.Within 4) :
    (p.rotateImageCached env angle imagePath frameIndex).1.imageCache.Within 4 := by
  have hg := within_get p.imageCache 4 imagePath frameIndex h
  simp only [ProviderCache.rotateImageCached]
  split_ifs <;>
    first
    | exact within_add _ _ _ _ _ hg
    | exact within_add _ _ _ _ _ h
    | exact hg
    | exact h

theorem within_removeImageCache (p : ProviderCache) (imagePath : String)
    (h : p.imageCache.Within 4) : (p.removeImageCache imagePath).imageCache.Within 4 := by
  simp only [ProviderCache.removeImageCache]
  apply within_foldl 4 _ _ _ _ h
  intro c key hc
  split_ifs
  · exact within_remove _ _ _ _ hc
  · exact hc

theorem within_renameImageCache (p : ProviderCache) (oldPath newPath : String)
    (h : p.imageCache.Within 4) : (p.renameImageCache oldPath newPath).imageCache.Within 4 := by
  simp only [ProviderCache.renameImageCache]
  apply within_foldl 4 _ _ _ _ h
  intro c key hc
  split_ifs
  · exact within_add _ _ _ _ _ (within_take _ _ _ _ hc)
  · exact hc

theorem within_step (env : ImageLib) (p : ProviderCache) (op : Op)
    (h : p.imageCache.Within 4) : (step env p op).imageCache.Within 4 := by
  cases op with
  | requestImageResponse id requestedSize => exact within_run env p id requestedSize h
  | preloadImage filePath => exact within_run env p filePath _ h
  | rotateImageCached angle imagePath frameIndex =>
    exact within_rotateImageCached env p angle imagePath frameIndex h
  | removeImageCache imagePath => exact within_removeImageCache p imagePath h
  | renameImageCache oldPath newPath => exact within_renameImageCache p oldPath newPath h
  | clearCache => exact within_clear _ _ h

theorem within_exec (env : ImageLib) (ops : List Op) :
    ∀ p : ProviderCache, p.imageCache.Within 4 → (exec env p ops).imageCache.Within 4 := by
  induction ops with
  | nil =>
    intro p h
    exact h
  | cons op rest ih =>
    intro p h
    exact ih _ (within_step env p op h)

/-- C22: the cache of recent full images of an `AsyncImageProvider`, whose constructor sets
the budget to 4 (every entry has cost 1), never holds more than 4 entries, whatever sequence
of operations of the provider has run; and after the insertion of 4 distinct keys, a `get` of
key #1 (which returns its payload) and the insertion of a 5th key, the cache holds the keys
#5, #1, #4, #3 from the most to the least recently used: key #2, not key #1, is evicted. -/
theorem C22_recent_image_cache_evicts_least_recently_used (env : ImageLib)
    (initialCost : Int) (ops : List Op) (k1 k2 k3 k4 k5 : Key) (i1 i2 i3 i4 i5 : QImage)
    (hk : [k1, k2, k3, k4, k5].Nodup) :
    (init initialCost).imageCache.maxCost = 4 ∧
    (exec env (init initialCost) ops).imageCache.totalCost ≤ 4 ∧
    (((init initialCost).imageCache.addAll
      [(k1, i1), (k2, i2), (k3, i3), (k4, i4)]).get k1.1 k1.2).1 = i1 ∧
    ((((init initialCost).imageCache.addAll
      [(k1, i1), (k2, i2), (k3, i3), (k4, i4)]).get k1.1 k1.2).2.add k5.1 k5.2 i5).entries =
        [(k5, i5), (k1, i1), (k4, i4), (k3, i3)] ∧
    ((((init initialCost).imageCache.addAll
      [(k1, i1), (k2, i2), (k3, i3), (k4, i4)]).get k1.1 k1.2).2.add k5.1 k5.2 i5).contains
        k2.1 k2.2 = false ∧
    ((((init initialCost).imageCache.addAll
      [(k1, i1), (k2, i2), (k3, i3), (k4, i4)]).get k1.1 k1.2).2.add k5.1 k5.2 i5).contains
        k1.1 k1.2 = true := by
  have hw := (within_exec env ops (init initialCost) (within_init initialCost)).2
  simp only [List.nodup_cons, List.mem_cons, List.mem_singleton, not_or, List.not_mem_nil,
    not_false_eq_true, List.nodup_nil, and_true] at hk
  obtain ⟨⟨h12, h13, h14, h15⟩, ⟨h23, h24, h25⟩, ⟨h34, h35⟩, h45⟩ := hk
  have h4 : (init initialCost).imageCache.addAll [(k1, i1), (k2, i2), (k3, i3), (k4, i4)] =
      { maxCost := 4, entries := [(k4, i4), (k3, i3), (k2, i2), (k1, i1)] } := by
    simp [init, ThumbnailCache.addAll, ThumbnailCache.add, ThumbnailCache.others,
      ThumbnailCache.setMaxCost, ThumbnailCache.empty, toFindKey, h12, h13, h14, h23, h24, h34,
      Ne.symm h12, Ne.symm h13, Ne.symm h14, Ne.symm h23, Ne.symm h24, Ne.symm h34]
  have hg : ({ maxCost := 4, entries := [(k4, i4), (k3, i3), (k2, i2), (k1, i1)] } :
      ThumbnailCache).get k1.1 k1.2 =
      (i1, { maxCost := 4, entries := [(k1, i1), (k4, i4), (k3, i3), (k2, i2)] }) := by
    simp [ThumbnailCache.get, ThumbnailCache.lookup, ThumbnailCache.others, toFindKey,
      List.find?_cons, h12, h13, h14, Ne.symm h12, Ne.symm h13, Ne.symm h14]
  rw [h4, hg]
  refine ⟨rfl, ?_, rfl, ?_, ?_, ?_⟩
  · simp only [ThumbnailCache.totalCost]
    exact_mod_cast hw
  · simp [ThumbnailCache.add, ThumbnailCache.others, toFindKey, h15, h25, h35, h45,
      Ne.symm h15, Ne.symm h25, Ne.symm h35, Ne.symm h45]
  · simp [ThumbnailCache.add, ThumbnailCache.others, ThumbnailCache.contains,
      ThumbnailCache.lookup, toFindKey, List.find?_cons, h12, h13, h14, h15, h23, h24, h25,
      h35, h45, Ne.symm h15, Ne.symm h25, Ne.symm h35, Ne.symm h45, Ne.symm h12, Ne.symm h23,
      Ne.symm h24]
  · simp [ThumbnailCache.add, ThumbnailCache.others, ThumbnailCache.contains,
      ThumbnailCache.lookup, toFindKey, List.find?_cons, h12, h13, h14, h15, h23, h24, h25,
      h35, h45, Ne.symm h15, Ne.symm h25, Ne.symm h35, Ne.symm h45, Ne.symm h12, Ne.symm h23,
      Ne.symm h24]

/-- C22, at an input: the keys are the first frames of `/a` to `/e`; the operations are
six requests for six files. -/
theorem C22_recent_image_cache_evicts_least_recently_used_witness :
    (exec sampleLib (init 100)
      [Op.requestImageResponse "file:///a" (-1, -1), Op.requestImageResponse "file:///b" (-1, -1),
        Op.requestImageResponse "file:///c" (-1, -1), Op.requestImageResponse "file:///d" (-1, -1),
        Op.requestImageResponse "file:///e" (-1, -1),
        Op.requestImageResponse "file:///f" (-1, -1)]).imageCache.totalCost ≤ 4 ∧
    ((((init 100).imageCache.addAll
      [(("/a", 0), QImage.image 1 1 [1]), (("/b", 0), QImage.image 1 1 [2]),
        (("/c", 0), QImage.image 1 1 [3]), (("/d", 0), QImage.image 1 1 [4])]).get
          "/a" 0).2.add "/e" 0 (QImage.image 1 1 [5])).contains "/b" 0 = false :=
  have h := C22_recent_image_cache_evicts_least_recently_used sampleLib 100
    [Op.requestImageResponse "file:///a" (-1, -1), Op.requestImageResponse "file:///b" (-1, -1),
      Op.requestImageResponse "file:///c" (-1, -1), Op.requestImageResponse "file:///d" (-1, -1),
      Op.requestImageResponse "file:///e" (-1, -1), Op.requestImageResponse "file:///f" (-1, -1)]
    ("/a", 0) ("/b", 0) ("/c", 0) ("/d", 0) ("/e", 0)
    (QImage.image 1 1 [1]) (QImage.image 1 1 [2]) (QImage.image 1 1 [3])
    (QImage.image 1 1 [4]) (QImage.image 1 1 [5]) (by decide)
  ⟨h.2.1, h.2.2.2.2.1⟩

end AsyncImageProvider

/-! ## ProviderCache: the rotation state -/

namespace ProviderCache

open Examples

/-- C25, the code at failing inputs: `rotateImageCached(0, path, frame)` returns at once and
leaves the provider as it is, the recorded rotation state included. After a rotation of `/a`
by 90 and a call with angle 0, the last-rotated path is still `/a`, the saved image is still
the image loaded first and the accumulated angle is still 90; the next rotation by 90
accumulates to 180. When the file has been rewritten and reloaded in between, that rotation
still starts from the saved old image: the cache ends with the old image rotated by 180, not
with the image it held rotated by 90. -/
theorem C25_rotateImageCached_zero_keeps_rotation_state :
    (∀ (env : ImageLib) (p : ProviderCache) (imagePath : String) (frameIndex : Int),
      p.rotateImageCached env 0 imagePath frameIndex = (p, [])) ∧
    ((providerWithA.rotateImageCached sampleLib 90 "/a" 0).1.rotateImageCached sampleLib 0
      "/a" 0).1.lastRotatePath = "/a" ∧
    ((providerWithA.rotateImageCached sampleLib 90 "/a" 0).1.rotateImageCached sampleLib 0
      "/a" 0).1.lastRotateImage = QImage.image 30 20 [1] ∧
    ((providerWithA.rotateImageCached sampleLib 90 "/a" 0).1.rotateImageCached sampleLib 0
      "/a" 0).1.lastRotation = 90 ∧
    ((((providerWithA.rotateImageCached sampleLib 90 "/a" 0).1.rotateImageCached sampleLib 0
      "/a" 0).1.rotateImageCached sampleLib 90 "/a" 0).1.lastRotation = 180) ∧
    ((AsyncImageResponse.run changedLib
      (((providerWithA.rotateImageCached sampleLib 90 "/a" 0).1.rotateImageCached sampleLib 0
        "/a" 0).1.removeImageCache "/a") "file:///a" (-1, -1)).1.imageCache.lookup ("/a", 0)
      = some (QImage.image 40 10 [2])) ∧
    (((AsyncImageResponse.run changedLib
      (((providerWithA.rotateImageCached sampleLib 90 "/a" 0).1.rotateImageCached sampleLib 0
        "/a" 0).1.removeImageCache "/a") "file:///a" (-1, -1)).1.rotateImageCached changedLib 90
      "/a" 0).1.imageCache.lookup ("/a", 0) = some (QImage.image 30 20 [180, 1])) := by
  refine ⟨?_, by decide, by decide, by decide, by decide, by decide, by decide⟩
  intro env p imagePath frameIndex
  simp [rotateImageCached]

end ProviderCache

/-! ## parseProviderID -/

namespace QString

theorem digitChar_spec : ∀ k : Nat, k < 10 →
    (Nat.digitChar k).isDigit = true ∧ ((Nat.digitChar k).toNat : Int) - 48 = k := by
  decide

theorem digitsValue_append (l : List Char) (c : Char) :
    digitsValue (l ++ [c]) = 10 * digitsValue l + ((c.toNat : Int) - 48) := by
  simp [digitsValue, List.foldl_append]

/-- The digits that `Nat.toDigitsCore` puts in front of its accumulator. -/
theorem toDigitsCore_spec (fuel : Nat) :
    ∀ (n : Nat) (ds : List Char), n < fuel →
      ∃ l : List Char, Nat.toDigitsCore 10 fuel n ds = l ++ ds ∧ l ≠ [] ∧
        l.all Char.isDigit = true ∧ digitsValue l = n := by
  induction fuel with
  | zero =>
    intro n ds h
    omega
  | succ fuel ih =>
    intro n ds h
    have hd := digitChar_spec (n % 10) (Nat.mod_lt _ (by decide))
    unfold Nat.toDigitsCore
    by_cases h0 : n / 10 = 0
    · refine ⟨[Nat.digitChar (n % 10)], by simp [h0], by simp, by simp [hd.1], ?_⟩
      simp only [digitsValue, List.foldl_cons, List.foldl_nil, mul_zero, zero_add]
      rw [hd.2]
      have : n % 10 = n := by omega
      rw [this]
    · obtain ⟨l, hl, hne, hall, hv⟩ := ih (n / 10) (Nat.digitChar (n % 10) :: ds) (by omega)
      refine ⟨l ++ [Nat.digitChar (n % 10)], by simp [h0, hl], by simp, ?_, ?_⟩
      · simp [List.all_append, hall, hd.1]
      · rw [digitsValue_append, hv, hd.2]
        push_cast
        omega

/-- The decimal digits of `n` as `Nat.repr` writes them: one or more digits of value `n`. -/
theorem repr_spec (n : Nat) :
    (Nat.repr n).data ≠ [] ∧ (Nat.repr n).data.all Char.isDigit = true ∧
      digitsValue (Nat.repr n).data = n := by
  obtain ⟨l, hl, hne, hall, hv⟩ := toDigitsCore_spec (n + 1) n [] (by omega)
  have : (Nat.repr n).data = l := by
    simp [Nat.repr, Nat.toDigits, hl, List.asString]
  rw [this]
  exact ⟨hne, hall, hv⟩

theorem not_isSpace_of_isDigit (c : Char) (h : c.isDigit = true) : isSpace c = false := by
  have h1 : 48 ≤ c.toNat ∧ c.toNat ≤ 57 := by
    simp only [Char.isDigit, Bool.and_eq_true, decide_eq_true_eq] at h
    exact ⟨h.1, h.2⟩
  have h2 : c ≠ ' ' := by
    intro he
    rw [he] at h
    exact absurd h (by decide)
  simp only [isSpace, Bool.or_eq_false_iff, Bool.and_eq_false_iff, decide_eq_false_iff_not]
  refine ⟨⟨⟨h2, ?_⟩, ?_⟩, ?_⟩
  · right
    omega
  · omega
  · omega

theorem dropWhile_isSpace_of_digits (ds : List Char) (hall : ds.all Char.isDigit = true) :
    ds.dropWhile isSpace = ds := by
  cases ds with
  | nil => rfl
  | cons c cs =>
    have hc : c.isDigit = true := by
      simp only [List.all_cons, Bool.and_eq_true] at hall
      exact hall.1
    simp [List.dropWhile_cons, not_isSpace_of_isDigit c hc]

theorem trimmed_digits (ds : List Char) (hall : ds.all Char.isDigit = true) :
    trimmed ds = ds := by
  have hr : ds.reverse.all Char.isDigit = true := by simpa using hall
  simp only [trimmed]
  rw [dropWhile_isSpace_of_digits ds hall, dropWhile_isSpace_of_digits _ hr, List.reverse_reverse]

theorem trimmed_digits_line_feed (ds : List Char) (hne : ds ≠ [])
    (hall : ds.all Char.isDigit = true) : trimmed (ds ++ ['\n']) = ds := by
  have hr : ds.reverse.all Char.isDigit = true := by simpa using hall
  have hh : (ds ++ ['\n']).dropWhile isSpace = ds ++ ['\n'] := by
    cases ds with
    | nil => exact absurd rfl hne
    | cons c cs =>
      have hc : c.isDigit = true := by
        simp only [List.all_cons, Bool.and_eq_true] at hall
        exact hall.1
      simp [List.dropWhile_cons, not_isSpace_of_isDigit c hc]
  simp only [trimmed]
  rw [hh, List.reverse_append, List.reverse_singleton, List.singleton_append,
    List.dropWhile_cons, if_pos (by decide), dropWhile_isSpace_of_digits _ hr,
    List.reverse_reverse]

/-- `toInt` of one or more decimal digits whose value is an `int`. -/
theorem toInt_digits (ds : List Char) (hne : ds ≠ []) (hall : ds.all Char.isDigit = true)
    (h0 : 0 ≤ digitsValue ds) (hmax : digitsValue ds ≤ INT_MAX) (t : List Char)
    (ht : trimmed t = ds) : toInt t = digitsValue ds := by
  have hhead : ds.head? ≠ some '-' ∧ ds.head? ≠ some '+' := by
    cases ds with
    | nil => exact absurd rfl hne
    | cons c cs =>
      have hc : c.isDigit = true := by
        simp only [List.all_cons, Bool.and_eq_true] at hall
        exact hall.1
      constructor
      · intro he
        simp only [List.head?_cons, Option.some.injEq] at he
        rw [he] at hc
        exact absurd hc (by decide)
      · intro he
        simp only [List.head?_cons, Option.some.injEq] at he
        rw [he] at hc
        exact absurd hc (by decide)
  simp only [toInt, ht, hhead.1, hhead.2, or_self, if_false, decide_False, Bool.false_eq_true]
  rw [if_pos ⟨hne, hall⟩, if_pos ⟨by omega, hmax⟩]

theorem lastIndexOfFrameTag_ge (l : List Char) : -1 ≤ lastIndexOfFrameTag l := by
  induction l with
  | nil => simp [lastIndexOfFrameTag]
  | cons c cs ih =>
    simp only [lastIndexOfFrameTag]
    split_ifs <;> omega

theorem frameTagAt_of_ne (c : Char) (cs : List Char) (h : c ≠ '#') :
    frameTagAt (c :: cs) = false := by
  unfold frameTagAt
  split
  · rename_i heq
    simp only [List.cons.injEq] at heq
    exact absurd heq.1 h
  · rfl

/-- The pattern matches nowhere in a text without `#`. -/
theorem lastIndexOfFrameTag_of_no_hash (l : List Char) (h : ∀ c ∈ l, c ≠ '#') :
    lastIndexOfFrameTag l = -1 := by
  induction l with
  | nil => rfl
  | cons c cs ih =>
    have h1 := ih (fun d hd => h d (List.mem_cons_of_mem _ hd))
    have h2 := frameTagAt_of_ne c cs (h c (List.mem_cons_self _ _))
    simp [lastIndexOfFrameTag, h1, h2]

/-- A match further right moves with the text put in front. -/
theorem lastIndexOfFrameTag_append (p t : List Char) (h : lastIndexOfFrameTag t ≠ -1) :
    lastIndexOfFrameTag (p ++ t) = p.length + lastIndexOfFrameTag t := by
  induction p with
  | nil => simp
  | cons c cs ih =>
    have hge := lastIndexOfFrameTag_ge t
    have hne : lastIndexOfFrameTag (cs ++ t) ≠ -1 := by
      rw [ih]
      omega
    have e : lastIndexOfFrameTag (c :: (cs ++ t)) = lastIndexOfFrameTag (cs ++ t) + 1 := by
      rw [lastIndexOfFrameTag, if_pos hne]
    rw [List.cons_append, e, ih, List.length_cons]
    push_cast
    omega

theorem digit_ne_hash (ds : List Char) (hall : ds.all Char.isDigit = true) :
    ∀ c ∈ ds, c ≠ '#' := by
  intro c hc he
  have := List.all_eq_true.mp hall c hc
  rw [he] at this
  exact absurd this (by decide)

theorem getLast?_digits_ne_line_feed (ds : List Char) (hall : ds.all Char.isDigit = true) :
    ds.getLast? ≠ some '\n' := by
  intro h
  have hm : '\n' ∈ ds := List.mem_of_getLast?_eq_some h
  have := List.all_eq_true.mp hall _ hm
  exact absurd this (by decide)

theorem frameTagAt_tag_digits (ds : List Char) (hne : ds ≠ [])
    (hall : ds.all Char.isDigit = true) : frameTagAt (s_tagFrame.data ++ ds) = true := by
  show frameTagAt ('#' :: 'f' :: 'r' :: 'a' :: 'm' :: 'e' :: '_' :: ds) = true
  simp only [frameTagAt, if_neg (getLast?_digits_ne_line_feed ds hall)]
  simp [hne, hall]

theorem frameTagAt_tag_digits_line_feed (ds : List Char) (hne : ds ≠ [])
    (hall : ds.all Char.isDigit = true) :
    frameTagAt (s_tagFrame.data ++ ds ++ ['\n']) = true := by
  show frameTagAt ('#' :: 'f' :: 'r' :: 'a' :: 'm' :: 'e' :: '_' :: (ds ++ ['\n'])) = true
  have h1 : (ds ++ ['\n']).getLast? = some '\n' := by simp
  have h2 : (ds ++ ['\n']).dropLast = ds := by simp
  simp only [frameTagAt, h1, if_true, h2]
  simp [hne, hall]

theorem no_hash_after_tag (ds : List Char) (hall : ds.all Char.isDigit = true) (tail : List Char)
    (ht : ∀ c ∈ tail, c ≠ '#') :
    ∀ c ∈ 'f' :: 'r' :: 'a' :: 'm' :: 'e' :: '_' :: (ds ++ tail), c ≠ '#' := by
  intro c hc
  simp only [List.mem_cons, List.mem_append] at hc
  rcases hc with h | h | h | h | h | h | h | h
  · rw [h]; decide
  · rw [h]; decide
  · rw [h]; decide
  · rw [h]; decide
  · rw [h]; decide
  · rw [h]; decide
  · exact digit_ne_hash ds hall c h
  · exact ht c h

/-- The pattern matches the id `p#frame_<digits>` at the length of `p`. -/
theorem lastIndexOfFrameTag_tag_digits (p ds : List Char) (hne : ds ≠ [])
    (hall : ds.all Char.isDigit = true) :
    lastIndexOfFrameTag (p ++ s_tagFrame.data ++ ds) = p.length := by
  have h0 : lastIndexOfFrameTag (s_tagFrame.data ++ ds) = 0 := by
    have hm := frameTagAt_tag_digits ds hne hall
    have hn := lastIndexOfFrameTag_of_no_hash _ (no_hash_after_tag ds hall [] (by simp))
    rw [List.append_nil] at hn
    show lastIndexOfFrameTag ('#' :: 'f' :: 'r' :: 'a' :: 'm' :: 'e' :: '_' :: ds) = 0
    rw [lastIndexOfFrameTag, hn]
    simp only [ne_eq, not_true_eq_false, if_false]
    exact if_pos hm
  rw [List.append_assoc, lastIndexOfFrameTag_append _ _ (by rw [h0]; decide), h0]
  simp

/-- The pattern matches the id `p#frame_<digits>` followed by a line feed at the length of
`p`. -/
theorem lastIndexOfFrameTag_tag_digits_line_feed (p ds : List Char) (hne : ds ≠ [])
    (hall : ds.all Char.isDigit = true) :
    lastIndexOfFrameTag (p ++ s_tagFrame.data ++ ds ++ ['\n']) = p.length := by
  have h0 : lastIndexOfFrameTag (s_tagFrame.data ++ ds ++ ['\n']) = 0 := by
    have hm := frameTagAt_tag_digits_line_feed ds hne hall
    have hn := lastIndexOfFrameTag_of_no_hash _
      (no_hash_after_tag ds hall ['\n'] (by simp))
    show lastIndexOfFrameTag
      ('#' :: 'f' :: 'r' :: 'a' :: 'm' :: 'e' :: '_' :: (ds ++ ['\n'])) = 0
    rw [lastIndexOfFrameTag, hn]
    simp only [ne_eq, not_true_eq_false, if_false]
    exact if_pos hm
  rw [List.append_assoc, List.append_assoc, ← List.append_assoc s_tagFrame.data,
    lastIndexOfFrameTag_append _ _ (by rw [h0]; decide), h0]
  simp

/-- Where the pattern matches, the text is `p#frame_<digits>`, possibly followed by a line
feed. -/
theorem exists_of_lastIndexOfFrameTag (l : List Char) (h : lastIndexOfFrameTag l ≠ -1) :
    ∃ (p ds : List Char), ds ≠ [] ∧ ds.all Char.isDigit = true ∧
      (l = p ++ s_tagFrame.data ++ ds ∨ l = p ++ s_tagFrame.data ++ ds ++ ['\n']) := by
  induction l with
  | nil => exact absurd rfl h
  | cons c cs ih =>
    by_cases hr : lastIndexOfFrameTag cs = -1
    · have hm : frameTagAt (c :: cs) = true := by
        by_contra hm
        apply h
        rw [lastIndexOfFrameTag, hr]
        simp [hm]
      unfold frameTagAt at hm
      split at hm
      · rename_i rest heq
        simp only [Bool.and_eq_true, decide_eq_true_eq] at hm
        by_cases hl : rest.getLast? = some '\n'
        · rw [if_pos hl] at hm
          refine ⟨[], rest.dropLast, hm.1, hm.2, Or.inr ?_⟩
          have : rest = rest.dropLast ++ ['\n'] := by
            have := List.dropLast_append_getLast? '\n' (by simpa using hl)
            exact this.symm
          rw [heq]
          show _ = '#' :: 'f' :: 'r' :: 'a' :: 'm' :: 'e' :: '_' :: (rest.dropLast ++ ['\n'])
          rw [← this]
        · rw [if_neg hl] at hm
          exact ⟨[], rest, hm.1, hm.2, Or.inl heq⟩
      · exact absurd hm (by simp)
    · obtain ⟨p, ds, hne, hall, hd⟩ := ih hr
      refine ⟨c :: p, ds, hne, hall, ?_⟩
      rcases hd with hd | hd
      · exact Or.inl (by rw [hd]; rfl)
      · exact Or.inr (by rw [hd]; rfl)

end QString

open QString

theorem take_tag (p rest : List Char) :
    (p ++ s_tagFrame.data ++ rest).take ((p.length : Int)).toNat = p := by
  rw [List.append_assoc, Int.toNat_ofNat, List.take_left]

theorem drop_tag (p rest : List Char) :
    (p ++ s_tagFrame.data ++ rest).drop ((p.length : Int).toNat + s_tagFrame.length) = rest := by
  have h : (p.length : Int).toNat + s_tagFrame.length = (p ++ s_tagFrame.data).length := by
    rw [Int.toNat_ofNat, List.length_append]
    rfl
  rw [h, List.drop_left]

/-- C23, as stated, fails: the id `file:///a#frame_3` followed by a line feed does not end
in `#frame_<digits>`, yet the pattern matches it (its `$` holds before a final line feed) and
`toInt` skips the line feed: the id parses to frame 3 and the file `/a`, not to frame 0 and
the path of the whole id. -/
theorem C23_id_with_final_line_feed_parses_to_frame :
    ¬ EndsInFrameTag "file:///a#frame_3\n" ∧
    parseProviderID "file:///a#frame_3\n" = ("/a", 3) ∧
    parseProviderID "file:///a#frame_3\n" ≠
      ((QUrl.fromString "file:///a#frame_3\n").toLocalFile, 0) := by
  refine ⟨?_, by decide, by decide⟩
  rintro ⟨p, ds, hne, hall, h⟩
  have h2 := congrArg List.getLast? h
  rw [List.getLast?_append_of_ne_nil _ hne] at h2
  exact getLast?_digits_ne_line_feed ds hall h2.symm

/-- C23, amended. For every path string `p` and every integer `n` with `0 ≤ n ≤ INT_MAX`, the
id `p` followed by `#frame_` and the decimal digits of `n` parses to frame index `n` and to
the file path of `p`, and so does that id followed by a line feed; an id that ends neither in
`#frame_<digits>` nor in `#frame_<digits>` and a line feed parses to frame index 0 and the
file path of the whole id. The id `file:///home/tmp.tif#frame_3` gives `/home/tmp.tif` and
frame 3. -/
theorem C23_parseProviderID_frame_tag (p : String) (n : Nat) (id : String)
    (hmax : (n : Int) ≤ INT_MAX) (hid : ¬ EndsInFrameTag id)
    (hid2 : ¬ EndsInFrameTagAndLineFeed id) :
    parseProviderID (p ++ s_tagFrame ++ Nat.repr n) =
      ((QUrl.fromString p).toLocalFile, (n : Int)) ∧
    parseProviderID (p ++ s_tagFrame ++ Nat.repr n ++ "\n") =
      ((QUrl.fromString p).toLocalFile, (n : Int)) ∧
    parseProviderID id = ((QUrl.fromString id).toLocalFile, 0) ∧
    parseProviderID "file:///home/tmp.tif#frame_3" = ("/home/tmp.tif", 3) := by
  obtain ⟨hne, hall, hv⟩ := repr_spec n
  have hp : String.mk p.data = p := rfl
  have h00 : (0 : Int) ≤ digitsValue (Nat.repr n).data := by
    rw [hv]
    omega
  have hmx : digitsValue (Nat.repr n).data ≤ INT_MAX := by
    rw [hv]
    exact hmax
  refine ⟨?_, ?_, ?_, by decide⟩
  · have hi := lastIndexOfFrameTag_tag_digits p.data (Nat.repr n).data hne hall
    have hint := toInt_digits (Nat.repr n).data hne hall h00 hmx (Nat.repr n).data
      (trimmed_digits _ hall)
    have htake := take_tag p.data ((Nat.repr n).data)
    have hdrop := drop_tag p.data ((Nat.repr n).data)
    simp only [parseProviderID, String.data_append, hi]
    rw [if_neg (by omega), htake, hdrop, hp, hint, hv]
  · have hi := lastIndexOfFrameTag_tag_digits_line_feed p.data (Nat.repr n).data hne hall
    have hint := toInt_digits (Nat.repr n).data hne hall h00 hmx ((Nat.repr n).data ++ ['\n'])
      (trimmed_digits_line_feed _ hne hall)
    have htake := take_tag p.data ((Nat.repr n).data ++ ['\n'])
    have hdrop := drop_tag p.data ((Nat.repr n).data ++ ['\n'])
    have hnl : ("\n" : String).data = ['\n'] := rfl
    simp only [parseProviderID, String.data_append, hnl, hi]
    rw [List.append_assoc (p.data ++ s_tagFrame.data)]
    rw [if_neg (by omega), htake, hdrop, hp, hint, hv]
  · have hi : lastIndexOfFrameTag id.data = -1 := by
      by_contra hc
      obtain ⟨q, ds, hne2, hall2, hd⟩ := exists_of_lastIndexOfFrameTag id.data hc
      rcases hd with hd | hd
      · exact hid ⟨q, ds, hne2, hall2, hd⟩
      · exact hid2 ⟨q, ds, hne2, hall2, hd⟩
    simp [parseProviderID, hi]

/-- C23, amended, at inputs: the id of frame 12 of `/home/tmp.tif`, and the id of `/a.png`
without a tag. -/
theorem C23_parseProviderID_frame_tag_witness :
    parseProviderID ("file:///home/tmp.tif" ++ s_tagFrame ++ Nat.repr 12) =
      ("/home/tmp.tif", 12) ∧
    parseProviderID "file:///a.png" = ("/a.png", 0) :=
  have hid : ¬ EndsInFrameTag "file:///a.png" := by
    rintro ⟨p, ds, hne, hall, h⟩
    have h2 := congrArg List.getLast? h
    rw [List.getLast?_append_of_ne_nil _ hne] at h2
    have hm : 'g' ∈ ds := List.mem_of_getLast?_eq_some h2.symm
    exact absurd (List.all_eq_true.mp hall _ hm) (by decide)
  have hid2 : ¬ EndsInFrameTagAndLineFeed "file:///a.png" := by
    rintro ⟨p, ds, hne, hall, h⟩
    have h2 := congrArg List.getLast? h
    rw [List.getLast?_append_of_ne_nil _ (by simp)] at h2
    exact absurd h2 (by decide)
  have h := C23_parseProviderID_frame_tag "file:///home/tmp.tif" 12 "file:///a.png" (by decide)
    hid hid2
  ⟨h.1, h.2.2.1⟩
